import Mathlib

/-!
# VirtualDJ plugin shim: a shallow embedding of the flat ABI

The development follows `src/abi/vdj_plugin_abi.h` and
`src/vdj_plugin_shim/basic_plugin_shim.cpp`.

* Pointers are natural numbers, `0` being the null pointer.
* `int` values are integers; the shim performs no arithmetic on them.
* `float` and `double` values are carried by their IEEE-754 bit pattern; the
  shim only passes them on, and `0.0` is the all-zero pattern.
* The C++ heap is explicit: wrapper objects and adapter objects live in maps
  from addresses, and `new` takes the next unused address.
* A flat function either returns a value together with the successor world and
  the list of calls it made (virtual operations of the wrapper, entries of a
  flat callback table), or stops at a fault (a null or an invalid pointer was
  dereferenced).
-/

namespace VdjShim

/-! ## Basic types and constants (`vdj_plugin_abi.h`, lines 23-79) -/

/-- A machine address; `0` is the null pointer. -/
abbrev Ptr := Nat

/-- The null pointer. -/
def nullptr : Ptr := 0

/-- Conversion of an integer to the signed 32-bit range (two's complement). -/
def toInt32 (n : Int) : Int :=
  if n % 4294967296 < 2147483648 then n % 4294967296 else n % 4294967296 - 4294967296

/-- The result type `typedef int32_t HRESULT`. -/
abbrev HRESULT := Int

/-- The literal of `#define S_OK 0x00000000L`. -/
def S_OK_literal : Int := 0x00000000

/-- The literal of `#define S_FALSE 0x00000001L`. -/
def S_FALSE_literal : Int := 0x00000001

/-- The literal of `#define E_NOTIMPL 0x80004001L`. -/
def E_NOTIMPL_literal : Int := 0x80004001

/-- The literal of `#define E_FAIL 0x80004005L`. -/
def E_FAIL_literal : Int := 0x80004005

/-- The code `S_OK` as a value of type `HRESULT`. -/
def S_OK : HRESULT := toInt32 S_OK_literal

/-- The code `S_FALSE` as a value of type `HRESULT`. -/
def S_FALSE : HRESULT := toInt32 S_FALSE_literal

/-- The code `E_NOTIMPL` as a value of type `HRESULT`. -/
def E_NOTIMPL : HRESULT := toInt32 E_NOTIMPL_literal

/-- The code `E_FAIL` as a value of type `HRESULT`. -/
def E_FAIL : HRESULT := toInt32 E_FAIL_literal

/-- Bit pattern of a C `float`. -/
abbrev CFloat := Nat

/-- Bit pattern of a C `double`; `0.0` is the pattern `0`. -/
abbrev CDouble := Nat

/-- A C string pointer: `none` is the null pointer, `some s` points at the text `s`. -/
abbrev CStr := Option String

/-- The enumeration `EVdjVideoEngine`, by its integer value. -/
abbrev EVdjVideoEngine := Int

/-- The seven plugin kinds, one per family of flat functions. -/
inductive Kind
  | plugin
  | dsp
  | bufferDsp
  | positionDsp
  | videoFx
  | videoTransition
  | onlineSource
  deriving DecidableEq, Repr

/-! ## Info records -/

/-- The C++ record `TVdjPluginInfo8` that `OnGetPluginInfo` fills; its six fields are
the ones the shim reads at `basic_plugin_shim.cpp` lines 376-381. -/
structure TVdjPluginInfo8 where
  PluginName : CStr
  Author : CStr
  Description : CStr
  Version : CStr
  Bitmap : Ptr
  Flags : Nat
  deriving DecidableEq, Repr

/-- The value of `TVdjPluginInfo8 cpp_info = {}`: every field zero. -/
def TVdjPluginInfo8.zero : TVdjPluginInfo8 :=
  { PluginName := none, Author := none, Description := none, Version := none,
    Bitmap := nullptr, Flags := 0 }

/-- The ABI record `VdjPluginInfo` (`vdj_plugin_abi.h`, lines 133-140). -/
structure VdjPluginInfo where
  plugin_name : CStr
  author : CStr
  description : CStr
  version : CStr
  bitmap : Ptr
  flags : Nat
  deriving DecidableEq, Repr

/-! ## Host memory and the flat callback tables -/

/-- Memory owned by the host (sample buffers, out-parameters): one word per address.
The shim never reads or writes it; host callbacks and wrapper operations may. -/
abbrev HostMem := Ptr → Int

/-- A host function: it returns a value and may change host memory. -/
abbrev Host (α : Type) := HostMem → α × HostMem

/-- The table `VdjCallbacks` (`vdj_plugin_abi.h`, lines 101-108). An entry is a function
pointer: `none` is a null entry. The first argument of every entry is the plugin handle. -/
structure VdjCallbacks where
  send_command : Option (Ptr → Ptr → Host HRESULT)
  get_info : Option (Ptr → Ptr → Ptr → Host HRESULT)
  get_string_info : Option (Ptr → Ptr → Ptr → Int → Host HRESULT)
  declare_parameter : Option (Ptr → Ptr → Int → Int → Ptr → Ptr → CFloat → Host HRESULT)
  get_song_buffer : Option (Ptr → Int → Int → Ptr → Host HRESULT)

/-- The table `VdjVideoCallbacks` (`vdj_plugin_abi.h`, lines 123-127). -/
structure VdjVideoCallbacks where
  draw_deck : Option (Ptr → Host HRESULT)
  get_device : Option (Ptr → EVdjVideoEngine → Ptr → Host HRESULT)
  get_texture : Option (Ptr → EVdjVideoEngine → Ptr → Ptr → Host HRESULT)

/-! ## Wrapper objects -/

/-- Modelled from the spec: the data members of the SDK interfaces `IVdjPlugin8`,
`IVdjPluginDsp8`, `IVdjPluginBufferDsp8`, `IVdjPluginPositionDsp8`, `IVdjPluginVideoFx8` and
`IVdjPluginVideoTransition8`, declared in `header_ref/*.h` (not part of `src/`). The shim
writes `cb` and `vcb` and reads the numeric members; a kind that lacks a member never
touches it. -/
structure Fields where
  cb : Ptr
  vcb : Ptr
  SampleRate : Int
  SongBpm : Int
  SongPos : Int
  SongPosBeats : CDouble
  width : Int
  height : Int
  deriving DecidableEq, Repr

/-- The members of an object built by `new Wrapper()`: value-initialised, every member zero,
no adapter bound. -/
def Fields.zero : Fields :=
  { cb := nullptr, vcb := nullptr, SampleRate := 0, SongBpm := 0, SongPos := 0,
    SongPosBeats := 0, width := 0, height := 0 }

/-- A virtual operation of a wrapper: from the object's members and host memory it yields a
result, the members and host memory afterwards. -/
abbrev Eff (α : Type) := Fields → HostMem → α × Fields × HostMem

/-- An operation that returns `a` and changes nothing. -/
def Eff.ret {α : Type} (a : α) : Eff α := fun f m => (a, f, m)

/-- Virtual operations of the interface `IVdjPlugin8`, as overridden at lines 24-48.
`OnGetPluginInfo` takes a pointer to a record: `none` is the null pointer, `some i` the
record pointed at, and the second component of the result is that record afterwards. -/
structure IVdjPlugin8 where
  OnLoad : Eff HRESULT
  OnGetPluginInfo : Option TVdjPluginInfo8 → Eff (HRESULT × Option TVdjPluginInfo8)
  OnParameter : Int → Eff HRESULT
  OnGetParameterString : Int → Ptr → Int → Eff HRESULT
  OnGetUserInterface : Ptr → Eff HRESULT

/-- Virtual operations of `IVdjPluginDsp8` (lines 53-83). -/
structure IVdjPluginDsp8 extends IVdjPlugin8 where
  OnStart : Eff HRESULT
  OnStop : Eff HRESULT
  OnProcessSamples : Ptr → Int → Eff HRESULT

/-- Virtual operations of `IVdjPluginBufferDsp8` (lines 88-118). -/
structure IVdjPluginBufferDsp8 extends IVdjPlugin8 where
  OnStart : Eff HRESULT
  OnStop : Eff HRESULT
  OnGetSongBuffer : Int → Int → Eff Ptr

/-- Virtual operations of `IVdjPluginPositionDsp8` (lines 123-157). -/
structure IVdjPluginPositionDsp8 extends IVdjPlugin8 where
  OnStart : Eff HRESULT
  OnStop : Eff HRESULT
  OnTransformPosition : Ptr → Ptr → Ptr → Ptr → Eff HRESULT
  OnProcessSamples : Ptr → Int → Eff HRESULT

/-- Virtual operations of `IVdjPluginVideoFx8` (lines 162-198). -/
structure IVdjPluginVideoFx8 extends IVdjPlugin8 where
  OnStart : Eff HRESULT
  OnStop : Eff HRESULT
  OnDraw : Eff HRESULT
  OnDeviceInit : Eff HRESULT
  OnDeviceClose : Eff HRESULT
  OnAudioSamples : Ptr → Int → Eff HRESULT

/-- Virtual operations of `IVdjPluginVideoTransition8` (lines 203-233). -/
structure IVdjPluginVideoTransition8 extends IVdjPlugin8 where
  OnDraw : CFloat → Eff HRESULT
  OnDeviceInit : Eff HRESULT
  OnDeviceClose : Eff HRESULT

/-- Virtual operations of `IVdjPluginOnlineSource` (lines 238-308). -/
structure IVdjPluginOnlineSource extends IVdjPlugin8 where
  IsLogged : Eff HRESULT
  OnLogin : Eff HRESULT
  OnLogout : Eff HRESULT
  OnOAuth : Ptr → Nat → Ptr → Ptr → Ptr → Eff HRESULT
  OnSearch : Ptr → Ptr → Eff HRESULT
  OnSearchCancel : Eff HRESULT
  GetStreamUrl : Ptr → Ptr → Ptr → Eff HRESULT
  GetFolderList : Ptr → Eff HRESULT
  GetFolder : Ptr → Ptr → Eff HRESULT
  GetContextMenu : Ptr → Ptr → Eff HRESULT
  OnContextMenu : Ptr → Nat → Eff HRESULT
  GetFolderContextMenu : Ptr → Ptr → Eff HRESULT
  OnFolderContextMenu : Ptr → Nat → Eff HRESULT

/-- The dynamic class of a wrapper object: the interface it implements together with its
virtual-method table. -/
inductive Impl
  | plugin (vt : IVdjPlugin8)
  | dsp (vt : IVdjPluginDsp8)
  | bufferDsp (vt : IVdjPluginBufferDsp8)
  | positionDsp (vt : IVdjPluginPositionDsp8)
  | videoFx (vt : IVdjPluginVideoFx8)
  | videoTransition (vt : IVdjPluginVideoTransition8)
  | onlineSource (vt : IVdjPluginOnlineSource)

/-- The kind of interface a class implements. -/
def Impl.kind : Impl → Kind
  | .plugin _ => .plugin
  | .dsp _ => .dsp
  | .bufferDsp _ => .bufferDsp
  | .positionDsp _ => .positionDsp
  | .videoFx _ => .videoFx
  | .videoTransition _ => .videoTransition
  | .onlineSource _ => .onlineSource

/-- The `IVdjPlugin8` part of a class: every interface derives from `IVdjPlugin8`. -/
def Impl.base : Impl → IVdjPlugin8
  | .plugin vt => vt
  | .dsp vt => vt.toIVdjPlugin8
  | .bufferDsp vt => vt.toIVdjPlugin8
  | .positionDsp vt => vt.toIVdjPlugin8
  | .videoFx vt => vt.toIVdjPlugin8
  | .videoTransition vt => vt.toIVdjPlugin8
  | .onlineSource vt => vt.toIVdjPlugin8

/-- A wrapper object on the heap. -/
structure Object where
  impl : Impl
  fields : Fields

/-- The object of `struct CallbacksAdapter : public IVdjCallbacks8`, declared locally and
identically in each of the seven `init` functions (lines 333-353, 418-438, 521-541, 611-631,
704-724, 830-850, 923-943). -/
structure CallbacksAdapter where
  c_callbacks : Ptr
  plugin : Ptr
  deriving DecidableEq, Repr

/-- The object of `struct VideoCallbacksAdapter : public IVdjVideoCallbacks8`
(lines 731-744). -/
structure VideoCallbacksAdapter where
  c_callbacks : Ptr
  plugin : Ptr
  deriving DecidableEq, Repr

/-! ## The world -/

/-- Everything a flat function can see: the C++ heap (wrapper objects, adapters), the
caller's memory (tables, info records, host memory) and the allocation counter. -/
structure World where
  objs : Ptr → Option Object
  adapters : Ptr → Option CallbacksAdapter
  vadapters : Ptr → Option VideoCallbacksAdapter
  tables : Ptr → Option VdjCallbacks
  vtables : Ptr → Option VdjVideoCallbacks
  infos : Ptr → Option VdjPluginInfo
  mem : HostMem
  next : Ptr

/-- A map changed at one address. -/
def upd {α : Type} (m : Ptr → α) (a : Ptr) (x : α) : Ptr → α :=
  fun p => if p = a then x else m p

/-- The world with nothing allocated and no caller memory. -/
def World.empty : World :=
  { objs := fun _ => none, adapters := fun _ => none, vadapters := fun _ => none,
    tables := fun _ => none, vtables := fun _ => none, infos := fun _ => none,
    mem := fun _ => 0, next := 0 }

/-- A virtual operation of a wrapper together with the arguments it is called with. -/
inductive Call
  | OnLoad
  | OnGetPluginInfo (info : Option TVdjPluginInfo8)
  | OnParameter (id : Int)
  | OnGetParameterString (id : Int) (outParam : Ptr) (outParamSize : Int)
  | OnStart
  | OnStop
  | OnProcessSamples (buffer : Ptr) (nb : Int)
  | OnGetSongBuffer (songPos : Int) (nb : Int)
  | OnTransformPosition (songPos : Ptr) (videoPos : Ptr) (volume : Ptr) (srcVolume : Ptr)
  | OnDraw
  | OnDrawCrossfader (crossfader : CFloat)
  | OnDeviceInit
  | OnDeviceClose
  | OnAudioSamples (buffer : Ptr) (nb : Int)
  | IsLogged
  | OnLogin
  | OnLogout
  | OnSearch (search : Ptr) (tracksList : Ptr)
  | OnSearchCancel
  deriving DecidableEq, Repr

/-- An entry of a flat callback table together with the arguments it is called with. -/
inductive Entry
  | send_command (plugin : Ptr) (command : Ptr)
  | get_info (plugin : Ptr) (command : Ptr) (result : Ptr)
  | get_string_info (plugin : Ptr) (command : Ptr) (result : Ptr) (size : Int)
  | declare_parameter (plugin : Ptr) (parameter : Ptr) (type : Int) (id : Int)
      (name : Ptr) (short_name : Ptr) (default_value : CFloat)
  | get_song_buffer (plugin : Ptr) (pos : Int) (nb : Int) (buffer : Ptr)
  | draw_deck (plugin : Ptr)
  | get_device (plugin : Ptr) (engine : EVdjVideoEngine) (device : Ptr)
  | get_texture (plugin : Ptr) (engine : EVdjVideoEngine) (texture : Ptr) (vertices : Ptr)
  deriving DecidableEq, Repr

/-- What a flat function did besides returning: a virtual call on the wrapper at `this`, or
a call of an entry of the table at `table`. -/
inductive Event
  | virt (this : Ptr) (c : Call)
  | entry (table : Ptr) (e : Entry)
  deriving DecidableEq, Repr

/-- Why an execution stops without returning. -/
inductive Fault
  | nullDeref
  | badPointer
  deriving DecidableEq, Repr

/-- The outcome of a flat function: a fault, or the returned value with the world afterwards
and the calls made, in order. -/
abbrev Run (α : Type) := Except Fault (α × World × List Event)

/-- Return `a` without touching the world and without calling anything. -/
def Run.ret {α : Type} (w : World) (a : α) : Run α := .ok (a, w, [])

/-- The wrapper object a non-null handle points at (`reinterpret_cast` of the handle). -/
def World.deref (w : World) (plugin : Ptr) : Except Fault Object :=
  match w.objs plugin with
  | some o => .ok o
  | none => .error .badPointer

/-- Call the virtual operation `m` on the object `o` at address `this`: the members and host
memory it leaves are stored, and the call is recorded. -/
def World.call {α : Type} (w : World) (this : Ptr) (o : Object) (c : Call) (m : Eff α) :
    Run α :=
  .ok ((m o.fields w.mem).1,
       { w with objs := upd w.objs this (some { o with fields := (m o.fields w.mem).2.1 }),
                mem := (m o.fields w.mem).2.2 },
       [Event.virt this c])

/-! ## The default wrappers -/

/-! ### `VdjPluginWrapper` (lines 24-48) -/

namespace VdjPluginWrapper

/-- The override `OnLoad` returns `S_OK`. -/
def OnLoad : Eff HRESULT := Eff.ret S_OK

/-- The override `OnGetPluginInfo`: with a non-null record the six fields are assigned; the result is
`S_OK` either way. -/
def OnGetPluginInfo (info : Option TVdjPluginInfo8) : Eff (HRESULT × Option TVdjPluginInfo8) :=
  match info with
  | some i =>
    Eff.ret (S_OK, some { i with PluginName := some "RustPlugin",
                                 Author := some "Rust Developer",
                                 Description := some "A plugin written in Rust",
                                 Version := some "1.0",
                                 Bitmap := nullptr,
                                 Flags := 0 })
  | none => Eff.ret (S_OK, none)

/-- The override `OnParameter` returns `S_OK`. -/
def OnParameter (_id : Int) : Eff HRESULT := Eff.ret S_OK

/-- The override `OnGetParameterString` returns `E_NOTIMPL`. -/
def OnGetParameterString (_id : Int) (_outParam : Ptr) (_outParamSize : Int) : Eff HRESULT :=
  Eff.ret E_NOTIMPL

/-- The override `OnGetUserInterface` returns `E_NOTIMPL`. -/
def OnGetUserInterface (_pluginInterface : Ptr) : Eff HRESULT := Eff.ret E_NOTIMPL

/-- The virtual-method table of `VdjPluginWrapper`. -/
def vtable : IVdjPlugin8 :=
  { OnLoad := VdjPluginWrapper.OnLoad,
    OnGetPluginInfo := VdjPluginWrapper.OnGetPluginInfo,
    OnParameter := VdjPluginWrapper.OnParameter,
    OnGetParameterString := VdjPluginWrapper.OnGetParameterString,
    OnGetUserInterface := VdjPluginWrapper.OnGetUserInterface }

end VdjPluginWrapper

/-! ### `VdjPluginDspWrapper` (lines 53-83) -/

namespace VdjPluginDspWrapper

/-- The override `OnLoad` returns `S_OK`. -/
def OnLoad : Eff HRESULT := Eff.ret S_OK

/-- The override `OnGetPluginInfo`: with a non-null record the six fields are assigned; the result is
`S_OK` either way. -/
def OnGetPluginInfo (info : Option TVdjPluginInfo8) : Eff (HRESULT × Option TVdjPluginInfo8) :=
  match info with
  | some i =>
    Eff.ret (S_OK, some { i with PluginName := some "RustDspPlugin",
                                 Author := some "Rust Developer",
                                 Description := some "A DSP plugin written in Rust",
                                 Version := some "1.0",
                                 Bitmap := nullptr,
                                 Flags := 0 })
  | none => Eff.ret (S_OK, none)

/-- The override `OnParameter` returns `S_OK`. -/
def OnParameter (_id : Int) : Eff HRESULT := Eff.ret S_OK

/-- The override `OnGetParameterString` returns `E_NOTIMPL`. -/
def OnGetParameterString (_id : Int) (_outParam : Ptr) (_outParamSize : Int) : Eff HRESULT :=
  Eff.ret E_NOTIMPL

/-- The override `OnGetUserInterface` returns `E_NOTIMPL`. -/
def OnGetUserInterface (_pluginInterface : Ptr) : Eff HRESULT := Eff.ret E_NOTIMPL

/-- The override `OnStart` returns `S_OK`. -/
def OnStart : Eff HRESULT := Eff.ret S_OK

/-- The override `OnStop` returns `S_OK`. -/
def OnStop : Eff HRESULT := Eff.ret S_OK

/-- The override `OnProcessSamples` returns `S_OK`. -/
def OnProcessSamples (_buffer : Ptr) (_nb : Int) : Eff HRESULT := Eff.ret S_OK

/-- The virtual-method table of `VdjPluginDspWrapper`. -/
def vtable : IVdjPluginDsp8 :=
  { OnLoad := VdjPluginDspWrapper.OnLoad,
    OnGetPluginInfo := VdjPluginDspWrapper.OnGetPluginInfo,
    OnParameter := VdjPluginDspWrapper.OnParameter,
    OnGetParameterString := VdjPluginDspWrapper.OnGetParameterString,
    OnGetUserInterface := VdjPluginDspWrapper.OnGetUserInterface,
    OnStart := VdjPluginDspWrapper.OnStart,
    OnStop := VdjPluginDspWrapper.OnStop,
    OnProcessSamples := VdjPluginDspWrapper.OnProcessSamples }

end VdjPluginDspWrapper

/-! ### `VdjPluginBufferDspWrapper` (lines 88-118) -/

namespace VdjPluginBufferDspWrapper

/-- The override `OnLoad` returns `S_OK`. -/
def OnLoad : Eff HRESULT := Eff.ret S_OK

/-- The override `OnGetPluginInfo`: with a non-null record the six fields are assigned; the result is
`S_OK` either way. -/
def OnGetPluginInfo (info : Option TVdjPluginInfo8) : Eff (HRESULT × Option TVdjPluginInfo8) :=
  match info with
  | some i =>
    Eff.ret (S_OK, some { i with PluginName := some "RustBufferDspPlugin",
                                 Author := some "Rust Developer",
                                 Description := some "A buffer DSP plugin written in Rust",
                                 Version := some "1.0",
                                 Bitmap := nullptr,
                                 Flags := 0 })
  | none => Eff.ret (S_OK, none)

/-- The override `OnParameter` returns `S_OK`. -/
def OnParameter (_id : Int) : Eff HRESULT := Eff.ret S_OK

/-- The override `OnGetParameterString` returns `E_NOTIMPL`. -/
def OnGetParameterString (_id : Int) (_outParam : Ptr) (_outParamSize : Int) : Eff HRESULT :=
  Eff.ret E_NOTIMPL

/-- The override `OnGetUserInterface` returns `E_NOTIMPL`. -/
def OnGetUserInterface (_pluginInterface : Ptr) : Eff HRESULT := Eff.ret E_NOTIMPL

/-- The override `OnStart` returns `S_OK`. -/
def OnStart : Eff HRESULT := Eff.ret S_OK

/-- The override `OnStop` returns `S_OK`. -/
def OnStop : Eff HRESULT := Eff.ret S_OK

/-- The override `OnGetSongBuffer` returns `nullptr`. -/
def OnGetSongBuffer (_songPos : Int) (_nb : Int) : Eff Ptr := Eff.ret nullptr

/-- The virtual-method table of `VdjPluginBufferDspWrapper`. -/
def vtable : IVdjPluginBufferDsp8 :=
  { OnLoad := VdjPluginBufferDspWrapper.OnLoad,
    OnGetPluginInfo := VdjPluginBufferDspWrapper.OnGetPluginInfo,
    OnParameter := VdjPluginBufferDspWrapper.OnParameter,
    OnGetParameterString := VdjPluginBufferDspWrapper.OnGetParameterString,
    OnGetUserInterface := VdjPluginBufferDspWrapper.OnGetUserInterface,
    OnStart := VdjPluginBufferDspWrapper.OnStart,
    OnStop := VdjPluginBufferDspWrapper.OnStop,
    OnGetSongBuffer := VdjPluginBufferDspWrapper.OnGetSongBuffer }

end VdjPluginBufferDspWrapper

/-! ### `VdjPluginPositionDspWrapper` (lines 123-157) -/

namespace VdjPluginPositionDspWrapper

/-- The override `OnLoad` returns `S_OK`. -/
def OnLoad : Eff HRESULT := Eff.ret S_OK

/-- The override `OnGetPluginInfo`: with a non-null record the six fields are assigned; the result is
`S_OK` either way. -/
def OnGetPluginInfo (info : Option TVdjPluginInfo8) : Eff (HRESULT × Option TVdjPluginInfo8) :=
  match info with
  | some i =>
    Eff.ret (S_OK, some { i with PluginName := some "RustPositionDspPlugin",
                                 Author := some "Rust Developer",
                                 Description := some "A position DSP plugin written in Rust",
                                 Version := some "1.0",
                                 Bitmap := nullptr,
                                 Flags := 0 })
  | none => Eff.ret (S_OK, none)

/-- The override `OnParameter` returns `S_OK`. -/
def OnParameter (_id : Int) : Eff HRESULT := Eff.ret S_OK

/-- The override `OnGetParameterString` returns `E_NOTIMPL`. -/
def OnGetParameterString (_id : Int) (_outParam : Ptr) (_outParamSize : Int) : Eff HRESULT :=
  Eff.ret E_NOTIMPL

/-- The override `OnGetUserInterface` returns `E_NOTIMPL`. -/
def OnGetUserInterface (_pluginInterface : Ptr) : Eff HRESULT := Eff.ret E_NOTIMPL

/-- The override `OnStart` returns `S_OK`. -/
def OnStart : Eff HRESULT := Eff.ret S_OK

/-- The override `OnStop` returns `S_OK`. -/
def OnStop : Eff HRESULT := Eff.ret S_OK

/-- The override `OnTransformPosition` returns `S_OK`: none of the four pointers is used. -/
def OnTransformPosition (_songPos : Ptr) (_videoPos : Ptr) (_volume : Ptr) (_srcVolume : Ptr) :
    Eff HRESULT := Eff.ret S_OK

/-- The override `OnProcessSamples` returns `S_OK`. -/
def OnProcessSamples (_buffer : Ptr) (_nb : Int) : Eff HRESULT := Eff.ret S_OK

/-- The virtual-method table of `VdjPluginPositionDspWrapper`. -/
def vtable : IVdjPluginPositionDsp8 :=
  { OnLoad := VdjPluginPositionDspWrapper.OnLoad,
    OnGetPluginInfo := VdjPluginPositionDspWrapper.OnGetPluginInfo,
    OnParameter := VdjPluginPositionDspWrapper.OnParameter,
    OnGetParameterString := VdjPluginPositionDspWrapper.OnGetParameterString,
    OnGetUserInterface := VdjPluginPositionDspWrapper.OnGetUserInterface,
    OnStart := VdjPluginPositionDspWrapper.OnStart,
    OnStop := VdjPluginPositionDspWrapper.OnStop,
    OnTransformPosition := VdjPluginPositionDspWrapper.OnTransformPosition,
    OnProcessSamples := VdjPluginPositionDspWrapper.OnProcessSamples }

end VdjPluginPositionDspWrapper

/-! ### `VdjPluginVideoFxWrapper` (lines 162-198) -/

namespace VdjPluginVideoFxWrapper

/-- The override `OnLoad` returns `S_OK`. -/
def OnLoad : Eff HRESULT := Eff.ret S_OK

/-- The override `OnGetPluginInfo`: with a non-null record the six fields are assigned; the result is
`S_OK` either way. -/
def OnGetPluginInfo (info : Option TVdjPluginInfo8) : Eff (HRESULT × Option TVdjPluginInfo8) :=
  match info with
  | some i =>
    Eff.ret (S_OK, some { i with PluginName := some "RustVideoFxPlugin",
                                 Author := some "Rust Developer",
                                 Description := some "A video FX plugin written in Rust",
                                 Version := some "1.0",
                                 Bitmap := nullptr,
                                 Flags := 0 })
  | none => Eff.ret (S_OK, none)

/-- The override `OnParameter` returns `S_OK`. -/
def OnParameter (_id : Int) : Eff HRESULT := Eff.ret S_OK

/-- The override `OnGetParameterString` returns `E_NOTIMPL`. -/
def OnGetParameterString (_id : Int) (_outParam : Ptr) (_outParamSize : Int) : Eff HRESULT :=
  Eff.ret E_NOTIMPL

/-- The override `OnGetUserInterface` returns `E_NOTIMPL`. -/
def OnGetUserInterface (_pluginInterface : Ptr) : Eff HRESULT := Eff.ret E_NOTIMPL

/-- The override `OnStart` returns `S_OK`. -/
def OnStart : Eff HRESULT := Eff.ret S_OK

/-- The override `OnStop` returns `S_OK`. -/
def OnStop : Eff HRESULT := Eff.ret S_OK

/-- The override `OnDraw` returns `S_OK`. -/
def OnDraw : Eff HRESULT := Eff.ret S_OK

/-- The override `OnDeviceInit` returns `S_OK`. -/
def OnDeviceInit : Eff HRESULT := Eff.ret S_OK

/-- The override `OnDeviceClose` returns `S_OK`. -/
def OnDeviceClose : Eff HRESULT := Eff.ret S_OK

/-- The override `OnAudioSamples` returns `E_NOTIMPL`. -/
def OnAudioSamples (_buffer : Ptr) (_nb : Int) : Eff HRESULT := Eff.ret E_NOTIMPL

/-- The virtual-method table of `VdjPluginVideoFxWrapper`. -/
def vtable : IVdjPluginVideoFx8 :=
  { OnLoad := VdjPluginVideoFxWrapper.OnLoad,
    OnGetPluginInfo := VdjPluginVideoFxWrapper.OnGetPluginInfo,
    OnParameter := VdjPluginVideoFxWrapper.OnParameter,
    OnGetParameterString := VdjPluginVideoFxWrapper.OnGetParameterString,
    OnGetUserInterface := VdjPluginVideoFxWrapper.OnGetUserInterface,
    OnStart := VdjPluginVideoFxWrapper.OnStart,
    OnStop := VdjPluginVideoFxWrapper.OnStop,
    OnDraw := VdjPluginVideoFxWrapper.OnDraw,
    OnDeviceInit := VdjPluginVideoFxWrapper.OnDeviceInit,
    OnDeviceClose := VdjPluginVideoFxWrapper.OnDeviceClose,
    OnAudioSamples := VdjPluginVideoFxWrapper.OnAudioSamples }

end VdjPluginVideoFxWrapper

/-! ### `VdjPluginVideoTransitionWrapper` (lines 203-233) -/

namespace VdjPluginVideoTransitionWrapper

/-- The override `OnLoad` returns `S_OK`. -/
def OnLoad : Eff HRESULT := Eff.ret S_OK

/-- The override `OnGetPluginInfo`: with a non-null record the six fields are assigned; the result is
`S_OK` either way. -/
def OnGetPluginInfo (info : Option TVdjPluginInfo8) : Eff (HRESULT × Option TVdjPluginInfo8) :=
  match info with
  | some i =>
    Eff.ret (S_OK, some { i with PluginName := some "RustVideoTransitionPlugin",
                                 Author := some "Rust Developer",
                                 Description := some "A video transition plugin written in Rust",
                                 Version := some "1.0",
                                 Bitmap := nullptr,
                                 Flags := 0 })
  | none => Eff.ret (S_OK, none)

/-- The override `OnParameter` returns `S_OK`. -/
def OnParameter (_id : Int) : Eff HRESULT := Eff.ret S_OK

/-- The override `OnGetParameterString` returns `E_NOTIMPL`. -/
def OnGetParameterString (_id : Int) (_outParam : Ptr) (_outParamSize : Int) : Eff HRESULT :=
  Eff.ret E_NOTIMPL

/-- The override `OnGetUserInterface` returns `E_NOTIMPL`. -/
def OnGetUserInterface (_pluginInterface : Ptr) : Eff HRESULT := Eff.ret E_NOTIMPL

/-- The override `OnDraw` returns `S_OK`. -/
def OnDraw (_crossfader : CFloat) : Eff HRESULT := Eff.ret S_OK

/-- The override `OnDeviceInit` returns `S_OK`. -/
def OnDeviceInit : Eff HRESULT := Eff.ret S_OK

/-- The override `OnDeviceClose` returns `S_OK`. -/
def OnDeviceClose : Eff HRESULT := Eff.ret S_OK

/-- The virtual-method table of `VdjPluginVideoTransitionWrapper`. -/
def vtable : IVdjPluginVideoTransition8 :=
  { OnLoad := VdjPluginVideoTransitionWrapper.OnLoad,
    OnGetPluginInfo := VdjPluginVideoTransitionWrapper.OnGetPluginInfo,
    OnParameter := VdjPluginVideoTransitionWrapper.OnParameter,
    OnGetParameterString := VdjPluginVideoTransitionWrapper.OnGetParameterString,
    OnGetUserInterface := VdjPluginVideoTransitionWrapper.OnGetUserInterface,
    OnDraw := VdjPluginVideoTransitionWrapper.OnDraw,
    OnDeviceInit := VdjPluginVideoTransitionWrapper.OnDeviceInit,
    OnDeviceClose := VdjPluginVideoTransitionWrapper.OnDeviceClose }

end VdjPluginVideoTransitionWrapper

/-! ### `VdjPluginOnlineSourceWrapper` (lines 238-308) -/

namespace VdjPluginOnlineSourceWrapper

/-- The override `OnLoad` returns `S_OK`. -/
def OnLoad : Eff HRESULT := Eff.ret S_OK

/-- The override `OnGetPluginInfo`: with a non-null record the six fields are assigned; the result is
`S_OK` either way. -/
def OnGetPluginInfo (info : Option TVdjPluginInfo8) : Eff (HRESULT × Option TVdjPluginInfo8) :=
  match info with
  | some i =>
    Eff.ret (S_OK, some { i with PluginName := some "RustOnlineSourcePlugin",
                                 Author := some "Rust Developer",
                                 Description := some "An online source plugin written in Rust",
                                 Version := some "1.0",
                                 Bitmap := nullptr,
                                 Flags := 0 })
  | none => Eff.ret (S_OK, none)

/-- The override `OnParameter` returns `S_OK`. -/
def OnParameter (_id : Int) : Eff HRESULT := Eff.ret S_OK

/-- The override `OnGetParameterString` returns `E_NOTIMPL`. -/
def OnGetParameterString (_id : Int) (_outParam : Ptr) (_outParamSize : Int) : Eff HRESULT :=
  Eff.ret E_NOTIMPL

/-- The override `OnGetUserInterface` returns `E_NOTIMPL`. -/
def OnGetUserInterface (_pluginInterface : Ptr) : Eff HRESULT := Eff.ret E_NOTIMPL

/-- The override `IsLogged` returns `E_NOTIMPL`. -/
def IsLogged : Eff HRESULT := Eff.ret E_NOTIMPL

/-- The override `OnLogin` returns `E_NOTIMPL`. -/
def OnLogin : Eff HRESULT := Eff.ret E_NOTIMPL

/-- The override `OnLogout` returns `E_NOTIMPL`. -/
def OnLogout : Eff HRESULT := Eff.ret E_NOTIMPL

/-- The override `OnOAuth` returns `E_NOTIMPL`. -/
def OnOAuth (_access_token : Ptr) (_access_token_expire : Nat) (_refresh_token : Ptr)
    (_code : Ptr) (_errorMessage : Ptr) : Eff HRESULT := Eff.ret E_NOTIMPL

/-- The override `OnSearch` returns `E_NOTIMPL`. -/
def OnSearch (_search : Ptr) (_tracksList : Ptr) : Eff HRESULT := Eff.ret E_NOTIMPL

/-- The override `OnSearchCancel` returns `E_NOTIMPL`. -/
def OnSearchCancel : Eff HRESULT := Eff.ret E_NOTIMPL

/-- The override `GetStreamUrl` returns `E_NOTIMPL`. -/
def GetStreamUrl (_uniqueId : Ptr) (_url : Ptr) (_errorMessage : Ptr) : Eff HRESULT := Eff.ret E_NOTIMPL

/-- The override `GetFolderList` returns `E_NOTIMPL`. -/
def GetFolderList (_subfoldersList : Ptr) : Eff HRESULT := Eff.ret E_NOTIMPL

/-- The override `GetFolder` returns `E_NOTIMPL`. -/
def GetFolder (_folderUniqueId : Ptr) (_tracksList : Ptr) : Eff HRESULT := Eff.ret E_NOTIMPL

/-- The override `GetContextMenu` returns `E_NOTIMPL`. -/
def GetContextMenu (_uniqueId : Ptr) (_contextMenu : Ptr) : Eff HRESULT := Eff.ret E_NOTIMPL

/-- The override `OnContextMenu` returns `E_NOTIMPL`. -/
def OnContextMenu (_uniqueId : Ptr) (_menuIndex : Nat) : Eff HRESULT := Eff.ret E_NOTIMPL

/-- The override `GetFolderContextMenu` returns `E_NOTIMPL`. -/
def GetFolderContextMenu (_folderUniqueId : Ptr) (_contextMenu : Ptr) : Eff HRESULT := Eff.ret E_NOTIMPL

/-- The override `OnFolderContextMenu` returns `E_NOTIMPL`. -/
def OnFolderContextMenu (_folderUniqueId : Ptr) (_menuIndex : Nat) : Eff HRESULT := Eff.ret E_NOTIMPL

/-- The virtual-method table of `VdjPluginOnlineSourceWrapper`. -/
def vtable : IVdjPluginOnlineSource :=
  { OnLoad := VdjPluginOnlineSourceWrapper.OnLoad,
    OnGetPluginInfo := VdjPluginOnlineSourceWrapper.OnGetPluginInfo,
    OnParameter := VdjPluginOnlineSourceWrapper.OnParameter,
    OnGetParameterString := VdjPluginOnlineSourceWrapper.OnGetParameterString,
    OnGetUserInterface := VdjPluginOnlineSourceWrapper.OnGetUserInterface,
    IsLogged := VdjPluginOnlineSourceWrapper.IsLogged,
    OnLogin := VdjPluginOnlineSourceWrapper.OnLogin,
    OnLogout := VdjPluginOnlineSourceWrapper.OnLogout,
    OnOAuth := VdjPluginOnlineSourceWrapper.OnOAuth,
    OnSearch := VdjPluginOnlineSourceWrapper.OnSearch,
    OnSearchCancel := VdjPluginOnlineSourceWrapper.OnSearchCancel,
    GetStreamUrl := VdjPluginOnlineSourceWrapper.GetStreamUrl,
    GetFolderList := VdjPluginOnlineSourceWrapper.GetFolderList,
    GetFolder := VdjPluginOnlineSourceWrapper.GetFolder,
    GetContextMenu := VdjPluginOnlineSourceWrapper.GetContextMenu,
    OnContextMenu := VdjPluginOnlineSourceWrapper.OnContextMenu,
    GetFolderContextMenu := VdjPluginOnlineSourceWrapper.GetFolderContextMenu,
    OnFolderContextMenu := VdjPluginOnlineSourceWrapper.OnFolderContextMenu }

end VdjPluginOnlineSourceWrapper

/-! ## The callback adapters -/

/-- Call a function pointer taken from the table at `table`: a null entry cannot be called;
otherwise the host function runs on host memory and the call is recorded. -/
def World.callEntry (w : World) (table : Ptr) (e : Entry) (fn : Option (Host HRESULT)) :
    Run HRESULT :=
  match fn with
  | none => .error .nullDeref
  | some f => .ok ((f w.mem).1, { w with mem := (f w.mem).2 }, [Event.entry table e])

namespace CallbacksAdapter

/-- The table behind `c_callbacks->`. -/
def table (a : CallbacksAdapter) (w : World) : Except Fault VdjCallbacks :=
  if a.c_callbacks = nullptr then .error .nullDeref
  else match w.tables a.c_callbacks with
    | some t => .ok t
    | none => .error .badPointer

/-- The method `SendCommand`: `return c_callbacks->send_command(plugin, command)`. -/
def SendCommand (a : CallbacksAdapter) (w : World) (command : Ptr) : Run HRESULT :=
  match a.table w with
  | .error e => .error e
  | .ok t =>
    w.callEntry a.c_callbacks (.send_command a.plugin command)
      (t.send_command.map fun fn => fn a.plugin command)

/-- The method `GetInfo`: `return c_callbacks->get_info(plugin, command, result)`. -/
def GetInfo (a : CallbacksAdapter) (w : World) (command : Ptr) (result : Ptr) : Run HRESULT :=
  match a.table w with
  | .error e => .error e
  | .ok t =>
    w.callEntry a.c_callbacks (.get_info a.plugin command result)
      (t.get_info.map fun fn => fn a.plugin command result)

/-- The method `GetStringInfo`:
`return c_callbacks->get_string_info(plugin, command, (char*)result, size)`. -/
def GetStringInfo (a : CallbacksAdapter) (w : World) (command : Ptr) (result : Ptr)
    (size : Int) : Run HRESULT :=
  match a.table w with
  | .error e => .error e
  | .ok t =>
    w.callEntry a.c_callbacks (.get_string_info a.plugin command result size)
      (t.get_string_info.map fun fn => fn a.plugin command result size)

/-- The method `DeclareParameter`: `return c_callbacks->declare_parameter(plugin, parameter,
type, id, name, shortName, defaultvalue)`. -/
def DeclareParameter (a : CallbacksAdapter) (w : World) (parameter : Ptr) (type : Int)
    (id : Int) (name : Ptr) (shortName : Ptr) (defaultvalue : CFloat) : Run HRESULT :=
  match a.table w with
  | .error e => .error e
  | .ok t =>
    w.callEntry a.c_callbacks
      (.declare_parameter a.plugin parameter type id name shortName defaultvalue)
      (t.declare_parameter.map fun fn =>
        fn a.plugin parameter type id name shortName defaultvalue)

/-- The method `GetSongBuffer`: `return c_callbacks->get_song_buffer(plugin, pos, nb, buffer)`. -/
def GetSongBuffer (a : CallbacksAdapter) (w : World) (pos : Int) (nb : Int) (buffer : Ptr) :
    Run HRESULT :=
  match a.table w with
  | .error e => .error e
  | .ok t =>
    w.callEntry a.c_callbacks (.get_song_buffer a.plugin pos nb buffer)
      (t.get_song_buffer.map fun fn => fn a.plugin pos nb buffer)

end CallbacksAdapter

namespace VideoCallbacksAdapter

/-- The video table behind `c_callbacks->`. -/
def table (a : VideoCallbacksAdapter) (w : World) : Except Fault VdjVideoCallbacks :=
  if a.c_callbacks = nullptr then .error .nullDeref
  else match w.vtables a.c_callbacks with
    | some t => .ok t
    | none => .error .badPointer

/-- The method `DrawDeck`: `return c_callbacks->draw_deck(plugin)`. -/
def DrawDeck (a : VideoCallbacksAdapter) (w : World) : Run HRESULT :=
  match a.table w with
  | .error e => .error e
  | .ok t =>
    w.callEntry a.c_callbacks (.draw_deck a.plugin) (t.draw_deck.map fun fn => fn a.plugin)

/-- The method `GetDevice`: `return c_callbacks->get_device(plugin, engine, device)`. -/
def GetDevice (a : VideoCallbacksAdapter) (w : World) (engine : EVdjVideoEngine)
    (device : Ptr) : Run HRESULT :=
  match a.table w with
  | .error e => .error e
  | .ok t =>
    w.callEntry a.c_callbacks (.get_device a.plugin engine device)
      (t.get_device.map fun fn => fn a.plugin engine device)

/-- The method `GetTexture`:
`return c_callbacks->get_texture(plugin, engine, texture, vertices)`. -/
def GetTexture (a : VideoCallbacksAdapter) (w : World) (engine : EVdjVideoEngine)
    (texture : Ptr) (vertices : Ptr) : Run HRESULT :=
  match a.table w with
  | .error e => .error e
  | .ok t =>
    w.callEntry a.c_callbacks (.get_texture a.plugin engine texture vertices)
      (t.get_texture.map fun fn => fn a.plugin engine texture vertices)

end VideoCallbacksAdapter

/-! ## Handles as typed pointers (`reinterpret_cast`) -/

/-- The cast `reinterpret_cast<IVdjPlugin8*>(plugin)`: the object must be live; every wrapper
class derives from `IVdjPlugin8`. -/
def World.asPlugin (w : World) (plugin : Ptr) : Except Fault (IVdjPlugin8 × Object) :=
  match w.objs plugin with
  | some o => .ok (o.impl.base, o)
  | none => .error .badPointer

/-- The cast `reinterpret_cast<IVdjPluginDsp8*>(plugin)`. -/
def World.asDsp (w : World) (plugin : Ptr) : Except Fault (IVdjPluginDsp8 × Object) :=
  match w.objs plugin with
  | some o => match o.impl with
    | .dsp vt => .ok (vt, o)
    | _ => .error .badPointer
  | none => .error .badPointer

/-- The cast `reinterpret_cast<IVdjPluginBufferDsp8*>(plugin)`. -/
def World.asBufferDsp (w : World) (plugin : Ptr) :
    Except Fault (IVdjPluginBufferDsp8 × Object) :=
  match w.objs plugin with
  | some o => match o.impl with
    | .bufferDsp vt => .ok (vt, o)
    | _ => .error .badPointer
  | none => .error .badPointer

/-- The cast `reinterpret_cast<IVdjPluginPositionDsp8*>(plugin)`. -/
def World.asPositionDsp (w : World) (plugin : Ptr) :
    Except Fault (IVdjPluginPositionDsp8 × Object) :=
  match w.objs plugin with
  | some o => match o.impl with
    | .positionDsp vt => .ok (vt, o)
    | _ => .error .badPointer
  | none => .error .badPointer

/-- The cast `reinterpret_cast<IVdjPluginVideoFx8*>(plugin)`. -/
def World.asVideoFx (w : World) (plugin : Ptr) : Except Fault (IVdjPluginVideoFx8 × Object) :=
  match w.objs plugin with
  | some o => match o.impl with
    | .videoFx vt => .ok (vt, o)
    | _ => .error .badPointer
  | none => .error .badPointer

/-- The cast `reinterpret_cast<IVdjPluginVideoTransition8*>(plugin)`. -/
def World.asVideoTransition (w : World) (plugin : Ptr) :
    Except Fault (IVdjPluginVideoTransition8 × Object) :=
  match w.objs plugin with
  | some o => match o.impl with
    | .videoTransition vt => .ok (vt, o)
    | _ => .error .badPointer
  | none => .error .badPointer

/-- The cast `reinterpret_cast<IVdjPluginOnlineSource*>(plugin)`. -/
def World.asOnlineSource (w : World) (plugin : Ptr) :
    Except Fault (IVdjPluginOnlineSource × Object) :=
  match w.objs plugin with
  | some o => match o.impl with
    | .onlineSource vt => .ok (vt, o)
    | _ => .error .badPointer
  | none => .error .badPointer

/-- The statement `new T()`: the next unused address, never null. -/
def World.fresh (w : World) : Ptr := w.next + 1

/-- The four statements shared by every `init` (lines 355-358 and their six copies):
`adapter = new CallbacksAdapter(); adapter->c_callbacks = callbacks;
adapter->plugin = plugin; p->cb = adapter;`. A previous value of `cb` is overwritten, the
adapter it pointed at is not deleted. -/
def World.bindAdapter (w : World) (plugin : Ptr) (o : Object) (callbacks : Ptr) :
    World × Object :=
  ({ w with adapters := upd w.adapters w.fresh (some { c_callbacks := callbacks, plugin := plugin }),
            objs := upd w.objs plugin (some { o with fields := { o.fields with cb := w.fresh } }),
            next := w.fresh },
   { o with fields := { o.fields with cb := w.fresh } })

/-- The four statements of lines 746-749: `video_adapter = new VideoCallbacksAdapter();
video_adapter->c_callbacks = video_callbacks; video_adapter->plugin = plugin;
p->vcb = video_adapter;`. -/
def World.bindVideoAdapter (w : World) (plugin : Ptr) (o : Object) (video_callbacks : Ptr) :
    World × Object :=
  ({ w with vadapters := upd w.vadapters w.fresh
              (some { c_callbacks := video_callbacks, plugin := plugin }),
            objs := upd w.objs plugin (some { o with fields := { o.fields with vcb := w.fresh } }),
            next := w.fresh },
   { o with fields := { o.fields with vcb := w.fresh } })

/-! ## The flat functions -/

/-- The expression `new Wrapper()` followed by the cast to the opaque handle: a
value-initialised object of class `impl` at a new address. -/
def World.alloc (w : World) (impl : Impl) : Ptr × World :=
  (w.fresh,
   { w with objs := upd w.objs w.fresh (some { impl := impl, fields := Fields.zero }),
            next := w.fresh })

/-! ### Core plugin (lines 316-396) -/

/-- The function `vdj_plugin_create` (lines 316-318): `new VdjPluginWrapper()`. -/
def vdj_plugin_create (w : World) : Ptr × World :=
  w.alloc (.plugin VdjPluginWrapper.vtable)

/-- The function `vdj_plugin_init` (lines 327-361): null checks, then the adapter is built
and bound, and the result of `p->OnLoad()` is returned. -/
def vdj_plugin_init (w : World) (plugin : Ptr) (callbacks : Ptr) : Run HRESULT :=
  if plugin = nullptr ∨ callbacks = nullptr then Run.ret w E_FAIL
  else match w.asPlugin plugin with
    | .error e => .error e
    | .ok (p, o) =>
      (w.bindAdapter plugin o callbacks).1.call plugin (w.bindAdapter plugin o callbacks).2
        .OnLoad p.OnLoad

/-- The function `vdj_plugin_on_load` (lines 363-367): a null handle gives `E_FAIL`, otherwise
`OnLoad` is called on the wrapper and its result returned. -/
def vdj_plugin_on_load (w : World) (plugin : Ptr) : Run HRESULT :=
  if plugin = nullptr then Run.ret w E_FAIL
  else match w.asPlugin plugin with
    | .error e => .error e
    | .ok (p, o) => w.call plugin o .OnLoad (p.OnLoad)

/-- The function `vdj_plugin_get_info` (lines 369-384): null checks on both pointers; then
`OnGetPluginInfo` is called on a zeroed local record `cpp_info`, whose six fields are copied
to `*info`, and the result of the call is returned. -/
def vdj_plugin_get_info (w : World) (plugin : Ptr) (info : Ptr) : Run HRESULT :=
  if plugin = nullptr ∨ info = nullptr then Run.ret w E_FAIL
  else match w.asPlugin plugin with
    | .error e => .error e
    | .ok (p, o) =>
      match w.call plugin o (.OnGetPluginInfo (some TVdjPluginInfo8.zero))
              (p.OnGetPluginInfo (some TVdjPluginInfo8.zero)) with
      | .error e => .error e
      | .ok ((hr, out), w1, t) =>
        match w1.infos info with
        | none => .error .badPointer
        | some _ =>
          .ok (hr,
               { w1 with infos := upd w1.infos info (some
                   { plugin_name := (out.getD TVdjPluginInfo8.zero).PluginName,
                     author := (out.getD TVdjPluginInfo8.zero).Author,
                     description := (out.getD TVdjPluginInfo8.zero).Description,
                     version := (out.getD TVdjPluginInfo8.zero).Version,
                     bitmap := (out.getD TVdjPluginInfo8.zero).Bitmap,
                     flags := (out.getD TVdjPluginInfo8.zero).Flags }) },
               t)

/-- The function `vdj_plugin_on_parameter` (lines 386-390): a null handle gives `E_FAIL`, otherwise
`OnParameter` is called on the wrapper and its result returned. -/
def vdj_plugin_on_parameter (w : World) (plugin : Ptr) (id : Int) : Run HRESULT :=
  if plugin = nullptr then Run.ret w E_FAIL
  else match w.asPlugin plugin with
    | .error e => .error e
    | .ok (p, o) => w.call plugin o (.OnParameter id) (p.OnParameter id)

/-- The function `vdj_plugin_on_get_parameter_string` (lines 392-396): a null handle gives `E_FAIL`, otherwise
`OnGetParameterString` is called on the wrapper and its result returned. -/
def vdj_plugin_on_get_parameter_string (w : World) (plugin : Ptr) (id : Int) (out_param : Ptr) (out_param_size : Int) : Run HRESULT :=
  if plugin = nullptr then Run.ret w E_FAIL
  else match w.asPlugin plugin with
    | .error e => .error e
    | .ok (p, o) => w.call plugin o (.OnGetParameterString id out_param out_param_size) (p.OnGetParameterString id out_param out_param_size)

/-! ### DSP plugin (lines 402-499) -/

/-- The function `vdj_plugin_dsp_create` (lines 402-404): `new VdjPluginDspWrapper()`. -/
def vdj_plugin_dsp_create (w : World) : Ptr × World :=
  w.alloc (.dsp VdjPluginDspWrapper.vtable)

/-- The function `vdj_plugin_dsp_init` (lines 413-446): null checks, then the adapter is built
and bound, and `S_OK` is returned. -/
def vdj_plugin_dsp_init (w : World) (plugin : Ptr) (callbacks : Ptr) : Run HRESULT :=
  if plugin = nullptr ∨ callbacks = nullptr then Run.ret w E_FAIL
  else match w.asDsp plugin with
    | .error e => .error e
    | .ok (_, o) => Run.ret (w.bindAdapter plugin o callbacks).1 S_OK

/-- The function `vdj_plugin_dsp_on_start` (lines 448-452): a null handle gives `E_FAIL`, otherwise
`OnStart` is called on the wrapper and its result returned. -/
def vdj_plugin_dsp_on_start (w : World) (plugin : Ptr) : Run HRESULT :=
  if plugin = nullptr then Run.ret w E_FAIL
  else match w.asDsp plugin with
    | .error e => .error e
    | .ok (p, o) => w.call plugin o .OnStart (p.OnStart)

/-- The function `vdj_plugin_dsp_on_stop` (lines 454-458): a null handle gives `E_FAIL`, otherwise
`OnStop` is called on the wrapper and its result returned. -/
def vdj_plugin_dsp_on_stop (w : World) (plugin : Ptr) : Run HRESULT :=
  if plugin = nullptr then Run.ret w E_FAIL
  else match w.asDsp plugin with
    | .error e => .error e
    | .ok (p, o) => w.call plugin o .OnStop (p.OnStop)

/-- The function `vdj_plugin_dsp_on_process_samples` (lines 460-464): a null handle gives `E_FAIL`, otherwise
`OnProcessSamples` is called on the wrapper and its result returned. -/
def vdj_plugin_dsp_on_process_samples (w : World) (plugin : Ptr) (buffer : Ptr) (nb : Int) : Run HRESULT :=
  if plugin = nullptr then Run.ret w E_FAIL
  else match w.asDsp plugin with
    | .error e => .error e
    | .ok (p, o) => w.call plugin o (.OnProcessSamples buffer nb) (p.OnProcessSamples buffer nb)

/-- The function `vdj_plugin_dsp_get_info` (lines 466-481): null checks on both pointers; then
`OnGetPluginInfo` is called on a zeroed local record `cpp_info`, whose six fields are copied
to `*info`, and the result of the call is returned. -/
def vdj_plugin_dsp_get_info (w : World) (plugin : Ptr) (info : Ptr) : Run HRESULT :=
  if plugin = nullptr ∨ info = nullptr then Run.ret w E_FAIL
  else match w.asDsp plugin with
    | .error e => .error e
    | .ok (p, o) =>
      match w.call plugin o (.OnGetPluginInfo (some TVdjPluginInfo8.zero))
              (p.OnGetPluginInfo (some TVdjPluginInfo8.zero)) with
      | .error e => .error e
      | .ok ((hr, out), w1, t) =>
        match w1.infos info with
        | none => .error .badPointer
        | some _ =>
          .ok (hr,
               { w1 with infos := upd w1.infos info (some
                   { plugin_name := (out.getD TVdjPluginInfo8.zero).PluginName,
                     author := (out.getD TVdjPluginInfo8.zero).Author,
                     description := (out.getD TVdjPluginInfo8.zero).Description,
                     version := (out.getD TVdjPluginInfo8.zero).Version,
                     bitmap := (out.getD TVdjPluginInfo8.zero).Bitmap,
                     flags := (out.getD TVdjPluginInfo8.zero).Flags }) },
               t)

/-- The function `vdj_plugin_dsp_get_sample_rate` (lines 483-487): a null handle gives zero, otherwise the
member `SampleRate` is read. -/
def vdj_plugin_dsp_get_sample_rate (w : World) (plugin : Ptr) : Run Int :=
  if plugin = nullptr then Run.ret w 0
  else match w.asDsp plugin with
    | .error e => .error e
    | .ok (_, o) => Run.ret w o.fields.SampleRate

/-- The function `vdj_plugin_dsp_get_song_bpm` (lines 489-493): a null handle gives zero, otherwise the
member `SongBpm` is read. -/
def vdj_plugin_dsp_get_song_bpm (w : World) (plugin : Ptr) : Run Int :=
  if plugin = nullptr then Run.ret w 0
  else match w.asDsp plugin with
    | .error e => .error e
    | .ok (_, o) => Run.ret w o.fields.SongBpm

/-- The function `vdj_plugin_dsp_get_song_pos_beats` (lines 495-499): a null handle gives zero, otherwise the
member `SongPosBeats` is read. -/
def vdj_plugin_dsp_get_song_pos_beats (w : World) (plugin : Ptr) : Run CDouble :=
  if plugin = nullptr then Run.ret w 0
  else match w.asDsp plugin with
    | .error e => .error e
    | .ok (_, o) => Run.ret w o.fields.SongPosBeats

/-! ### Buffer DSP plugin (lines 505-589) -/

/-- The function `vdj_plugin_buffer_dsp_create` (lines 505-507): `new VdjPluginBufferDspWrapper()`. -/
def vdj_plugin_buffer_dsp_create (w : World) : Ptr × World :=
  w.alloc (.bufferDsp VdjPluginBufferDspWrapper.vtable)

/-- The function `vdj_plugin_buffer_dsp_init` (lines 516-549): null checks, then the adapter is built
and bound, and `S_OK` is returned. -/
def vdj_plugin_buffer_dsp_init (w : World) (plugin : Ptr) (callbacks : Ptr) : Run HRESULT :=
  if plugin = nullptr ∨ callbacks = nullptr then Run.ret w E_FAIL
  else match w.asBufferDsp plugin with
    | .error e => .error e
    | .ok (_, o) => Run.ret (w.bindAdapter plugin o callbacks).1 S_OK

/-- The function `vdj_plugin_buffer_dsp_on_start` (lines 551-554): a null handle gives `E_FAIL`, otherwise
`OnStart` is called on the wrapper and its result returned. -/
def vdj_plugin_buffer_dsp_on_start (w : World) (plugin : Ptr) : Run HRESULT :=
  if plugin = nullptr then Run.ret w E_FAIL
  else match w.asBufferDsp plugin with
    | .error e => .error e
    | .ok (p, o) => w.call plugin o .OnStart (p.OnStart)

/-- The function `vdj_plugin_buffer_dsp_on_stop` (lines 556-559): a null handle gives `E_FAIL`, otherwise
`OnStop` is called on the wrapper and its result returned. -/
def vdj_plugin_buffer_dsp_on_stop (w : World) (plugin : Ptr) : Run HRESULT :=
  if plugin = nullptr then Run.ret w E_FAIL
  else match w.asBufferDsp plugin with
    | .error e => .error e
    | .ok (p, o) => w.call plugin o .OnStop (p.OnStop)

/-- The function `vdj_plugin_buffer_dsp_on_get_song_buffer` (lines 561-564): a null handle gives `nullptr`, otherwise
`OnGetSongBuffer` is called on the wrapper and its result returned. -/
def vdj_plugin_buffer_dsp_on_get_song_buffer (w : World) (plugin : Ptr) (song_pos : Int) (nb : Int) : Run Ptr :=
  if plugin = nullptr then Run.ret w nullptr
  else match w.asBufferDsp plugin with
    | .error e => .error e
    | .ok (p, o) => w.call plugin o (.OnGetSongBuffer song_pos nb) (p.OnGetSongBuffer song_pos nb)

/-- Modelled from the spec: the non-virtual member `IVdjPluginBufferDsp8::GetSongBuffer` of
the SDK header `header_ref/vdjDsp8.h` (not part of `src/`). By the spec a call that the
wrapper makes back to the host "routes through the Adapter", the layer "does not guard
against" a call made "before it exists": the member is `cb->GetSongBuffer(pos, nb, buffer)`
with no check of `cb`. -/
def IVdjPluginBufferDsp8.GetSongBuffer (w : World) (o : Object) (pos : Int) (nb : Int)
    (buffer : Ptr) : Run HRESULT :=
  if o.fields.cb = nullptr then .error .nullDeref
  else match w.adapters o.fields.cb with
    | none => .error .badPointer
    | some a => a.GetSongBuffer w pos nb buffer

/-- The function `vdj_plugin_buffer_dsp_get_song_buffer` (lines 566-569): a null handle gives
`E_FAIL`, otherwise the wrapper's member `GetSongBuffer` is called and its result returned. -/
def vdj_plugin_buffer_dsp_get_song_buffer (w : World) (plugin : Ptr) (pos : Int) (nb : Int)
    (buffer : Ptr) : Run HRESULT :=
  if plugin = nullptr then Run.ret w E_FAIL
  else match w.asBufferDsp plugin with
    | .error e => .error e
    | .ok (_, o) => IVdjPluginBufferDsp8.GetSongBuffer w o pos nb buffer

/-- The function `vdj_plugin_buffer_dsp_get_sample_rate` (lines 571-574): a null handle gives zero, otherwise the
member `SampleRate` is read. -/
def vdj_plugin_buffer_dsp_get_sample_rate (w : World) (plugin : Ptr) : Run Int :=
  if plugin = nullptr then Run.ret w 0
  else match w.asBufferDsp plugin with
    | .error e => .error e
    | .ok (_, o) => Run.ret w o.fields.SampleRate

/-- The function `vdj_plugin_buffer_dsp_get_song_bpm` (lines 576-579): a null handle gives zero, otherwise the
member `SongBpm` is read. -/
def vdj_plugin_buffer_dsp_get_song_bpm (w : World) (plugin : Ptr) : Run Int :=
  if plugin = nullptr then Run.ret w 0
  else match w.asBufferDsp plugin with
    | .error e => .error e
    | .ok (_, o) => Run.ret w o.fields.SongBpm

/-- The function `vdj_plugin_buffer_dsp_get_song_pos` (lines 581-584): a null handle gives zero, otherwise the
member `SongPos` is read. -/
def vdj_plugin_buffer_dsp_get_song_pos (w : World) (plugin : Ptr) : Run Int :=
  if plugin = nullptr then Run.ret w 0
  else match w.asBufferDsp plugin with
    | .error e => .error e
    | .ok (_, o) => Run.ret w o.fields.SongPos

/-- The function `vdj_plugin_buffer_dsp_get_song_pos_beats` (lines 586-589): a null handle gives zero, otherwise the
member `SongPosBeats` is read. -/
def vdj_plugin_buffer_dsp_get_song_pos_beats (w : World) (plugin : Ptr) : Run CDouble :=
  if plugin = nullptr then Run.ret w 0
  else match w.asBufferDsp plugin with
    | .error e => .error e
    | .ok (_, o) => Run.ret w o.fields.SongPosBeats

/-! ### Position DSP plugin (lines 595-681) -/

/-- The function `vdj_plugin_position_dsp_create` (lines 595-597): `new VdjPluginPositionDspWrapper()`. -/
def vdj_plugin_position_dsp_create (w : World) : Ptr × World :=
  w.alloc (.positionDsp VdjPluginPositionDspWrapper.vtable)

/-- The function `vdj_plugin_position_dsp_init` (lines 606-639): null checks, then the adapter is built
and bound, and `S_OK` is returned. -/
def vdj_plugin_position_dsp_init (w : World) (plugin : Ptr) (callbacks : Ptr) : Run HRESULT :=
  if plugin = nullptr ∨ callbacks = nullptr then Run.ret w E_FAIL
  else match w.asPositionDsp plugin with
    | .error e => .error e
    | .ok (_, o) => Run.ret (w.bindAdapter plugin o callbacks).1 S_OK

/-- The function `vdj_plugin_position_dsp_on_start` (lines 641-644): a null handle gives `E_FAIL`, otherwise
`OnStart` is called on the wrapper and its result returned. -/
def vdj_plugin_position_dsp_on_start (w : World) (plugin : Ptr) : Run HRESULT :=
  if plugin = nullptr then Run.ret w E_FAIL
  else match w.asPositionDsp plugin with
    | .error e => .error e
    | .ok (p, o) => w.call plugin o .OnStart (p.OnStart)

/-- The function `vdj_plugin_position_dsp_on_stop` (lines 646-649): a null handle gives `E_FAIL`, otherwise
`OnStop` is called on the wrapper and its result returned. -/
def vdj_plugin_position_dsp_on_stop (w : World) (plugin : Ptr) : Run HRESULT :=
  if plugin = nullptr then Run.ret w E_FAIL
  else match w.asPositionDsp plugin with
    | .error e => .error e
    | .ok (p, o) => w.call plugin o .OnStop (p.OnStop)

/-- The function `vdj_plugin_position_dsp_on_transform_position` (lines 651-656): a null handle gives `E_FAIL`, otherwise
`OnTransformPosition` is called on the wrapper and its result returned. -/
def vdj_plugin_position_dsp_on_transform_position (w : World) (plugin : Ptr) (song_pos : Ptr) (video_pos : Ptr) (volume : Ptr) (src_volume : Ptr) : Run HRESULT :=
  if plugin = nullptr then Run.ret w E_FAIL
  else match w.asPositionDsp plugin with
    | .error e => .error e
    | .ok (p, o) => w.call plugin o (.OnTransformPosition song_pos video_pos volume src_volume) (p.OnTransformPosition song_pos video_pos volume src_volume)

/-- The function `vdj_plugin_position_dsp_on_process_samples` (lines 658-661): a null handle gives `E_FAIL`, otherwise
`OnProcessSamples` is called on the wrapper and its result returned. -/
def vdj_plugin_position_dsp_on_process_samples (w : World) (plugin : Ptr) (buffer : Ptr) (nb : Int) : Run HRESULT :=
  if plugin = nullptr then Run.ret w E_FAIL
  else match w.asPositionDsp plugin with
    | .error e => .error e
    | .ok (p, o) => w.call plugin o (.OnProcessSamples buffer nb) (p.OnProcessSamples buffer nb)

/-- The function `vdj_plugin_position_dsp_get_sample_rate` (lines 663-666): a null handle gives zero, otherwise the
member `SampleRate` is read. -/
def vdj_plugin_position_dsp_get_sample_rate (w : World) (plugin : Ptr) : Run Int :=
  if plugin = nullptr then Run.ret w 0
  else match w.asPositionDsp plugin with
    | .error e => .error e
    | .ok (_, o) => Run.ret w o.fields.SampleRate

/-- The function `vdj_plugin_position_dsp_get_song_bpm` (lines 668-671): a null handle gives zero, otherwise the
member `SongBpm` is read. -/
def vdj_plugin_position_dsp_get_song_bpm (w : World) (plugin : Ptr) : Run Int :=
  if plugin = nullptr then Run.ret w 0
  else match w.asPositionDsp plugin with
    | .error e => .error e
    | .ok (_, o) => Run.ret w o.fields.SongBpm

/-- The function `vdj_plugin_position_dsp_get_song_pos` (lines 673-676): a null handle gives zero, otherwise the
member `SongPos` is read. -/
def vdj_plugin_position_dsp_get_song_pos (w : World) (plugin : Ptr) : Run Int :=
  if plugin = nullptr then Run.ret w 0
  else match w.asPositionDsp plugin with
    | .error e => .error e
    | .ok (_, o) => Run.ret w o.fields.SongPos

/-- The function `vdj_plugin_position_dsp_get_song_pos_beats` (lines 678-681): a null handle gives zero, otherwise the
member `SongPosBeats` is read. -/
def vdj_plugin_position_dsp_get_song_pos_beats (w : World) (plugin : Ptr) : Run CDouble :=
  if plugin = nullptr then Run.ret w 0
  else match w.asPositionDsp plugin with
    | .error e => .error e
    | .ok (_, o) => Run.ret w o.fields.SongPosBeats

/-! ### Video FX plugin (lines 687-807) -/

/-- The function `vdj_plugin_video_fx_create` (lines 687-689): `new VdjPluginVideoFxWrapper()`. -/
def vdj_plugin_video_fx_create (w : World) : Ptr × World :=
  w.alloc (.videoFx VdjPluginVideoFxWrapper.vtable)

/-- The function `vdj_plugin_video_fx_init` (lines 698-752): three null checks, then the
primary adapter and the video adapter are built and bound, and `S_OK` is returned. -/
def vdj_plugin_video_fx_init (w : World) (plugin : Ptr) (callbacks : Ptr)
    (video_callbacks : Ptr) : Run HRESULT :=
  if plugin = nullptr ∨ callbacks = nullptr ∨ video_callbacks = nullptr then Run.ret w E_FAIL
  else match w.asVideoFx plugin with
    | .error e => .error e
    | .ok (_, o) =>
      Run.ret ((w.bindAdapter plugin o callbacks).1.bindVideoAdapter plugin
                 (w.bindAdapter plugin o callbacks).2 video_callbacks).1 S_OK

/-- The function `vdj_plugin_video_fx_on_start` (lines 754-757): a null handle gives `E_FAIL`, otherwise
`OnStart` is called on the wrapper and its result returned. -/
def vdj_plugin_video_fx_on_start (w : World) (plugin : Ptr) : Run HRESULT :=
  if plugin = nullptr then Run.ret w E_FAIL
  else match w.asVideoFx plugin with
    | .error e => .error e
    | .ok (p, o) => w.call plugin o .OnStart (p.OnStart)

/-- The function `vdj_plugin_video_fx_on_stop` (lines 759-762): a null handle gives `E_FAIL`, otherwise
`OnStop` is called on the wrapper and its result returned. -/
def vdj_plugin_video_fx_on_stop (w : World) (plugin : Ptr) : Run HRESULT :=
  if plugin = nullptr then Run.ret w E_FAIL
  else match w.asVideoFx plugin with
    | .error e => .error e
    | .ok (p, o) => w.call plugin o .OnStop (p.OnStop)

/-- The function `vdj_plugin_video_fx_on_draw` (lines 764-767): a null handle gives `E_FAIL`, otherwise
`OnDraw` is called on the wrapper and its result returned. -/
def vdj_plugin_video_fx_on_draw (w : World) (plugin : Ptr) : Run HRESULT :=
  if plugin = nullptr then Run.ret w E_FAIL
  else match w.asVideoFx plugin with
    | .error e => .error e
    | .ok (p, o) => w.call plugin o .OnDraw (p.OnDraw)

/-- The function `vdj_plugin_video_fx_on_device_init` (lines 769-772): a null handle gives `E_FAIL`, otherwise
`OnDeviceInit` is called on the wrapper and its result returned. -/
def vdj_plugin_video_fx_on_device_init (w : World) (plugin : Ptr) : Run HRESULT :=
  if plugin = nullptr then Run.ret w E_FAIL
  else match w.asVideoFx plugin with
    | .error e => .error e
    | .ok (p, o) => w.call plugin o .OnDeviceInit (p.OnDeviceInit)

/-- The function `vdj_plugin_video_fx_on_device_close` (lines 774-777): a null handle gives `E_FAIL`, otherwise
`OnDeviceClose` is called on the wrapper and its result returned. -/
def vdj_plugin_video_fx_on_device_close (w : World) (plugin : Ptr) : Run HRESULT :=
  if plugin = nullptr then Run.ret w E_FAIL
  else match w.asVideoFx plugin with
    | .error e => .error e
    | .ok (p, o) => w.call plugin o .OnDeviceClose (p.OnDeviceClose)

/-- The function `vdj_plugin_video_fx_on_audio_samples` (lines 779-782): a null handle gives `E_FAIL`, otherwise
`OnAudioSamples` is called on the wrapper and its result returned. -/
def vdj_plugin_video_fx_on_audio_samples (w : World) (plugin : Ptr) (buffer : Ptr) (nb : Int) : Run HRESULT :=
  if plugin = nullptr then Run.ret w E_FAIL
  else match w.asVideoFx plugin with
    | .error e => .error e
    | .ok (p, o) => w.call plugin o (.OnAudioSamples buffer nb) (p.OnAudioSamples buffer nb)

/-- The function `vdj_plugin_video_fx_get_width` (lines 784-787): a null handle gives zero, otherwise the
member `width` is read. -/
def vdj_plugin_video_fx_get_width (w : World) (plugin : Ptr) : Run Int :=
  if plugin = nullptr then Run.ret w 0
  else match w.asVideoFx plugin with
    | .error e => .error e
    | .ok (_, o) => Run.ret w o.fields.width

/-- The function `vdj_plugin_video_fx_get_height` (lines 789-792): a null handle gives zero, otherwise the
member `height` is read. -/
def vdj_plugin_video_fx_get_height (w : World) (plugin : Ptr) : Run Int :=
  if plugin = nullptr then Run.ret w 0
  else match w.asVideoFx plugin with
    | .error e => .error e
    | .ok (_, o) => Run.ret w o.fields.height

/-- The function `vdj_plugin_video_fx_get_sample_rate` (lines 794-797): a null handle gives zero, otherwise the
member `SampleRate` is read. -/
def vdj_plugin_video_fx_get_sample_rate (w : World) (plugin : Ptr) : Run Int :=
  if plugin = nullptr then Run.ret w 0
  else match w.asVideoFx plugin with
    | .error e => .error e
    | .ok (_, o) => Run.ret w o.fields.SampleRate

/-- The function `vdj_plugin_video_fx_get_song_bpm` (lines 799-802): a null handle gives zero, otherwise the
member `SongBpm` is read. -/
def vdj_plugin_video_fx_get_song_bpm (w : World) (plugin : Ptr) : Run Int :=
  if plugin = nullptr then Run.ret w 0
  else match w.asVideoFx plugin with
    | .error e => .error e
    | .ok (_, o) => Run.ret w o.fields.SongBpm

/-- The function `vdj_plugin_video_fx_get_song_pos_beats` (lines 804-807): a null handle gives zero, otherwise the
member `SongPosBeats` is read. -/
def vdj_plugin_video_fx_get_song_pos_beats (w : World) (plugin : Ptr) : Run CDouble :=
  if plugin = nullptr then Run.ret w 0
  else match w.asVideoFx plugin with
    | .error e => .error e
    | .ok (_, o) => Run.ret w o.fields.SongPosBeats

/-! ### Video transition plugin (lines 813-901) -/

/-- The function `vdj_plugin_video_transition_create` (lines 813-815): `new VdjPluginVideoTransitionWrapper()`. -/
def vdj_plugin_video_transition_create (w : World) : Ptr × World :=
  w.alloc (.videoTransition VdjPluginVideoTransitionWrapper.vtable)

/-- The function `vdj_plugin_video_transition_init` (lines 824-861): three null checks, then
only the primary adapter is built and bound (`video_callbacks` is not used after its null
check: "Video transition has different callback setup / This is simplified for now"), and
`S_OK` is returned. -/
def vdj_plugin_video_transition_init (w : World) (plugin : Ptr) (callbacks : Ptr)
    (video_callbacks : Ptr) : Run HRESULT :=
  if plugin = nullptr ∨ callbacks = nullptr ∨ video_callbacks = nullptr then Run.ret w E_FAIL
  else match w.asVideoTransition plugin with
    | .error e => .error e
    | .ok (_, o) => Run.ret (w.bindAdapter plugin o callbacks).1 S_OK

/-- The function `vdj_plugin_video_transition_on_draw` (lines 863-866): a null handle gives
`E_FAIL`, otherwise `OnDraw(crossfader)` is called on the wrapper and its result returned. -/
def vdj_plugin_video_transition_on_draw (w : World) (plugin : Ptr) (crossfader : CFloat) :
    Run HRESULT :=
  if plugin = nullptr then Run.ret w E_FAIL
  else match w.asVideoTransition plugin with
    | .error e => .error e
    | .ok (p, o) => w.call plugin o (.OnDrawCrossfader crossfader) (p.OnDraw crossfader)

/-- The function `vdj_plugin_video_transition_on_device_init` (lines 868-871): a null handle gives `E_FAIL`, otherwise
`OnDeviceInit` is called on the wrapper and its result returned. -/
def vdj_plugin_video_transition_on_device_init (w : World) (plugin : Ptr) : Run HRESULT :=
  if plugin = nullptr then Run.ret w E_FAIL
  else match w.asVideoTransition plugin with
    | .error e => .error e
    | .ok (p, o) => w.call plugin o .OnDeviceInit (p.OnDeviceInit)

/-- The function `vdj_plugin_video_transition_on_device_close` (lines 873-876): a null handle gives `E_FAIL`, otherwise
`OnDeviceClose` is called on the wrapper and its result returned. -/
def vdj_plugin_video_transition_on_device_close (w : World) (plugin : Ptr) : Run HRESULT :=
  if plugin = nullptr then Run.ret w E_FAIL
  else match w.asVideoTransition plugin with
    | .error e => .error e
    | .ok (p, o) => w.call plugin o .OnDeviceClose (p.OnDeviceClose)

/-- The function `vdj_plugin_video_transition_get_width` (lines 878-881): a null handle gives zero, otherwise the
member `width` is read. -/
def vdj_plugin_video_transition_get_width (w : World) (plugin : Ptr) : Run Int :=
  if plugin = nullptr then Run.ret w 0
  else match w.asVideoTransition plugin with
    | .error e => .error e
    | .ok (_, o) => Run.ret w o.fields.width

/-- The function `vdj_plugin_video_transition_get_height` (lines 883-886): a null handle gives zero, otherwise the
member `height` is read. -/
def vdj_plugin_video_transition_get_height (w : World) (plugin : Ptr) : Run Int :=
  if plugin = nullptr then Run.ret w 0
  else match w.asVideoTransition plugin with
    | .error e => .error e
    | .ok (_, o) => Run.ret w o.fields.height

/-- The function `vdj_plugin_video_transition_get_sample_rate` (lines 888-891): a null handle gives zero, otherwise the
member `SampleRate` is read. -/
def vdj_plugin_video_transition_get_sample_rate (w : World) (plugin : Ptr) : Run Int :=
  if plugin = nullptr then Run.ret w 0
  else match w.asVideoTransition plugin with
    | .error e => .error e
    | .ok (_, o) => Run.ret w o.fields.SampleRate

/-- The function `vdj_plugin_video_transition_get_song_bpm` (lines 893-896): a null handle gives zero, otherwise the
member `SongBpm` is read. -/
def vdj_plugin_video_transition_get_song_bpm (w : World) (plugin : Ptr) : Run Int :=
  if plugin = nullptr then Run.ret w 0
  else match w.asVideoTransition plugin with
    | .error e => .error e
    | .ok (_, o) => Run.ret w o.fields.SongBpm

/-- The function `vdj_plugin_video_transition_get_song_pos_beats` (lines 898-901): a null handle gives zero, otherwise the
member `SongPosBeats` is read. -/
def vdj_plugin_video_transition_get_song_pos_beats (w : World) (plugin : Ptr) : Run CDouble :=
  if plugin = nullptr then Run.ret w 0
  else match w.asVideoTransition plugin with
    | .error e => .error e
    | .ok (_, o) => Run.ret w o.fields.SongPosBeats

/-! ### Online source plugin (lines 907-976) -/

/-- The function `vdj_plugin_online_source_create` (lines 907-909): `new VdjPluginOnlineSourceWrapper()`. -/
def vdj_plugin_online_source_create (w : World) : Ptr × World :=
  w.alloc (.onlineSource VdjPluginOnlineSourceWrapper.vtable)

/-- The function `vdj_plugin_online_source_init` (lines 918-951): null checks, then the adapter is built
and bound, and `S_OK` is returned. -/
def vdj_plugin_online_source_init (w : World) (plugin : Ptr) (callbacks : Ptr) : Run HRESULT :=
  if plugin = nullptr ∨ callbacks = nullptr then Run.ret w E_FAIL
  else match w.asOnlineSource plugin with
    | .error e => .error e
    | .ok (_, o) => Run.ret (w.bindAdapter plugin o callbacks).1 S_OK

/-- The function `vdj_plugin_online_source_is_logged` (lines 953-956): a null handle gives `E_FAIL`, otherwise
`IsLogged` is called on the wrapper and its result returned. -/
def vdj_plugin_online_source_is_logged (w : World) (plugin : Ptr) : Run HRESULT :=
  if plugin = nullptr then Run.ret w E_FAIL
  else match w.asOnlineSource plugin with
    | .error e => .error e
    | .ok (p, o) => w.call plugin o .IsLogged (p.IsLogged)

/-- The function `vdj_plugin_online_source_on_login` (lines 958-961): a null handle gives `E_FAIL`, otherwise
`OnLogin` is called on the wrapper and its result returned. -/
def vdj_plugin_online_source_on_login (w : World) (plugin : Ptr) : Run HRESULT :=
  if plugin = nullptr then Run.ret w E_FAIL
  else match w.asOnlineSource plugin with
    | .error e => .error e
    | .ok (p, o) => w.call plugin o .OnLogin (p.OnLogin)

/-- The function `vdj_plugin_online_source_on_logout` (lines 963-966): a null handle gives `E_FAIL`, otherwise
`OnLogout` is called on the wrapper and its result returned. -/
def vdj_plugin_online_source_on_logout (w : World) (plugin : Ptr) : Run HRESULT :=
  if plugin = nullptr then Run.ret w E_FAIL
  else match w.asOnlineSource plugin with
    | .error e => .error e
    | .ok (p, o) => w.call plugin o .OnLogout (p.OnLogout)

/-- The function `vdj_plugin_online_source_on_search` (lines 968-971): a null handle gives `E_FAIL`, otherwise
`OnSearch` is called on the wrapper and its result returned. -/
def vdj_plugin_online_source_on_search (w : World) (plugin : Ptr) (search : Ptr) (tracks_list : Ptr) : Run HRESULT :=
  if plugin = nullptr then Run.ret w E_FAIL
  else match w.asOnlineSource plugin with
    | .error e => .error e
    | .ok (p, o) => w.call plugin o (.OnSearch search tracks_list) (p.OnSearch search tracks_list)

/-- The function `vdj_plugin_online_source_on_search_cancel` (lines 973-976): a null handle gives `E_FAIL`, otherwise
`OnSearchCancel` is called on the wrapper and its result returned. -/
def vdj_plugin_online_source_on_search_cancel (w : World) (plugin : Ptr) : Run HRESULT :=
  if plugin = nullptr then Run.ret w E_FAIL
  else match w.asOnlineSource plugin with
    | .error e => .error e
    | .ok (p, o) => w.call plugin o .OnSearchCancel (p.OnSearchCancel)

/-! ## The flat functions as one family -/

/-- The thirty-six flat functions that return a result code, each with its arguments after
the handle. The constructor `x` stands for the C function `vdj_x`. -/
inductive Op
  | plugin_init (callbacks : Ptr)
  | plugin_on_load
  | plugin_get_info (info : Ptr)
  | plugin_on_parameter (id : Int)
  | plugin_on_get_parameter_string (id : Int) (out_param : Ptr) (out_param_size : Int)
  | dsp_init (callbacks : Ptr)
  | dsp_on_start
  | dsp_on_stop
  | dsp_on_process_samples (buffer : Ptr) (nb : Int)
  | dsp_get_info (info : Ptr)
  | buffer_dsp_init (callbacks : Ptr)
  | buffer_dsp_on_start
  | buffer_dsp_on_stop
  | buffer_dsp_get_song_buffer (pos : Int) (nb : Int) (buffer : Ptr)
  | position_dsp_init (callbacks : Ptr)
  | position_dsp_on_start
  | position_dsp_on_stop
  | position_dsp_on_transform_position (song_pos : Ptr) (video_pos : Ptr) (volume : Ptr) (src_volume : Ptr)
  | position_dsp_on_process_samples (buffer : Ptr) (nb : Int)
  | video_fx_init (callbacks : Ptr) (video_callbacks : Ptr)
  | video_fx_on_start
  | video_fx_on_stop
  | video_fx_on_draw
  | video_fx_on_device_init
  | video_fx_on_device_close
  | video_fx_on_audio_samples (buffer : Ptr) (nb : Int)
  | video_transition_init (callbacks : Ptr) (video_callbacks : Ptr)
  | video_transition_on_draw (crossfader : CFloat)
  | video_transition_on_device_init
  | video_transition_on_device_close
  | online_source_init (callbacks : Ptr)
  | online_source_is_logged
  | online_source_on_login
  | online_source_on_logout
  | online_source_on_search (search : Ptr) (tracks_list : Ptr)
  | online_source_on_search_cancel

/-- The plugin kind whose family of flat functions an operation belongs to. -/
def Op.kind : Op → Kind
  | .plugin_init _ => .plugin
  | .plugin_on_load => .plugin
  | .plugin_get_info _ => .plugin
  | .plugin_on_parameter _ => .plugin
  | .plugin_on_get_parameter_string _ _ _ => .plugin
  | .dsp_init _ => .dsp
  | .dsp_on_start => .dsp
  | .dsp_on_stop => .dsp
  | .dsp_on_process_samples _ _ => .dsp
  | .dsp_get_info _ => .dsp
  | .buffer_dsp_init _ => .bufferDsp
  | .buffer_dsp_on_start => .bufferDsp
  | .buffer_dsp_on_stop => .bufferDsp
  | .buffer_dsp_get_song_buffer _ _ _ => .bufferDsp
  | .position_dsp_init _ => .positionDsp
  | .position_dsp_on_start => .positionDsp
  | .position_dsp_on_stop => .positionDsp
  | .position_dsp_on_transform_position _ _ _ _ => .positionDsp
  | .position_dsp_on_process_samples _ _ => .positionDsp
  | .video_fx_init _ _ => .videoFx
  | .video_fx_on_start => .videoFx
  | .video_fx_on_stop => .videoFx
  | .video_fx_on_draw => .videoFx
  | .video_fx_on_device_init => .videoFx
  | .video_fx_on_device_close => .videoFx
  | .video_fx_on_audio_samples _ _ => .videoFx
  | .video_transition_init _ _ => .videoTransition
  | .video_transition_on_draw _ => .videoTransition
  | .video_transition_on_device_init => .videoTransition
  | .video_transition_on_device_close => .videoTransition
  | .online_source_init _ => .onlineSource
  | .online_source_is_logged => .onlineSource
  | .online_source_on_login => .onlineSource
  | .online_source_on_logout => .onlineSource
  | .online_source_on_search _ _ => .onlineSource
  | .online_source_on_search_cancel => .onlineSource

/-- Run a flat function on a handle. -/
def Op.run (w : World) (plugin : Ptr) : Op → Run HRESULT
  | .plugin_init callbacks => vdj_plugin_init w plugin callbacks
  | .plugin_on_load => vdj_plugin_on_load w plugin
  | .plugin_get_info info => vdj_plugin_get_info w plugin info
  | .plugin_on_parameter id => vdj_plugin_on_parameter w plugin id
  | .plugin_on_get_parameter_string id out_param out_param_size => vdj_plugin_on_get_parameter_string w plugin id out_param out_param_size
  | .dsp_init callbacks => vdj_plugin_dsp_init w plugin callbacks
  | .dsp_on_start => vdj_plugin_dsp_on_start w plugin
  | .dsp_on_stop => vdj_plugin_dsp_on_stop w plugin
  | .dsp_on_process_samples buffer nb => vdj_plugin_dsp_on_process_samples w plugin buffer nb
  | .dsp_get_info info => vdj_plugin_dsp_get_info w plugin info
  | .buffer_dsp_init callbacks => vdj_plugin_buffer_dsp_init w plugin callbacks
  | .buffer_dsp_on_start => vdj_plugin_buffer_dsp_on_start w plugin
  | .buffer_dsp_on_stop => vdj_plugin_buffer_dsp_on_stop w plugin
  | .buffer_dsp_get_song_buffer pos nb buffer => vdj_plugin_buffer_dsp_get_song_buffer w plugin pos nb buffer
  | .position_dsp_init callbacks => vdj_plugin_position_dsp_init w plugin callbacks
  | .position_dsp_on_start => vdj_plugin_position_dsp_on_start w plugin
  | .position_dsp_on_stop => vdj_plugin_position_dsp_on_stop w plugin
  | .position_dsp_on_transform_position song_pos video_pos volume src_volume => vdj_plugin_position_dsp_on_transform_position w plugin song_pos video_pos volume src_volume
  | .position_dsp_on_process_samples buffer nb => vdj_plugin_position_dsp_on_process_samples w plugin buffer nb
  | .video_fx_init callbacks video_callbacks => vdj_plugin_video_fx_init w plugin callbacks video_callbacks
  | .video_fx_on_start => vdj_plugin_video_fx_on_start w plugin
  | .video_fx_on_stop => vdj_plugin_video_fx_on_stop w plugin
  | .video_fx_on_draw => vdj_plugin_video_fx_on_draw w plugin
  | .video_fx_on_device_init => vdj_plugin_video_fx_on_device_init w plugin
  | .video_fx_on_device_close => vdj_plugin_video_fx_on_device_close w plugin
  | .video_fx_on_audio_samples buffer nb => vdj_plugin_video_fx_on_audio_samples w plugin buffer nb
  | .video_transition_init callbacks video_callbacks => vdj_plugin_video_transition_init w plugin callbacks video_callbacks
  | .video_transition_on_draw crossfader => vdj_plugin_video_transition_on_draw w plugin crossfader
  | .video_transition_on_device_init => vdj_plugin_video_transition_on_device_init w plugin
  | .video_transition_on_device_close => vdj_plugin_video_transition_on_device_close w plugin
  | .online_source_init callbacks => vdj_plugin_online_source_init w plugin callbacks
  | .online_source_is_logged => vdj_plugin_online_source_is_logged w plugin
  | .online_source_on_login => vdj_plugin_online_source_on_login w plugin
  | .online_source_on_logout => vdj_plugin_online_source_on_logout w plugin
  | .online_source_on_search search tracks_list => vdj_plugin_online_source_on_search w plugin search tracks_list
  | .online_source_on_search_cancel => vdj_plugin_online_source_on_search_cancel w plugin

/-- The function `init` of kind `k`; the kinds without a video table ignore
`video_callbacks`. -/
def init (k : Kind) (w : World) (plugin : Ptr) (callbacks : Ptr) (video_callbacks : Ptr) :
    Run HRESULT :=
  match k with
  | .plugin => vdj_plugin_init w plugin callbacks
  | .dsp => vdj_plugin_dsp_init w plugin callbacks
  | .bufferDsp => vdj_plugin_buffer_dsp_init w plugin callbacks
  | .positionDsp => vdj_plugin_position_dsp_init w plugin callbacks
  | .videoFx => vdj_plugin_video_fx_init w plugin callbacks video_callbacks
  | .videoTransition => vdj_plugin_video_transition_init w plugin callbacks video_callbacks
  | .onlineSource => vdj_plugin_online_source_init w plugin callbacks

/-- The function `create` of kind `k`. -/
def create (k : Kind) (w : World) : Ptr × World :=
  match k with
  | .plugin => vdj_plugin_create w
  | .dsp => vdj_plugin_dsp_create w
  | .bufferDsp => vdj_plugin_buffer_dsp_create w
  | .positionDsp => vdj_plugin_position_dsp_create w
  | .videoFx => vdj_plugin_video_fx_create w
  | .videoTransition => vdj_plugin_video_transition_create w
  | .onlineSource => vdj_plugin_online_source_create w

/-- The class of the default wrapper of kind `k`, the one `create` builds. -/
def defaultImpl : Kind → Impl
  | .plugin => .plugin VdjPluginWrapper.vtable
  | .dsp => .dsp VdjPluginDspWrapper.vtable
  | .bufferDsp => .bufferDsp VdjPluginBufferDspWrapper.vtable
  | .positionDsp => .positionDsp VdjPluginPositionDspWrapper.vtable
  | .videoFx => .videoFx VdjPluginVideoFxWrapper.vtable
  | .videoTransition => .videoTransition VdjPluginVideoTransitionWrapper.vtable
  | .onlineSource => .onlineSource VdjPluginOnlineSourceWrapper.vtable

/-- The kinds whose `init` takes a video callback table. -/
def Kind.isVideo : Kind → Bool
  | .videoFx => true
  | .videoTransition => true
  | _ => false

/-- The handle `plugin` points at a live wrapper of kind `k`. -/
def World.live (w : World) (k : Kind) (plugin : Ptr) : Prop :=
  ∃ o, w.objs plugin = some o ∧ o.impl.kind = k

/-- The handle `plugin` points at a live default wrapper of kind `k`. -/
def World.liveDefault (w : World) (k : Kind) (plugin : Ptr) : Prop :=
  ∃ f, w.objs plugin = some { impl := defaultImpl k, fields := f }

/-! ## Reading an outcome -/

/-- The value a run returned, if it returned. -/
def Run.value {α : Type} (r : Run α) : Option α :=
  match r with
  | .ok (a, _, _) => some a
  | .error _ => none

/-- The world after a run; `w` if it stopped at a fault. -/
def Run.worldOr {α : Type} (r : Run α) (w : World) : World :=
  match r with
  | .ok (_, w1, _) => w1
  | .error _ => w

/-- The calls a run made; none if it stopped at a fault. -/
def Run.trace {α : Type} (r : Run α) : List Event :=
  match r with
  | .ok (_, _, t) => t
  | .error _ => []

/-- The members of the wrapper at `plugin`, zero if there is none. -/
def World.fieldsAt (w : World) (plugin : Ptr) : Fields :=
  match w.objs plugin with
  | some o => o.fields
  | none => Fields.zero

/-! ## A concrete host, used to evaluate the functions -/

/-- A callback table of the host. Its `get_song_buffer` entry stores the address 4096 of a
buffer of four samples through `buffer` for position 0 and count 4, and fails otherwise; its
`get_info` entry stores `120` through `result`; the remaining entries only return. -/
def hostTable : VdjCallbacks :=
  { send_command := some fun _ _ m => (S_OK, m),
    get_info := some fun _ _ result m => (S_OK, upd m result 120),
    get_string_info := some fun _ _ _ _ m => (S_FALSE, m),
    declare_parameter := some fun _ _ _ id _ _ _ m => (id, m),
    get_song_buffer := some fun _ pos nb buffer m =>
      if pos = 0 ∧ nb = 4 then (S_OK, upd m buffer 4096) else (E_FAIL, m) }

/-- A video callback table of the host; every entry only returns. -/
def hostVideoTable : VdjVideoCallbacks :=
  { draw_deck := some fun _ m => (S_OK, m),
    get_device := some fun _ _ _ m => (S_FALSE, m),
    get_texture := some fun _ engine _ _ m => (engine, m) }

/-- The caller's memory before any plugin exists: `hostTable` at address 10,
`hostVideoTable` at address 20, an info record at address 30 and the four samples
11, 22, 33, 44 at addresses 4096 to 4099. -/
def hostWorld : World :=
  { World.empty with
    tables := fun p => if p = 10 then some hostTable else none,
    vtables := fun p => if p = 20 then some hostVideoTable else none,
    infos := fun p => if p = 30 then
      some { plugin_name := some "old name", author := some "old author",
             description := some "old description", version := some "0.9",
             bitmap := 77, flags := 3 }
      else none,
    mem := fun p => if p = 4096 then 11 else if p = 4097 then 22 else if p = 4098 then 33
      else if p = 4099 then 44 else 0 }

/-- The world right after `create` of kind `k` on that host; the handle is `1`. -/
def created (k : Kind) : World := (create k hostWorld).2

/-- The world after `create` of kind `k` and then `init` with the table at address 10 and the
video table at address 20. -/
def initialised (k : Kind) : World := (init k (created k) 1 10 20).worldOr (created k)


/-! ## The numeric getters as one family -/

/-- A number returned by a getter: a C `int` or a C `double` (by its bit pattern). -/
inductive Num
  | int (i : Int)
  | double (bits : CDouble)
  deriving DecidableEq, Repr

/-- The outcome of a run with its value mapped. -/
def Run.mapValue {α β : Type} (f : α → β) (r : Run α) : Run β :=
  match r with
  | .ok (a, w, t) => .ok (f a, w, t)
  | .error e => .error e

/-- The twenty-one numeric getters. The constructor `x` stands for the C function `vdj_x`. -/
inductive Getter
  | dsp_get_sample_rate
  | dsp_get_song_bpm
  | dsp_get_song_pos_beats
  | buffer_dsp_get_sample_rate
  | buffer_dsp_get_song_bpm
  | buffer_dsp_get_song_pos
  | buffer_dsp_get_song_pos_beats
  | position_dsp_get_sample_rate
  | position_dsp_get_song_bpm
  | position_dsp_get_song_pos
  | position_dsp_get_song_pos_beats
  | video_fx_get_width
  | video_fx_get_height
  | video_fx_get_sample_rate
  | video_fx_get_song_bpm
  | video_fx_get_song_pos_beats
  | video_transition_get_width
  | video_transition_get_height
  | video_transition_get_sample_rate
  | video_transition_get_song_bpm
  | video_transition_get_song_pos_beats
  deriving DecidableEq, Repr

/-- The plugin kind whose family of flat functions a getter belongs to. -/
def Getter.kind : Getter → Kind
  | .dsp_get_sample_rate => .dsp
  | .dsp_get_song_bpm => .dsp
  | .dsp_get_song_pos_beats => .dsp
  | .buffer_dsp_get_sample_rate => .bufferDsp
  | .buffer_dsp_get_song_bpm => .bufferDsp
  | .buffer_dsp_get_song_pos => .bufferDsp
  | .buffer_dsp_get_song_pos_beats => .bufferDsp
  | .position_dsp_get_sample_rate => .positionDsp
  | .position_dsp_get_song_bpm => .positionDsp
  | .position_dsp_get_song_pos => .positionDsp
  | .position_dsp_get_song_pos_beats => .positionDsp
  | .video_fx_get_width => .videoFx
  | .video_fx_get_height => .videoFx
  | .video_fx_get_sample_rate => .videoFx
  | .video_fx_get_song_bpm => .videoFx
  | .video_fx_get_song_pos_beats => .videoFx
  | .video_transition_get_width => .videoTransition
  | .video_transition_get_height => .videoTransition
  | .video_transition_get_sample_rate => .videoTransition
  | .video_transition_get_song_bpm => .videoTransition
  | .video_transition_get_song_pos_beats => .videoTransition

/-- Run a getter on a handle. -/
def Getter.run (w : World) (plugin : Ptr) : Getter → Run Num
  | .dsp_get_sample_rate => (vdj_plugin_dsp_get_sample_rate w plugin).mapValue Num.int
  | .dsp_get_song_bpm => (vdj_plugin_dsp_get_song_bpm w plugin).mapValue Num.int
  | .dsp_get_song_pos_beats => (vdj_plugin_dsp_get_song_pos_beats w plugin).mapValue Num.double
  | .buffer_dsp_get_sample_rate => (vdj_plugin_buffer_dsp_get_sample_rate w plugin).mapValue Num.int
  | .buffer_dsp_get_song_bpm => (vdj_plugin_buffer_dsp_get_song_bpm w plugin).mapValue Num.int
  | .buffer_dsp_get_song_pos => (vdj_plugin_buffer_dsp_get_song_pos w plugin).mapValue Num.int
  | .buffer_dsp_get_song_pos_beats => (vdj_plugin_buffer_dsp_get_song_pos_beats w plugin).mapValue Num.double
  | .position_dsp_get_sample_rate => (vdj_plugin_position_dsp_get_sample_rate w plugin).mapValue Num.int
  | .position_dsp_get_song_bpm => (vdj_plugin_position_dsp_get_song_bpm w plugin).mapValue Num.int
  | .position_dsp_get_song_pos => (vdj_plugin_position_dsp_get_song_pos w plugin).mapValue Num.int
  | .position_dsp_get_song_pos_beats => (vdj_plugin_position_dsp_get_song_pos_beats w plugin).mapValue Num.double
  | .video_fx_get_width => (vdj_plugin_video_fx_get_width w plugin).mapValue Num.int
  | .video_fx_get_height => (vdj_plugin_video_fx_get_height w plugin).mapValue Num.int
  | .video_fx_get_sample_rate => (vdj_plugin_video_fx_get_sample_rate w plugin).mapValue Num.int
  | .video_fx_get_song_bpm => (vdj_plugin_video_fx_get_song_bpm w plugin).mapValue Num.int
  | .video_fx_get_song_pos_beats => (vdj_plugin_video_fx_get_song_pos_beats w plugin).mapValue Num.double
  | .video_transition_get_width => (vdj_plugin_video_transition_get_width w plugin).mapValue Num.int
  | .video_transition_get_height => (vdj_plugin_video_transition_get_height w plugin).mapValue Num.int
  | .video_transition_get_sample_rate => (vdj_plugin_video_transition_get_sample_rate w plugin).mapValue Num.int
  | .video_transition_get_song_bpm => (vdj_plugin_video_transition_get_song_bpm w plugin).mapValue Num.int
  | .video_transition_get_song_pos_beats => (vdj_plugin_video_transition_get_song_pos_beats w plugin).mapValue Num.double

/-- The property of the wrapper a getter is named after: sample rate, song bpm, song
position, beat position, width or height. -/
def Getter.property : Getter → Fields → Num
  | .dsp_get_sample_rate, f => .int f.SampleRate
  | .dsp_get_song_bpm, f => .int f.SongBpm
  | .dsp_get_song_pos_beats, f => .double f.SongPosBeats
  | .buffer_dsp_get_sample_rate, f => .int f.SampleRate
  | .buffer_dsp_get_song_bpm, f => .int f.SongBpm
  | .buffer_dsp_get_song_pos, f => .int f.SongPos
  | .buffer_dsp_get_song_pos_beats, f => .double f.SongPosBeats
  | .position_dsp_get_sample_rate, f => .int f.SampleRate
  | .position_dsp_get_song_bpm, f => .int f.SongBpm
  | .position_dsp_get_song_pos, f => .int f.SongPos
  | .position_dsp_get_song_pos_beats, f => .double f.SongPosBeats
  | .video_fx_get_width, f => .int f.width
  | .video_fx_get_height, f => .int f.height
  | .video_fx_get_sample_rate, f => .int f.SampleRate
  | .video_fx_get_song_bpm, f => .int f.SongBpm
  | .video_fx_get_song_pos_beats, f => .double f.SongPosBeats
  | .video_transition_get_width, f => .int f.width
  | .video_transition_get_height, f => .int f.height
  | .video_transition_get_sample_rate, f => .int f.SampleRate
  | .video_transition_get_song_bpm, f => .int f.SongBpm
  | .video_transition_get_song_pos_beats, f => .double f.SongPosBeats

/-- The zero of a getter's return type: `0` for the `int` getters, `0.0` for beat position. -/
def Getter.zero : Getter → Num
  | .dsp_get_sample_rate => .int 0
  | .dsp_get_song_bpm => .int 0
  | .dsp_get_song_pos_beats => .double 0
  | .buffer_dsp_get_sample_rate => .int 0
  | .buffer_dsp_get_song_bpm => .int 0
  | .buffer_dsp_get_song_pos => .int 0
  | .buffer_dsp_get_song_pos_beats => .double 0
  | .position_dsp_get_sample_rate => .int 0
  | .position_dsp_get_song_bpm => .int 0
  | .position_dsp_get_song_pos => .int 0
  | .position_dsp_get_song_pos_beats => .double 0
  | .video_fx_get_width => .int 0
  | .video_fx_get_height => .int 0
  | .video_fx_get_sample_rate => .int 0
  | .video_fx_get_song_bpm => .int 0
  | .video_fx_get_song_pos_beats => .double 0
  | .video_transition_get_width => .int 0
  | .video_transition_get_height => .int 0
  | .video_transition_get_sample_rate => .int 0
  | .video_transition_get_song_bpm => .int 0
  | .video_transition_get_song_pos_beats => .double 0

/-! ## Forwarding as the spec words it

"For every host-invocable Wrapper operation there is one flat function: it checks the handle
(and, where applicable, required callback-table pointers) for null, returning a Failure code
on violation without dereferencing; otherwise it reinterprets the handle to the concrete
Wrapper type and forwards the call unchanged, returning the Wrapper's result unchanged." -/

/-- The virtual operation of a class that a call names, when the class has it and it returns
a result code. -/
def Impl.dispatch : Impl → Call → Option (Eff HRESULT)
  | i, .OnLoad => some i.base.OnLoad
  | i, .OnParameter id => some (i.base.OnParameter id)
  | i, .OnGetParameterString id outParam outParamSize =>
    some (i.base.OnGetParameterString id outParam outParamSize)
  | .dsp vt, .OnStart => some vt.OnStart
  | .dsp vt, .OnStop => some vt.OnStop
  | .dsp vt, .OnProcessSamples buffer nb => some (vt.OnProcessSamples buffer nb)
  | .bufferDsp vt, .OnStart => some vt.OnStart
  | .bufferDsp vt, .OnStop => some vt.OnStop
  | .positionDsp vt, .OnStart => some vt.OnStart
  | .positionDsp vt, .OnStop => some vt.OnStop
  | .positionDsp vt, .OnTransformPosition songPos videoPos volume srcVolume =>
    some (vt.OnTransformPosition songPos videoPos volume srcVolume)
  | .positionDsp vt, .OnProcessSamples buffer nb => some (vt.OnProcessSamples buffer nb)
  | .videoFx vt, .OnStart => some vt.OnStart
  | .videoFx vt, .OnStop => some vt.OnStop
  | .videoFx vt, .OnDraw => some vt.OnDraw
  | .videoFx vt, .OnDeviceInit => some vt.OnDeviceInit
  | .videoFx vt, .OnDeviceClose => some vt.OnDeviceClose
  | .videoFx vt, .OnAudioSamples buffer nb => some (vt.OnAudioSamples buffer nb)
  | .videoTransition vt, .OnDrawCrossfader crossfader => some (vt.OnDraw crossfader)
  | .videoTransition vt, .OnDeviceInit => some vt.OnDeviceInit
  | .videoTransition vt, .OnDeviceClose => some vt.OnDeviceClose
  | .onlineSource vt, .IsLogged => some vt.IsLogged
  | .onlineSource vt, .OnLogin => some vt.OnLogin
  | .onlineSource vt, .OnLogout => some vt.OnLogout
  | .onlineSource vt, .OnSearch search tracksList => some (vt.OnSearch search tracksList)
  | .onlineSource vt, .OnSearchCancel => some vt.OnSearchCancel
  | _, _ => none

/-- The handle reinterpreted as a wrapper of kind `k`: the object must be live and of that
kind; every kind can be seen as the generic kind. -/
def World.castTo (w : World) (k : Kind) (plugin : Ptr) : Except Fault Object :=
  match w.objs plugin with
  | some o => if k = Kind.plugin ∨ o.impl.kind = k then .ok o else .error .badPointer
  | none => .error .badPointer

/-- Forwarding in the spec's words: a null handle gives Failure; otherwise the handle is
reinterpreted as a wrapper of kind `k`, the operation `c` is called on it once with the
arguments given, and the wrapper's result is returned unchanged. -/
def spec_forward (w : World) (plugin : Ptr) (k : Kind) (c : Call) : Run HRESULT :=
  if plugin = nullptr then .ok (E_FAIL, w, [])
  else match w.castTo k plugin with
    | .error e => .error e
    | .ok o =>
      match o.impl.dispatch c with
      | none => .error .badPointer
      | some m => w.call plugin o c m

/-- The same for the operation `OnGetSongBuffer`, which returns a pointer and whose flat
function returns null on a null handle. -/
def spec_forward_on_get_song_buffer (w : World) (plugin : Ptr) (songPos : Int) (nb : Int) :
    Run Ptr :=
  if plugin = nullptr then .ok (nullptr, w, [])
  else match w.castTo .bufferDsp plugin with
    | .error e => .error e
    | .ok o =>
      match o.impl with
      | .bufferDsp vt => w.call plugin o (.OnGetSongBuffer songPos nb) (vt.OnGetSongBuffer songPos nb)
      | _ => .error .badPointer

/-- The C++ view of an ABI info record (same six fields, in the same order). -/
def VdjPluginInfo.toCpp (r : VdjPluginInfo) : TVdjPluginInfo8 :=
  { PluginName := r.plugin_name, Author := r.author, Description := r.description,
    Version := r.version, Bitmap := r.bitmap, Flags := r.flags }

/-- The ABI view of a C++ info record: the six assignments of lines 376-381. -/
def VdjPluginInfo.ofCpp (i : TVdjPluginInfo8) : VdjPluginInfo :=
  { plugin_name := i.PluginName, author := i.Author, description := i.Description,
    version := i.Version, bitmap := i.Bitmap, flags := i.Flags }

/-- Forwarding of `get_info` in the spec's words: null checks on the handle and on the
record; otherwise `OnGetPluginInfo` is called once on the caller's record, which afterwards
holds what the wrapper left in it, and the wrapper's result is returned unchanged. -/
def spec_forward_get_info (w : World) (plugin : Ptr) (k : Kind) (info : Ptr) : Run HRESULT :=
  if plugin = nullptr ∨ info = nullptr then .ok (E_FAIL, w, [])
  else match w.castTo k plugin with
    | .error e => .error e
    | .ok o =>
      match w.infos info with
      | none => .error .badPointer
      | some r =>
        .ok ((o.impl.base.OnGetPluginInfo (some r.toCpp) o.fields w.mem).1.1,
             { w with
               objs := upd w.objs plugin (some { o with
                 fields := (o.impl.base.OnGetPluginInfo (some r.toCpp) o.fields w.mem).2.1 }),
               mem := (o.impl.base.OnGetPluginInfo (some r.toCpp) o.fields w.mem).2.2,
               infos := upd w.infos info (some (VdjPluginInfo.ofCpp
                 ((o.impl.base.OnGetPluginInfo (some r.toCpp) o.fields w.mem).1.2.getD
                   r.toCpp))) },
             [Event.virt plugin (.OnGetPluginInfo (some r.toCpp))])

/-- The spec's forwarding for each flat function that forwards to a virtual operation of the
wrapper; `none` for the functions that do not (the seven `init` and `get_song_buffer`, which
goes to the adapter). -/
def Op.spec (w : World) (plugin : Ptr) : Op → Option (Run HRESULT)
  | .plugin_on_load => some (spec_forward w plugin .plugin .OnLoad)
  | .plugin_get_info info => some (spec_forward_get_info w plugin .plugin info)
  | .plugin_on_parameter id => some (spec_forward w plugin .plugin (.OnParameter id))
  | .plugin_on_get_parameter_string id out_param out_param_size =>
    some (spec_forward w plugin .plugin (.OnGetParameterString id out_param out_param_size))
  | .dsp_on_start => some (spec_forward w plugin .dsp .OnStart)
  | .dsp_on_stop => some (spec_forward w plugin .dsp .OnStop)
  | .dsp_on_process_samples buffer nb =>
    some (spec_forward w plugin .dsp (.OnProcessSamples buffer nb))
  | .dsp_get_info info => some (spec_forward_get_info w plugin .dsp info)
  | .buffer_dsp_on_start => some (spec_forward w plugin .bufferDsp .OnStart)
  | .buffer_dsp_on_stop => some (spec_forward w plugin .bufferDsp .OnStop)
  | .position_dsp_on_start => some (spec_forward w plugin .positionDsp .OnStart)
  | .position_dsp_on_stop => some (spec_forward w plugin .positionDsp .OnStop)
  | .position_dsp_on_transform_position song_pos video_pos volume src_volume =>
    some (spec_forward w plugin .positionDsp
      (.OnTransformPosition song_pos video_pos volume src_volume))
  | .position_dsp_on_process_samples buffer nb =>
    some (spec_forward w plugin .positionDsp (.OnProcessSamples buffer nb))
  | .video_fx_on_start => some (spec_forward w plugin .videoFx .OnStart)
  | .video_fx_on_stop => some (spec_forward w plugin .videoFx .OnStop)
  | .video_fx_on_draw => some (spec_forward w plugin .videoFx .OnDraw)
  | .video_fx_on_device_init => some (spec_forward w plugin .videoFx .OnDeviceInit)
  | .video_fx_on_device_close => some (spec_forward w plugin .videoFx .OnDeviceClose)
  | .video_fx_on_audio_samples buffer nb =>
    some (spec_forward w plugin .videoFx (.OnAudioSamples buffer nb))
  | .video_transition_on_draw crossfader =>
    some (spec_forward w plugin .videoTransition (.OnDrawCrossfader crossfader))
  | .video_transition_on_device_init =>
    some (spec_forward w plugin .videoTransition .OnDeviceInit)
  | .video_transition_on_device_close =>
    some (spec_forward w plugin .videoTransition .OnDeviceClose)
  | .online_source_is_logged => some (spec_forward w plugin .onlineSource .IsLogged)
  | .online_source_on_login => some (spec_forward w plugin .onlineSource .OnLogin)
  | .online_source_on_logout => some (spec_forward w plugin .onlineSource .OnLogout)
  | .online_source_on_search search tracks_list =>
    some (spec_forward w plugin .onlineSource (.OnSearch search tracks_list))
  | .online_source_on_search_cancel =>
    some (spec_forward w plugin .onlineSource .OnSearchCancel)
  | _ => none

/-- The two flat functions `get_info`. -/
def Op.isGetInfo : Op → Bool
  | .plugin_get_info _ => true
  | .dsp_get_info _ => true
  | _ => false

/-- An implementation of `IVdjPlugin8` other than the default wrapper: its `OnGetPluginInfo`
leaves the record alone and returns `E_NOTIMPL`; the other operations are the default
ones. -/
def bareImpl : IVdjPlugin8 :=
  { VdjPluginWrapper.vtable with OnGetPluginInfo := fun info => Eff.ret (E_NOTIMPL, info) }

/-- The host world with one object of class `bareImpl` at address 1. -/
def bareWorld : World := (hostWorld.alloc (.plugin bareImpl)).2

/-- The host world with a default Video-FX wrapper at address 1 whose numeric members the
host has set: 44100 Hz, 128 bpm, beat position `4.0`, 1920 by 1080. -/
def playingWorld : World :=
  { hostWorld with
    objs := fun p => if p = 1 then
      some { impl := defaultImpl .videoFx,
             fields := { Fields.zero with SampleRate := 44100, SongBpm := 128,
                                          SongPosBeats := 0x4010000000000000,
                                          width := 1920, height := 1080 } }
      else none,
    next := 1 }


/-! ## Release (lines 320-325 and its six copies) -/

/-- Modelled from the spec: the destructor that `delete p` runs. The wrappers of `src/`
declare no destructor and no member of their own; the destructor of the SDK interfaces is in
`header_ref/*.h` (not part of `src/`). By the spec, `release` "destroys the Wrapper and its
owned Adapter(s)" and an adapter is "owned by the Wrapper, destroyed when the Wrapper is
destroyed": the object goes, and with it the adapter behind `cb` and the video adapter behind
`vcb` (deleting a null pointer does nothing). An adapter that no member of the wrapper points
at is out of the destructor's reach. -/
def World.destroy (w : World) (plugin : Ptr) (o : Object) : World :=
  { w with
    objs := upd w.objs plugin none,
    adapters := if o.fields.cb = nullptr then w.adapters else upd w.adapters o.fields.cb none,
    vadapters :=
      if o.fields.vcb = nullptr then w.vadapters else upd w.vadapters o.fields.vcb none }

/-- The function `vdj_plugin_release` (lines 320-325): nothing on a null handle, otherwise
`delete p`. -/
def vdj_plugin_release (w : World) (plugin : Ptr) : Run Unit :=
  if plugin = nullptr then Run.ret w ()
  else match w.asPlugin plugin with
    | .error e => .error e
    | .ok (_, o) => Run.ret (w.destroy plugin o) ()

/-- The function `vdj_plugin_dsp_release` (lines 406-411). -/
def vdj_plugin_dsp_release (w : World) (plugin : Ptr) : Run Unit :=
  if plugin = nullptr then Run.ret w ()
  else match w.asDsp plugin with
    | .error e => .error e
    | .ok (_, o) => Run.ret (w.destroy plugin o) ()

/-- The function `vdj_plugin_buffer_dsp_release` (lines 509-514). -/
def vdj_plugin_buffer_dsp_release (w : World) (plugin : Ptr) : Run Unit :=
  if plugin = nullptr then Run.ret w ()
  else match w.asBufferDsp plugin with
    | .error e => .error e
    | .ok (_, o) => Run.ret (w.destroy plugin o) ()

/-- The function `vdj_plugin_position_dsp_release` (lines 599-604). -/
def vdj_plugin_position_dsp_release (w : World) (plugin : Ptr) : Run Unit :=
  if plugin = nullptr then Run.ret w ()
  else match w.asPositionDsp plugin with
    | .error e => .error e
    | .ok (_, o) => Run.ret (w.destroy plugin o) ()

/-- The function `vdj_plugin_video_fx_release` (lines 691-696). -/
def vdj_plugin_video_fx_release (w : World) (plugin : Ptr) : Run Unit :=
  if plugin = nullptr then Run.ret w ()
  else match w.asVideoFx plugin with
    | .error e => .error e
    | .ok (_, o) => Run.ret (w.destroy plugin o) ()

/-- The function `vdj_plugin_video_transition_release` (lines 817-822). -/
def vdj_plugin_video_transition_release (w : World) (plugin : Ptr) : Run Unit :=
  if plugin = nullptr then Run.ret w ()
  else match w.asVideoTransition plugin with
    | .error e => .error e
    | .ok (_, o) => Run.ret (w.destroy plugin o) ()

/-- The function `vdj_plugin_online_source_release` (lines 911-916). -/
def vdj_plugin_online_source_release (w : World) (plugin : Ptr) : Run Unit :=
  if plugin = nullptr then Run.ret w ()
  else match w.asOnlineSource plugin with
    | .error e => .error e
    | .ok (_, o) => Run.ret (w.destroy plugin o) ()

/-- The function `release` of kind `k`. -/
def release (k : Kind) (w : World) (plugin : Ptr) : Run Unit :=
  match k with
  | .plugin => vdj_plugin_release w plugin
  | .dsp => vdj_plugin_dsp_release w plugin
  | .bufferDsp => vdj_plugin_buffer_dsp_release w plugin
  | .positionDsp => vdj_plugin_position_dsp_release w plugin
  | .videoFx => vdj_plugin_video_fx_release w plugin
  | .videoTransition => vdj_plugin_video_transition_release w plugin
  | .onlineSource => vdj_plugin_online_source_release w plugin

/-! ## Live adapters of a handle -/

/-- The addresses of the live primary adapters that hold the handle `plugin` as their
context. Everything `new` has handed out lies at or below `next`. -/
def World.adaptersOf (w : World) (plugin : Ptr) : List Ptr :=
  (List.range (w.next + 1)).filter fun p =>
    match w.adapters p with
    | some a => decide (a.plugin = plugin)
    | none => false

/-- The addresses of the live video adapters that hold the handle `plugin`. -/
def World.videoAdaptersOf (w : World) (plugin : Ptr) : List Ptr :=
  (List.range (w.next + 1)).filter fun p =>
    match w.vadapters p with
    | some a => decide (a.plugin = plugin)
    | none => false

/-- The world after `create` of kind `k` and two calls of `init` on the handle, both with
the table at address 10 and the video table at address 20. -/
def reinitialised (k : Kind) : World := (init k (initialised k) 1 10 20).worldOr (initialised k)

/-- The world after `create` of kind `k`, `init` with the tables at addresses 10 and 20, and a
second `init` with other table pointers, 11 and 21. -/
def reinitialisedOther (k : Kind) : World :=
  (init k (initialised k) 1 11 21).worldOr (initialised k)

/-- The world after `create`, one `init` and `release` of the handle. -/
def released (k : Kind) : World := (release k (initialised k) 1).worldOr (initialised k)

/-- The world after `create`, two `init` and `release` of the handle. -/
def releasedAfterReinit (k : Kind) : World :=
  (release k (reinitialised k) 1).worldOr (reinitialised k)

/-- The world with two handles of kind `k`, 1 and 2, created one after the other and then
initialised one after the other with the tables at addresses 10 and 20. -/
def twoInitialised (k : Kind) : World :=
  (init k ((init k (create k (created k)).2 1 10 20).worldOr World.empty) 2 10 20).worldOr
    World.empty

/-- The world `twoInitialised k` after `release` of handle 1. -/
def twoReleasedFirst (k : Kind) : World :=
  (release k (twoInitialised k) 1).worldOr World.empty


/-! ## A wrapper whose `OnLoad` fails -/

/-- An implementation of `IVdjPlugin8` other than the default wrapper: its `OnLoad` returns
`E_FAIL` and changes nothing; the other operations are the default ones. -/
def failingLoadImpl : IVdjPlugin8 :=
  { VdjPluginWrapper.vtable with OnLoad := Eff.ret E_FAIL }

/-- The host world with one object of class `failingLoadImpl` at address 1. -/
def failingLoadWorld : World := (hostWorld.alloc (.plugin failingLoadImpl)).2

/-! ## Sequences of calls -/

/-- A call of the flat ABI other than `release`. -/
inductive Step
  | create (k : Kind)
  | op (o : Op) (plugin : Ptr)
  | on_get_song_buffer (plugin : Ptr) (song_pos : Int) (nb : Int)
  | getter (g : Getter) (plugin : Ptr)

/-- The world after one call, or the fault it stopped at. -/
def Step.apply (w : World) : Step → Except Fault World
  | .create k => .ok (VdjShim.create k w).2
  | .op o plugin =>
    match o.run w plugin with
    | .ok (_, w1, _) => .ok w1
    | .error e => .error e
  | .on_get_song_buffer plugin song_pos nb =>
    match vdj_plugin_buffer_dsp_on_get_song_buffer w plugin song_pos nb with
    | .ok (_, w1, _) => .ok w1
    | .error e => .error e
  | .getter g plugin =>
    match g.run w plugin with
    | .ok (_, w1, _) => .ok w1
    | .error e => .error e

/-- The world after a sequence of calls, each made in the world the previous one left; the
run stops at the first fault. -/
def runSteps (w : World) : List Step → Except Fault World
  | [] => .ok w
  | s :: rest =>
    match s.apply w with
    | .ok w1 => runSteps w1 rest
    | .error e => .error e

/-- The seven `init` functions. -/
def Op.isInit : Op → Bool
  | .plugin_init _ => true
  | .dsp_init _ => true
  | .buffer_dsp_init _ => true
  | .position_dsp_init _ => true
  | .video_fx_init _ _ => true
  | .video_transition_init _ _ => true
  | .online_source_init _ => true
  | _ => false

/-- The flat function that goes to the adapter: the buffer-DSP `get_song_buffer`. -/
def Op.routesThroughAdapter : Op → Bool
  | .buffer_dsp_get_song_buffer _ _ _ => true
  | _ => false

/-- Nothing lives above the allocation counter: the addresses `new` will hand out are
unused. -/
def World.allocated (w : World) : Prop := ∀ p, w.next < p → w.objs p = none

/-- From `w` to `w1` no wrapper object appeared, disappeared or changed its class, the
allocation counter did not go back, and the same info records of the caller are live. -/
def World.keeps (w w1 : World) : Prop :=
  (∀ p, (w1.objs p).map Object.impl = (w.objs p).map Object.impl) ∧
  w.next ≤ w1.next ∧
  (∀ p, (w1.infos p).isSome = (w.infos p).isSome)

/-- A sequence of calls on the DSP handle 1: `on_stop` before `on_start` and before `init`,
then `init` with the table at address 10, `on_start`, `get_info` and `on_stop`. -/
def exampleSteps : List Step :=
  [.op .dsp_on_stop 1, .op (.dsp_init 10) 1, .op .dsp_on_start 1, .op (.dsp_get_info 30) 1,
   .op .dsp_on_stop 1]

/-- The world after `exampleSteps` on the DSP handle fresh from `create`. -/
def afterExampleSteps : World :=
  match runSteps (created .dsp) exampleSteps with
  | .ok w => w
  | .error _ => World.empty


/-! # Theorems -/

/-- The value of `E_FAIL`. -/
theorem E_FAIL_eq : E_FAIL = -2147467259 := by decide

/-- The value of `E_NOTIMPL`. -/
theorem E_NOTIMPL_eq : E_NOTIMPL = -2147467263 := by decide

/-- The value of `S_OK`. -/
theorem S_OK_eq : S_OK = 0 := by decide

/-- When a null check of `init` fails, nothing happens and `E_FAIL` is returned. -/
theorem init_of_null (k : Kind) (w : World) (plugin callbacks video_callbacks : Ptr)
    (hnull : plugin = nullptr ∨ callbacks = nullptr ∨
      (k.isVideo = true ∧ video_callbacks = nullptr)) :
    init k w plugin callbacks video_callbacks = .ok (E_FAIL, w, []) := by
  rcases hnull with hp | hc | ⟨hv, hvc⟩
  · subst hp; cases k <;> rfl
  · subst hc
    cases k <;> simp [init, vdj_plugin_init, vdj_plugin_dsp_init, vdj_plugin_buffer_dsp_init,
      vdj_plugin_position_dsp_init, vdj_plugin_video_fx_init,
      vdj_plugin_video_transition_init, vdj_plugin_online_source_init, Run.ret]
  · subst hvc
    cases k <;> simp [Kind.isVideo] at hv <;>
      simp [init, vdj_plugin_video_fx_init, vdj_plugin_video_transition_init, Run.ret]

/-- When the null checks of `init` pass on a live wrapper of the right kind: the generic kind
binds the adapter and calls `OnLoad`, Video-FX binds both adapters, every other kind binds the
primary adapter; all but the generic kind return `S_OK`. -/
theorem init_of_nonnull (k : Kind) (w : World) (plugin callbacks video_callbacks : Ptr)
    (o : Object) (ho : w.objs plugin = some o) (hk : o.impl.kind = k)
    (hp : plugin ≠ nullptr) (hc : callbacks ≠ nullptr)
    (hv : k.isVideo = true → video_callbacks ≠ nullptr) :
    init k w plugin callbacks video_callbacks =
      match k with
      | .plugin =>
        (w.bindAdapter plugin o callbacks).1.call plugin (w.bindAdapter plugin o callbacks).2
          .OnLoad o.impl.base.OnLoad
      | .videoFx =>
        .ok (S_OK, ((w.bindAdapter plugin o callbacks).1.bindVideoAdapter plugin
                     (w.bindAdapter plugin o callbacks).2 video_callbacks).1, [])
      | _ => .ok (S_OK, (w.bindAdapter plugin o callbacks).1, []) := by
  obtain ⟨impl, f⟩ := o
  cases impl <;> simp only [Impl.kind] at hk <;> subst hk
  · simp [init, vdj_plugin_init, hp, hc, World.asPlugin, ho]
  · simp [init, vdj_plugin_dsp_init, hp, hc, World.asDsp, ho, Run.ret]
  · simp [init, vdj_plugin_buffer_dsp_init, hp, hc, World.asBufferDsp, ho, Run.ret]
  · simp [init, vdj_plugin_position_dsp_init, hp, hc, World.asPositionDsp, ho, Run.ret]
  · simp [init, vdj_plugin_video_fx_init, hp, hc, hv rfl, World.asVideoFx, ho, Run.ret]
  · simp [init, vdj_plugin_video_transition_init, hp, hc, hv rfl, World.asVideoTransition,
      ho, Run.ret]
  · simp [init, vdj_plugin_online_source_init, hp, hc, World.asOnlineSource, ho, Run.ret]

/-- With the default wrapper for the generic kind, an `init` whose null checks pass returns
`S_OK`. -/
theorem init_ok_of_nonnull (k : Kind) (w : World) (plugin callbacks video_callbacks : Ptr)
    (hl : w.live k plugin) (hd : k = Kind.plugin → w.liveDefault k plugin)
    (hp : plugin ≠ nullptr) (hc : callbacks ≠ nullptr)
    (hv : k.isVideo = true → video_callbacks ≠ nullptr) :
    ∃ w' t, init k w plugin callbacks video_callbacks = .ok (S_OK, w', t) := by
  obtain ⟨o, ho, hk⟩ := hl
  rw [init_of_nonnull k w plugin callbacks video_callbacks o ho hk hp hc hv]
  cases k
  · obtain ⟨f, hf⟩ := hd rfl
    rw [ho] at hf
    cases hf
    exact ⟨_, _, rfl⟩
  all_goals exact ⟨_, _, rfl⟩

/-- Writing back what a map already holds changes nothing. -/
theorem upd_same {α : Type} (m : Ptr → α) (a : Ptr) (x : α) (h : m a = x) : upd m a x = m := by
  funext p
  unfold upd
  split
  · next e => rw [e, h]
  · rfl

/-- A virtual operation that only returns leaves the world as it was. -/
theorem World.call_ret {α : Type} (w : World) (this : Ptr) (o : Object) (c : Call) (a : α)
    (h : w.objs this = some o) :
    w.call this o c (Eff.ret a) = .ok (a, w, [Event.virt this c]) := by
  simp only [World.call, Eff.ret]
  rw [upd_same w.objs this _ h]

/-- The cast `asPlugin` faults only on an invalid pointer. -/
theorem World.asPlugin_ne_nullDeref (w : World) (plugin : Ptr) :
    w.asPlugin plugin ≠ .error .nullDeref := by
  intro h
  unfold World.asPlugin at h
  split at h <;> cases h

/-- The cast `asDsp` faults only on an invalid pointer. -/
theorem World.asDsp_ne_nullDeref (w : World) (plugin : Ptr) :
    w.asDsp plugin ≠ .error .nullDeref := by
  intro h
  unfold World.asDsp at h
  split at h
  · split at h <;> cases h
  · cases h

/-- The cast `asBufferDsp` faults only on an invalid pointer. -/
theorem World.asBufferDsp_ne_nullDeref (w : World) (plugin : Ptr) :
    w.asBufferDsp plugin ≠ .error .nullDeref := by
  intro h
  unfold World.asBufferDsp at h
  split at h
  · split at h <;> cases h
  · cases h

/-- The cast `asPositionDsp` faults only on an invalid pointer. -/
theorem World.asPositionDsp_ne_nullDeref (w : World) (plugin : Ptr) :
    w.asPositionDsp plugin ≠ .error .nullDeref := by
  intro h
  unfold World.asPositionDsp at h
  split at h
  · split at h <;> cases h
  · cases h

/-- The cast `asVideoFx` faults only on an invalid pointer. -/
theorem World.asVideoFx_ne_nullDeref (w : World) (plugin : Ptr) :
    w.asVideoFx plugin ≠ .error .nullDeref := by
  intro h
  unfold World.asVideoFx at h
  split at h
  · split at h <;> cases h
  · cases h

/-- The cast `asVideoTransition` faults only on an invalid pointer. -/
theorem World.asVideoTransition_ne_nullDeref (w : World) (plugin : Ptr) :
    w.asVideoTransition plugin ≠ .error .nullDeref := by
  intro h
  unfold World.asVideoTransition at h
  split at h
  · split at h <;> cases h
  · cases h

/-- The cast `asOnlineSource` faults only on an invalid pointer. -/
theorem World.asOnlineSource_ne_nullDeref (w : World) (plugin : Ptr) :
    w.asOnlineSource plugin ≠ .error .nullDeref := by
  intro h
  unfold World.asOnlineSource at h
  split at h
  · split at h <;> cases h
  · cases h

/-- Mapping the value of a run does not change its fault. -/
theorem Run.mapValue_ne_error {α β : Type} (f : α → β) (r : Run α) (e : Fault)
    (h : r ≠ .error e) : r.mapValue f ≠ .error e := by
  cases r with
  | ok v => intro h'; cases h'
  | error e' =>
    intro h'
    apply h
    cases h'
    rfl


/-- C1. For every flat function that returns a result code, of every plugin kind, a call with
a null handle returns `E_FAIL` whatever the other arguments are, leaves the world as it was
and calls nothing: no wrapper operation and no callback-table entry. -/
theorem null_handle_returns_failure (op : Op) (w : World) :
    op.run w nullptr = .ok (E_FAIL, w, []) := by
  cases op <;> rfl


/-- C2. For every plugin kind, with the handle null or pointing at a live wrapper of that kind
(the default wrapper for the generic kind, any implementation for the six others), `init`
returns, and it returns `E_FAIL` exactly when the handle is null, the callback table is null,
or the kind is Video-FX or Video-Transition and the video callback table is null; in every
other case it returns `S_OK`. -/
theorem init_failure_iff_null (k : Kind) (w : World) (plugin callbacks video_callbacks : Ptr)
    (h : plugin = nullptr ∨ (w.live k plugin ∧ (k = Kind.plugin → w.liveDefault k plugin))) :
    ∃ r w' t, init k w plugin callbacks video_callbacks = .ok (r, w', t) ∧
      (r = E_FAIL ↔ (plugin = nullptr ∨ callbacks = nullptr ∨
          (k.isVideo = true ∧ video_callbacks = nullptr))) ∧
      (r ≠ E_FAIL → r = S_OK) := by
  have hne : S_OK ≠ E_FAIL := by decide
  by_cases hnull : plugin = nullptr ∨ callbacks = nullptr ∨
      (k.isVideo = true ∧ video_callbacks = nullptr)
  · exact ⟨E_FAIL, w, [], init_of_null k w plugin callbacks video_callbacks hnull,
      by simp [hnull], by simp⟩
  · have hp : plugin ≠ nullptr := fun e => hnull (Or.inl e)
    have hc : callbacks ≠ nullptr := fun e => hnull (Or.inr (Or.inl e))
    have hv : k.isVideo = true → video_callbacks ≠ nullptr :=
      fun e1 e2 => hnull (Or.inr (Or.inr ⟨e1, e2⟩))
    rcases h with h | ⟨hl, hd⟩
    · exact absurd h hp
    · obtain ⟨w', t, e⟩ := init_ok_of_nonnull k w plugin callbacks video_callbacks hl hd hp hc hv
      exact ⟨S_OK, w', t, e, by simp [hnull, hne], by simp⟩

/-- Witness for C2: a Video-FX handle fresh from `create`, a callback table at address 10 and
a null video table. -/
theorem init_failure_iff_null_witness :
    ((1 : Ptr) = nullptr ∨ ((created .videoFx).live .videoFx 1 ∧
        (Kind.videoFx = Kind.plugin → (created .videoFx).liveDefault .videoFx 1))) ∧
    ∃ r w' t, init .videoFx (created .videoFx) 1 10 0 = .ok (r, w', t) ∧
      (r = E_FAIL ↔ ((1 : Ptr) = nullptr ∨ (10 : Ptr) = nullptr ∨
          (Kind.videoFx.isVideo = true ∧ (0 : Ptr) = nullptr))) ∧
      (r ≠ E_FAIL → r = S_OK) :=
  ⟨Or.inr ⟨⟨_, rfl, rfl⟩, fun h => by cases h⟩,
   init_failure_iff_null .videoFx (created .videoFx) 1 10 0
     (Or.inr ⟨⟨_, rfl, rfl⟩, fun h => by cases h⟩)⟩


/-- C3. For every plugin kind and every state of the wrapper (the default wrapper for the
generic kind, any implementation for the six others), whenever `init` returns `E_FAIL` the
world after the call is the world before it: the members `cb` and `vcb` of every wrapper and
the sets of live adapters are what they were, and nothing was called. -/
theorem failed_init_binds_nothing (k : Kind) (w w' : World)
    (plugin callbacks video_callbacks : Ptr) (t : List Event)
    (h : plugin = nullptr ∨ (w.live k plugin ∧ (k = Kind.plugin → w.liveDefault k plugin)))
    (hfail : init k w plugin callbacks video_callbacks = .ok (E_FAIL, w', t)) :
    w' = w ∧ t = [] := by
  have hne : S_OK ≠ E_FAIL := by decide
  by_cases hnull : plugin = nullptr ∨ callbacks = nullptr ∨
      (k.isVideo = true ∧ video_callbacks = nullptr)
  · rw [init_of_null k w plugin callbacks video_callbacks hnull] at hfail
    cases hfail
    exact ⟨rfl, rfl⟩
  · have hp : plugin ≠ nullptr := fun e => hnull (Or.inl e)
    have hc : callbacks ≠ nullptr := fun e => hnull (Or.inr (Or.inl e))
    have hv : k.isVideo = true → video_callbacks ≠ nullptr :=
      fun e1 e2 => hnull (Or.inr (Or.inr ⟨e1, e2⟩))
    rcases h with h | ⟨hl, hd⟩
    · exact absurd h hp
    · obtain ⟨w1, t1, e⟩ := init_ok_of_nonnull k w plugin callbacks video_callbacks hl hd hp hc hv
      rw [e] at hfail
      injection hfail with h1
      injection h1 with h2
      exact absurd h2 hne

/-- Witness for C3: `init` of a Video-Transition handle fresh from `create` with a null
callback table fails and leaves the world as it was. -/
theorem failed_init_binds_nothing_witness :
    ((1 : Ptr) = nullptr ∨ ((created .videoTransition).live .videoTransition 1 ∧
        (Kind.videoTransition = Kind.plugin →
          (created .videoTransition).liveDefault .videoTransition 1))) ∧
    init .videoTransition (created .videoTransition) 1 0 20
      = .ok (E_FAIL, created .videoTransition, []) ∧
    (created .videoTransition = created .videoTransition ∧ ([] : List Event) = []) :=
  ⟨Or.inr ⟨⟨_, rfl, rfl⟩, fun h => by cases h⟩, rfl,
   failed_init_binds_nothing .videoTransition (created .videoTransition)
     (created .videoTransition) 1 0 20 []
     (Or.inr ⟨⟨_, rfl, rfl⟩, fun h => by cases h⟩) rfl⟩


/-- What a successful `init` leaves behind (default wrapper for the generic kind): the member
`cb` of the wrapper points at a live adapter holding the supplied table and the handle; for
Video-FX the member `vcb` points at a live video adapter holding the supplied video table and
the handle; for Video-Transition `vcb` and the live video adapters are what they were. -/
theorem init_binds (k : Kind) (w w' : World) (plugin callbacks video_callbacks : Ptr)
    (t : List Event) (hl : w.live k plugin) (hd : k = Kind.plugin → w.liveDefault k plugin)
    (hinit : init k w plugin callbacks video_callbacks = .ok (S_OK, w', t)) :
    plugin ≠ nullptr ∧ callbacks ≠ nullptr ∧
    ∃ o, w'.objs plugin = some o ∧ o.impl.kind = k ∧ o.fields.cb ≠ nullptr ∧
      w'.adapters o.fields.cb = some { c_callbacks := callbacks, plugin := plugin } ∧
      (k = Kind.videoFx → video_callbacks ≠ nullptr ∧ o.fields.vcb ≠ nullptr ∧
        w'.vadapters o.fields.vcb
          = some { c_callbacks := video_callbacks, plugin := plugin }) ∧
      (k = Kind.videoTransition →
        o.fields.vcb = (w.fieldsAt plugin).vcb ∧ w'.vadapters = w.vadapters) := by
  have hne : S_OK ≠ E_FAIL := by decide
  by_cases hnull : plugin = nullptr ∨ callbacks = nullptr ∨
      (k.isVideo = true ∧ video_callbacks = nullptr)
  · rw [init_of_null k w plugin callbacks video_callbacks hnull] at hinit
    injection hinit with h1
    injection h1 with h2
    exact absurd h2.symm hne
  · have hp : plugin ≠ nullptr := fun e => hnull (Or.inl e)
    have hc : callbacks ≠ nullptr := fun e => hnull (Or.inr (Or.inl e))
    have hv : k.isVideo = true → video_callbacks ≠ nullptr :=
      fun e1 e2 => hnull (Or.inr (Or.inr ⟨e1, e2⟩))
    refine ⟨hp, hc, ?_⟩
    obtain ⟨o, ho, hk⟩ := hl
    rw [init_of_nonnull k w plugin callbacks video_callbacks o ho hk hp hc hv] at hinit
    have hfresh : w.fresh ≠ nullptr := by simp [World.fresh, nullptr]
    obtain ⟨impl, f⟩ := o
    cases k
    · obtain ⟨f', hf⟩ := hd rfl
      rw [ho] at hf
      cases hf
      simp only [World.call, Except.ok.injEq, Prod.mk.injEq] at hinit
      obtain ⟨-, rfl, -⟩ := hinit
      refine ⟨{ impl := defaultImpl .plugin, fields := { f with cb := w.fresh } }, ?_, rfl, hfresh,
        ?_, by simp, by simp⟩
      · simp [World.bindAdapter, defaultImpl, Impl.base, VdjPluginWrapper.vtable,
          VdjPluginWrapper.OnLoad, Eff.ret, upd]
      · simp [World.bindAdapter, upd]
    · simp only [Except.ok.injEq, Prod.mk.injEq] at hinit
      obtain ⟨-, rfl, -⟩ := hinit
      exact ⟨{ impl := impl, fields := { f with cb := w.fresh } },
        by simp [World.bindAdapter, upd], hk, hfresh, by simp [World.bindAdapter, upd],
        by simp, by simp⟩
    · simp only [Except.ok.injEq, Prod.mk.injEq] at hinit
      obtain ⟨-, rfl, -⟩ := hinit
      exact ⟨{ impl := impl, fields := { f with cb := w.fresh } },
        by simp [World.bindAdapter, upd], hk, hfresh, by simp [World.bindAdapter, upd],
        by simp, by simp⟩
    · simp only [Except.ok.injEq, Prod.mk.injEq] at hinit
      obtain ⟨-, rfl, -⟩ := hinit
      exact ⟨{ impl := impl, fields := { f with cb := w.fresh } },
        by simp [World.bindAdapter, upd], hk, hfresh, by simp [World.bindAdapter, upd],
        by simp, by simp⟩
    · simp only [Except.ok.injEq, Prod.mk.injEq] at hinit
      obtain ⟨-, rfl, -⟩ := hinit
      refine ⟨{ impl := impl, fields := { f with cb := w.fresh, vcb := w.fresh + 1 } },
        by simp [World.bindVideoAdapter, World.bindAdapter, World.fresh, upd], hk, hfresh,
        by simp [World.bindVideoAdapter, World.bindAdapter, upd], ?_, by simp⟩
      intro _
      exact ⟨hv rfl, by simp [nullptr],
        by simp [World.bindVideoAdapter, World.bindAdapter, World.fresh, upd]⟩
    · simp only [Except.ok.injEq, Prod.mk.injEq] at hinit
      obtain ⟨-, rfl, -⟩ := hinit
      exact ⟨{ impl := impl, fields := { f with cb := w.fresh } },
        by simp [World.bindAdapter, upd], hk, hfresh, by simp [World.bindAdapter, upd],
        by simp, fun _ => by simp [World.bindAdapter, World.fieldsAt, ho]⟩
    · simp only [Except.ok.injEq, Prod.mk.injEq] at hinit
      obtain ⟨-, rfl, -⟩ := hinit
      exact ⟨{ impl := impl, fields := { f with cb := w.fresh } },
        by simp [World.bindAdapter, upd], hk, hfresh, by simp [World.bindAdapter, upd],
        by simp, by simp⟩

/-- C4, evaluated at the failing input. A Video-Transition handle fresh from `create` is
initialised with a callback table at address 10 and a video callback table at address 20:
`init` returns `S_OK` and binds the primary adapter to table 10 and the handle, but the member
`vcb` is still null and no video adapter exists, whereas the same call on a Video-FX handle
binds a video adapter to table 20 and the handle. -/
theorem video_transition_init_binds_no_video_adapter :
    init .videoTransition (created .videoTransition) 1 10 20
      = .ok (S_OK, initialised .videoTransition, []) ∧
    ((initialised .videoTransition).fieldsAt 1).cb
      = 2 ∧
    (initialised .videoTransition).adapters 2
      = some { c_callbacks := 10, plugin := 1 } ∧
    ((initialised .videoTransition).fieldsAt 1).vcb
      = nullptr ∧
    (∀ p, (initialised .videoTransition).vadapters p
      = none) ∧
    ((initialised .videoFx).fieldsAt 1).vcb = 3 ∧
    (initialised .videoFx).vadapters 3
      = some { c_callbacks := 20, plugin := 1 } :=
  ⟨rfl, rfl, rfl, rfl, fun _ => rfl, rfl, rfl⟩


/-- The five methods of a primary adapter that holds a non-null table pointer, run in a world
where that pointer leads to the table `T`: each calls the entry of `T` of the same name, once,
with the adapter's handle first and its own arguments after it, and returns what the entry
returns. -/
theorem CallbacksAdapter.methods_forward (a : CallbacksAdapter) (w2 : World) (T : VdjCallbacks)
    (hc : a.c_callbacks ≠ nullptr) (hT : w2.tables a.c_callbacks = some T) :
    (∀ fn command, T.send_command = some fn →
      a.SendCommand w2 command
        = .ok ((fn a.plugin command w2.mem).1,
               { w2 with mem := (fn a.plugin command w2.mem).2 },
               [Event.entry a.c_callbacks (.send_command a.plugin command)])) ∧
    (∀ fn command result, T.get_info = some fn →
      a.GetInfo w2 command result
        = .ok ((fn a.plugin command result w2.mem).1,
               { w2 with mem := (fn a.plugin command result w2.mem).2 },
               [Event.entry a.c_callbacks (.get_info a.plugin command result)])) ∧
    (∀ fn command result size, T.get_string_info = some fn →
      a.GetStringInfo w2 command result size
        = .ok ((fn a.plugin command result size w2.mem).1,
               { w2 with mem := (fn a.plugin command result size w2.mem).2 },
               [Event.entry a.c_callbacks (.get_string_info a.plugin command result size)])) ∧
    (∀ fn parameter type id name shortName defaultvalue, T.declare_parameter = some fn →
      a.DeclareParameter w2 parameter type id name shortName defaultvalue
        = .ok ((fn a.plugin parameter type id name shortName defaultvalue w2.mem).1,
               { w2 with
                 mem := (fn a.plugin parameter type id name shortName defaultvalue w2.mem).2 },
               [Event.entry a.c_callbacks
                 (.declare_parameter a.plugin parameter type id name shortName defaultvalue)])) ∧
    (∀ fn pos nb buffer, T.get_song_buffer = some fn →
      a.GetSongBuffer w2 pos nb buffer
        = .ok ((fn a.plugin pos nb buffer w2.mem).1,
               { w2 with mem := (fn a.plugin pos nb buffer w2.mem).2 },
               [Event.entry a.c_callbacks (.get_song_buffer a.plugin pos nb buffer)])) := by
  refine ⟨?_, ?_, ?_, ?_, ?_⟩
  · intro fn command hfn
    simp [CallbacksAdapter.SendCommand, CallbacksAdapter.table, hc, hT, hfn, World.callEntry]
  · intro fn command result hfn
    simp [CallbacksAdapter.GetInfo, CallbacksAdapter.table, hc, hT, hfn, World.callEntry]
  · intro fn command result size hfn
    simp [CallbacksAdapter.GetStringInfo, CallbacksAdapter.table, hc, hT, hfn, World.callEntry]
  · intro fn parameter type id name shortName defaultvalue hfn
    simp [CallbacksAdapter.DeclareParameter, CallbacksAdapter.table, hc, hT, hfn,
      World.callEntry]
  · intro fn pos nb buffer hfn
    simp [CallbacksAdapter.GetSongBuffer, CallbacksAdapter.table, hc, hT, hfn, World.callEntry]

/-- The three methods of a video adapter that holds a non-null table pointer, run in a world
where that pointer leads to the video table `V`: each calls the entry of `V` of the same name,
once, with the adapter's handle first and its own arguments after it, and returns what the
entry returns. -/
theorem VideoCallbacksAdapter.video_methods_forward (a : VideoCallbacksAdapter) (w2 : World)
    (V : VdjVideoCallbacks) (hc : a.c_callbacks ≠ nullptr)
    (hV : w2.vtables a.c_callbacks = some V) :
    (∀ fn, V.draw_deck = some fn →
      a.DrawDeck w2
        = .ok ((fn a.plugin w2.mem).1, { w2 with mem := (fn a.plugin w2.mem).2 },
               [Event.entry a.c_callbacks (.draw_deck a.plugin)])) ∧
    (∀ fn engine device, V.get_device = some fn →
      a.GetDevice w2 engine device
        = .ok ((fn a.plugin engine device w2.mem).1,
               { w2 with mem := (fn a.plugin engine device w2.mem).2 },
               [Event.entry a.c_callbacks (.get_device a.plugin engine device)])) ∧
    (∀ fn engine texture vertices, V.get_texture = some fn →
      a.GetTexture w2 engine texture vertices
        = .ok ((fn a.plugin engine texture vertices w2.mem).1,
               { w2 with mem := (fn a.plugin engine texture vertices w2.mem).2 },
               [Event.entry a.c_callbacks (.get_texture a.plugin engine texture vertices)])) := by
  refine ⟨?_, ?_, ?_⟩
  · intro fn hfn
    simp [VideoCallbacksAdapter.DrawDeck, VideoCallbacksAdapter.table, hc, hV, hfn,
      World.callEntry]
  · intro fn engine device hfn
    simp [VideoCallbacksAdapter.GetDevice, VideoCallbacksAdapter.table, hc, hV, hfn,
      World.callEntry]
  · intro fn engine texture vertices hfn
    simp [VideoCallbacksAdapter.GetTexture, VideoCallbacksAdapter.table, hc, hV, hfn,
      World.callEntry]


/-- C5. For every kind, after `init` with table pointer `callbacks`, video table pointer
`video_callbacks` and handle `plugin` has succeeded (default wrapper for the generic kind),
the wrapper's member `cb` points at a live adapter `a`, and in every world where `callbacks`
leads to a table `T`, each of `SendCommand`, `GetInfo`, `GetStringInfo`, `DeclareParameter`
and `GetSongBuffer` of `a` calls the entry of `T` of the same name (when that entry is not a
null function pointer) exactly once, with `plugin` as first argument followed by the method's
own arguments in order, and returns the entry's result; for Video-FX the member `vcb` points
at a live video adapter whose `DrawDeck`, `GetDevice` and `GetTexture` do the same with the
entries of the table behind `video_callbacks`. -/
theorem adapters_built_by_init_forward (k : Kind) (w w' : World)
    (plugin callbacks video_callbacks : Ptr) (t : List Event)
    (hl : w.live k plugin) (hd : k = Kind.plugin → w.liveDefault k plugin)
    (hinit : init k w plugin callbacks video_callbacks = .ok (S_OK, w', t)) :
    ∃ o a, w'.objs plugin = some o ∧ w'.adapters o.fields.cb = some a ∧
      (∀ (w2 : World) (T : VdjCallbacks), w2.tables callbacks = some T →
        (∀ fn command, T.send_command = some fn →
          a.SendCommand w2 command
            = .ok ((fn plugin command w2.mem).1,
                   { w2 with mem := (fn plugin command w2.mem).2 },
                   [Event.entry callbacks (.send_command plugin command)])) ∧
        (∀ fn command result, T.get_info = some fn →
          a.GetInfo w2 command result
            = .ok ((fn plugin command result w2.mem).1,
                   { w2 with mem := (fn plugin command result w2.mem).2 },
                   [Event.entry callbacks (.get_info plugin command result)])) ∧
        (∀ fn command result size, T.get_string_info = some fn →
          a.GetStringInfo w2 command result size
            = .ok ((fn plugin command result size w2.mem).1,
                   { w2 with mem := (fn plugin command result size w2.mem).2 },
                   [Event.entry callbacks (.get_string_info plugin command result size)])) ∧
        (∀ fn parameter type id name shortName defaultvalue, T.declare_parameter = some fn →
          a.DeclareParameter w2 parameter type id name shortName defaultvalue
            = .ok ((fn plugin parameter type id name shortName defaultvalue w2.mem).1,
                   { w2 with
                     mem := (fn plugin parameter type id name shortName defaultvalue w2.mem).2 },
                   [Event.entry callbacks
                     (.declare_parameter plugin parameter type id name shortName
                       defaultvalue)])) ∧
        (∀ fn pos nb buffer, T.get_song_buffer = some fn →
          a.GetSongBuffer w2 pos nb buffer
            = .ok ((fn plugin pos nb buffer w2.mem).1,
                   { w2 with mem := (fn plugin pos nb buffer w2.mem).2 },
                   [Event.entry callbacks (.get_song_buffer plugin pos nb buffer)]))) ∧
      (k = Kind.videoFx → ∃ va, w'.vadapters o.fields.vcb = some va ∧
        ∀ (w2 : World) (V : VdjVideoCallbacks), w2.vtables video_callbacks = some V →
          (∀ fn, V.draw_deck = some fn →
            va.DrawDeck w2
              = .ok ((fn plugin w2.mem).1, { w2 with mem := (fn plugin w2.mem).2 },
                     [Event.entry video_callbacks (.draw_deck plugin)])) ∧
          (∀ fn engine device, V.get_device = some fn →
            va.GetDevice w2 engine device
              = .ok ((fn plugin engine device w2.mem).1,
                     { w2 with mem := (fn plugin engine device w2.mem).2 },
                     [Event.entry video_callbacks (.get_device plugin engine device)])) ∧
          (∀ fn engine texture vertices, V.get_texture = some fn →
            va.GetTexture w2 engine texture vertices
              = .ok ((fn plugin engine texture vertices w2.mem).1,
                     { w2 with mem := (fn plugin engine texture vertices w2.mem).2 },
                     [Event.entry video_callbacks
                       (.get_texture plugin engine texture vertices)]))) := by
  obtain ⟨-, hc, o, ho, -, -, ha, hvfx, -⟩ :=
    init_binds k w w' plugin callbacks video_callbacks t hl hd hinit
  refine ⟨o, _, ho, ha, ?_, ?_⟩
  · intro w2 T hT
    exact CallbacksAdapter.methods_forward { c_callbacks := callbacks, plugin := plugin } w2 T hc hT
  · intro hk
    obtain ⟨hvc, -, hva⟩ := hvfx hk
    refine ⟨_, hva, ?_⟩
    intro w2 V hV
    exact VideoCallbacksAdapter.video_methods_forward
      { c_callbacks := video_callbacks, plugin := plugin } w2 V hvc hV


/-- Witness for C5: a Video-FX handle fresh from `create`, initialised with the host's tables
at addresses 10 and 20; the bound adapters then forward `SendCommand` and `DrawDeck`. -/
theorem adapters_built_by_init_forward_witness :
    (created .videoFx).live .videoFx 1 ∧
    (Kind.videoFx = Kind.plugin → (created .videoFx).liveDefault .videoFx 1) ∧
    init .videoFx (created .videoFx) 1 10 20 = .ok (S_OK, initialised .videoFx, []) ∧
    ∃ o a va, (initialised .videoFx).objs 1 = some o ∧
      (initialised .videoFx).adapters o.fields.cb = some a ∧
      (initialised .videoFx).vadapters o.fields.vcb = some va ∧
      a.SendCommand (initialised .videoFx) 77
        = .ok (S_OK, initialised .videoFx, [Event.entry 10 (.send_command 1 77)]) ∧
      va.DrawDeck (initialised .videoFx)
        = .ok (S_OK, initialised .videoFx, [Event.entry 20 (.draw_deck 1)]) := by
  refine ⟨⟨_, rfl, rfl⟩, (fun h => by cases h), rfl, ?_⟩
  obtain ⟨o, a, ho, ha, hfwd, hvid⟩ :=
    adapters_built_by_init_forward .videoFx (created .videoFx) (initialised .videoFx) 1 10 20 []
      ⟨_, rfl, rfl⟩ (fun h => by cases h) rfl
  obtain ⟨va, hva, hvfwd⟩ := hvid rfl
  exact ⟨o, a, va, ho, ha, hva,
    (hfwd (initialised .videoFx) hostTable rfl).1 _ 77 rfl,
    (hvfwd (initialised .videoFx) hostVideoTable rfl).1 _ rfl⟩


/-- A buffer-DSP `init` that returned `S_OK` ran on a live buffer-DSP wrapper. -/
theorem buffer_dsp_init_live (w w' : World) (plugin callbacks : Ptr) (t : List Event)
    (hinit : vdj_plugin_buffer_dsp_init w plugin callbacks = .ok (S_OK, w', t)) :
    w.live .bufferDsp plugin := by
  have hne : E_FAIL ≠ S_OK := by decide
  unfold vdj_plugin_buffer_dsp_init at hinit
  split at hinit
  · simp only [Run.ret, Except.ok.injEq, Prod.mk.injEq] at hinit
    exact absurd hinit.1 hne
  · cases ho : w.objs plugin with
    | none => simp [World.asBufferDsp, ho] at hinit
    | some o =>
      obtain ⟨impl, f⟩ := o
      cases impl <;> simp [World.asBufferDsp, ho] at hinit
      exact ⟨_, ho, rfl⟩

/-- C6. After `init(plugin, callbacks)` has succeeded on a buffer-DSP handle, in the world it
leaves, with `callbacks` leading to a table `T` whose `get_song_buffer` entry is the function
`fn`: for every `pos`, `nb` and `buffer` the flat `get_song_buffer` calls exactly that entry,
exactly once, with the arguments `(plugin, pos, nb, buffer)`, calls nothing else, and returns
the result code of the entry. -/
theorem get_song_buffer_routes_to_table (w w' : World) (plugin callbacks : Ptr)
    (t : List Event)
    (hinit : vdj_plugin_buffer_dsp_init w plugin callbacks = .ok (S_OK, w', t))
    (T : VdjCallbacks) (fn : Ptr → Int → Int → Ptr → Host HRESULT)
    (hT : w'.tables callbacks = some T) (hfn : T.get_song_buffer = some fn)
    (pos nb : Int) (buffer : Ptr) :
    vdj_plugin_buffer_dsp_get_song_buffer w' plugin pos nb buffer
      = .ok ((fn plugin pos nb buffer w'.mem).1,
             { w' with mem := (fn plugin pos nb buffer w'.mem).2 },
             [Event.entry callbacks (.get_song_buffer plugin pos nb buffer)]) := by
  have hl := buffer_dsp_init_live w w' plugin callbacks t hinit
  obtain ⟨hp, hc, o, ho, hk, hcb, ha, -, -⟩ :=
    init_binds .bufferDsp w w' plugin callbacks 0 t hl (fun h => by cases h) hinit
  obtain ⟨impl, f⟩ := o
  cases impl <;> simp only [Impl.kind] at hk <;> try cases hk
  simp only [vdj_plugin_buffer_dsp_get_song_buffer, hp, if_false, World.asBufferDsp, ho,
    IVdjPluginBufferDsp8.GetSongBuffer, hcb, ha]
  exact (CallbacksAdapter.methods_forward { c_callbacks := callbacks, plugin := plugin } w' T hc hT).2.2.2.2
    fn pos nb buffer hfn

/-- Witness for C6: a buffer-DSP handle fresh from `create`, initialised with the host's table
at address 10; `get_song_buffer(1, 0, 4, 500)` calls the table's entry once, returns its
`S_OK`, and the entry has stored the buffer address 4096 at address 500. -/
theorem get_song_buffer_routes_to_table_witness :
    vdj_plugin_buffer_dsp_init (created .bufferDsp) 1 10
      = .ok (S_OK, initialised .bufferDsp, []) ∧
    (initialised .bufferDsp).tables 10 = some hostTable ∧
    (vdj_plugin_buffer_dsp_get_song_buffer (initialised .bufferDsp) 1 0 4 500).value
      = some S_OK ∧
    (vdj_plugin_buffer_dsp_get_song_buffer (initialised .bufferDsp) 1 0 4 500).trace
      = [Event.entry 10 (.get_song_buffer 1 0 4 500)] ∧
    ((vdj_plugin_buffer_dsp_get_song_buffer (initialised .bufferDsp) 1 0 4 500).worldOr
      World.empty).mem 500 = 4096 := by
  have h := get_song_buffer_routes_to_table (created .bufferDsp) (initialised .bufferDsp) 1 10 []
    rfl hostTable _ rfl rfl 0 4 500
  refine ⟨rfl, rfl, ?_, ?_, ?_⟩
  · rw [h]; rfl
  · rw [h]; rfl
  · rw [h]; rfl


/-- C7 fails. On the host whose table at address 10 has a `get_song_buffer` entry that yields
the four-sample buffer at address 4096 for position 0 and count 4, a buffer-DSP handle is
created and `init` succeeds with that table; `on_get_song_buffer(handle, 0, 4)` then returns
the null pointer, not the buffer 4096, and calls no entry of the table. -/
theorem on_get_song_buffer_ignores_table :
    vdj_plugin_buffer_dsp_init (created .bufferDsp) 1 10
      = .ok (S_OK, initialised .bufferDsp, []) ∧
    (∃ fn, (initialised .bufferDsp).tables 10 = some hostTable ∧
      hostTable.get_song_buffer = some fn ∧
      ∀ out m, fn 1 0 4 out m = (S_OK, upd m out 4096)) ∧
    ((initialised .bufferDsp).mem 4096, (initialised .bufferDsp).mem 4097,
      (initialised .bufferDsp).mem 4098, (initialised .bufferDsp).mem 4099) = (11, 22, 33, 44) ∧
    vdj_plugin_buffer_dsp_on_get_song_buffer (initialised .bufferDsp) 1 0 4
      = .ok (nullptr, initialised .bufferDsp, [Event.virt 1 (.OnGetSongBuffer 0 4)]) ∧
    (vdj_plugin_buffer_dsp_on_get_song_buffer (initialised .bufferDsp) 1 0 4).value
      ≠ some 4096 := by
  have h : vdj_plugin_buffer_dsp_on_get_song_buffer (initialised .bufferDsp) 1 0 4
      = .ok (nullptr, initialised .bufferDsp, [Event.virt 1 (.OnGetSongBuffer 0 4)]) :=
    World.call_ret (initialised .bufferDsp) 1 _ _ nullptr rfl
  refine ⟨rfl, ⟨_, rfl, rfl, fun _ _ => rfl⟩, rfl, h, ?_⟩
  rw [h]
  decide

/-- C7 as amended. For a buffer-DSP handle with the default wrapper, whether or not `init`
has succeeded on it and whatever the table's `get_song_buffer` entry yields,
`on_get_song_buffer(handle, position, count)` returns the null pointer for every position
and count; it calls the wrapper's `OnGetSongBuffer` once, calls no table entry and leaves the
world as it was. -/
theorem on_get_song_buffer_default_returns_null (w : World) (plugin : Ptr) (song_pos nb : Int)
    (hp : plugin ≠ nullptr) (hl : w.liveDefault .bufferDsp plugin) :
    vdj_plugin_buffer_dsp_on_get_song_buffer w plugin song_pos nb
      = .ok (nullptr, w, [Event.virt plugin (.OnGetSongBuffer song_pos nb)]) := by
  obtain ⟨f, hf⟩ := hl
  simp only [vdj_plugin_buffer_dsp_on_get_song_buffer, hp, if_false, World.asBufferDsp, hf,
    defaultImpl]
  exact World.call_ret w plugin _ _ nullptr hf

/-- Witness for the amended C7: the initialised buffer-DSP handle of the host world. -/
theorem on_get_song_buffer_default_returns_null_witness :
    (1 : Ptr) ≠ nullptr ∧ (initialised .bufferDsp).liveDefault .bufferDsp 1 ∧
    vdj_plugin_buffer_dsp_on_get_song_buffer (initialised .bufferDsp) 1 0 4
      = .ok (nullptr, initialised .bufferDsp, [Event.virt 1 (.OnGetSongBuffer 0 4)]) :=
  ⟨by decide, ⟨_, rfl⟩,
   on_get_song_buffer_default_returns_null (initialised .bufferDsp) 1 0 4 (by decide) ⟨_, rfl⟩⟩


/-- C8 fails. A buffer-DSP handle fresh from `create`, on which `init` was never called, has
no adapter bound (`cb` is null); `get_song_buffer` on it passes the null check of the handle
and then dereferences the null `cb`: it does not return `E_FAIL`, it faults. -/
theorem get_song_buffer_before_init_dereferences_null :
    (created .bufferDsp) = (vdj_plugin_buffer_dsp_create hostWorld).2 ∧
    (vdj_plugin_buffer_dsp_create hostWorld).1 = 1 ∧
    ((created .bufferDsp).fieldsAt 1).cb = nullptr ∧
    vdj_plugin_buffer_dsp_get_song_buffer (created .bufferDsp) 1 0 4 500
      = .error .nullDeref :=
  ⟨rfl, rfl, rfl, rfl⟩

/-- The flat `get_song_buffer` of the buffer-DSP kind, on a non-null handle to a live
wrapper whose adapter is bound to a non-null table pointer leading to a table with a non-null
`get_song_buffer` entry, returns. -/
theorem get_song_buffer_returns (w : World) (plugin : Ptr) (pos nb : Int) (buffer : Ptr)
    (o : Object) (a : CallbacksAdapter) (T : VdjCallbacks)
    (ho : w.objs plugin = some o) (hk : o.impl.kind = .bufferDsp)
    (hcb : o.fields.cb ≠ nullptr) (ha : w.adapters o.fields.cb = some a)
    (hc : a.c_callbacks ≠ nullptr) (hT : w.tables a.c_callbacks = some T)
    (hfn : T.get_song_buffer ≠ none) :
    ∃ r w' t, vdj_plugin_buffer_dsp_get_song_buffer w plugin pos nb buffer = .ok (r, w', t) := by
  obtain ⟨impl, f⟩ := o
  cases impl <;> simp only [Impl.kind] at hk <;> try cases hk
  cases hfn' : T.get_song_buffer with
  | none => exact absurd hfn' hfn
  | some fn =>
    by_cases hp : plugin = nullptr
    · exact ⟨E_FAIL, w, [], by simp [vdj_plugin_buffer_dsp_get_song_buffer, hp, Run.ret]⟩
    · have e := (CallbacksAdapter.methods_forward a w T hc hT).2.2.2.2 fn pos nb buffer hfn'
      have e' : vdj_plugin_buffer_dsp_get_song_buffer w plugin pos nb buffer
          = a.GetSongBuffer w pos nb buffer := by
        simp only [vdj_plugin_buffer_dsp_get_song_buffer, hp, if_false, World.asBufferDsp, ho,
          IVdjPluginBufferDsp8.GetSongBuffer, hcb, ha]
      exact ⟨_, _, _, e'.trans e⟩

/-- C8 as amended. In every world, for every handle and every argument value: no flat function
other than the buffer-DSP `get_song_buffer` dereferences a null pointer (the thirty-five other
functions that return a result code, the twenty-one getters and `on_get_song_buffer`), and a
null handle makes every one of them return its failure value (`E_FAIL`, zero, or the null
pointer) without touching the world. The buffer-DSP `get_song_buffer` dereferences the
wrapper's adapter pointer unchecked: it is free of a null dereference when the adapter is
bound (`cb` is not null), the adapter holds a non-null table pointer and the table's
`get_song_buffer` entry is not null, and it does dereference null when `cb` is null. -/
theorem no_null_dereference_but_in_get_song_buffer (w : World) (plugin : Ptr) :
    (∀ op : Op, (∀ pos nb buffer, op ≠ .buffer_dsp_get_song_buffer pos nb buffer) →
      op.run w plugin ≠ .error .nullDeref) ∧
    (∀ g : Getter, g.run w plugin ≠ .error .nullDeref) ∧
    (∀ song_pos nb,
      vdj_plugin_buffer_dsp_on_get_song_buffer w plugin song_pos nb ≠ .error .nullDeref) ∧
    (∀ op : Op, op.run w nullptr = .ok (E_FAIL, w, [])) ∧
    (∀ g : Getter, g.run w nullptr = .ok (g.zero, w, [])) ∧
    (∀ song_pos nb,
      vdj_plugin_buffer_dsp_on_get_song_buffer w nullptr song_pos nb = .ok (nullptr, w, [])) ∧
    (∀ pos nb buffer o a T, w.objs plugin = some o → o.impl.kind = .bufferDsp →
      o.fields.cb ≠ nullptr → w.adapters o.fields.cb = some a →
      a.c_callbacks ≠ nullptr → w.tables a.c_callbacks = some T →
      T.get_song_buffer ≠ none →
      vdj_plugin_buffer_dsp_get_song_buffer w plugin pos nb buffer ≠ .error .nullDeref) ∧
    (∀ pos nb buffer o, plugin ≠ nullptr → w.objs plugin = some o →
      o.impl.kind = .bufferDsp → o.fields.cb = nullptr →
      vdj_plugin_buffer_dsp_get_song_buffer w plugin pos nb buffer = .error .nullDeref) := by
  refine ⟨?_, ?_, ?_, ?_, ?_, ?_, ?_, ?_⟩
  · intro op hop
    cases op <;>
    first
    | exact absurd rfl (hop _ _ _)
    | (simp only [Op.run, vdj_plugin_init, vdj_plugin_on_load, vdj_plugin_get_info,
        vdj_plugin_on_parameter, vdj_plugin_on_get_parameter_string, vdj_plugin_dsp_init,
        vdj_plugin_dsp_on_start, vdj_plugin_dsp_on_stop, vdj_plugin_dsp_on_process_samples,
        vdj_plugin_dsp_get_info, vdj_plugin_buffer_dsp_init, vdj_plugin_buffer_dsp_on_start,
        vdj_plugin_buffer_dsp_on_stop, vdj_plugin_position_dsp_init,
        vdj_plugin_position_dsp_on_start, vdj_plugin_position_dsp_on_stop,
        vdj_plugin_position_dsp_on_transform_position,
        vdj_plugin_position_dsp_on_process_samples, vdj_plugin_video_fx_init,
        vdj_plugin_video_fx_on_start, vdj_plugin_video_fx_on_stop, vdj_plugin_video_fx_on_draw,
        vdj_plugin_video_fx_on_device_init, vdj_plugin_video_fx_on_device_close,
        vdj_plugin_video_fx_on_audio_samples, vdj_plugin_video_transition_init,
        vdj_plugin_video_transition_on_draw, vdj_plugin_video_transition_on_device_init,
        vdj_plugin_video_transition_on_device_close, vdj_plugin_online_source_init,
        vdj_plugin_online_source_is_logged, vdj_plugin_online_source_on_login,
        vdj_plugin_online_source_on_logout, vdj_plugin_online_source_on_search,
        vdj_plugin_online_source_on_search_cancel, Run.ret, World.call]
       repeat' split
       all_goals first
         | (simp_all; done)
         | (intro h; cases h
            simp_all [World.asPlugin_ne_nullDeref, World.asDsp_ne_nullDeref,
              World.asBufferDsp_ne_nullDeref, World.asPositionDsp_ne_nullDeref,
              World.asVideoFx_ne_nullDeref, World.asVideoTransition_ne_nullDeref,
              World.asOnlineSource_ne_nullDeref]))
  · intro g
    cases g <;>
      (simp only [Getter.run]
       apply Run.mapValue_ne_error
       simp only [vdj_plugin_dsp_get_sample_rate,
        vdj_plugin_dsp_get_song_bpm, vdj_plugin_dsp_get_song_pos_beats,
        vdj_plugin_buffer_dsp_get_sample_rate, vdj_plugin_buffer_dsp_get_song_bpm,
        vdj_plugin_buffer_dsp_get_song_pos, vdj_plugin_buffer_dsp_get_song_pos_beats,
        vdj_plugin_position_dsp_get_sample_rate, vdj_plugin_position_dsp_get_song_bpm,
        vdj_plugin_position_dsp_get_song_pos, vdj_plugin_position_dsp_get_song_pos_beats,
        vdj_plugin_video_fx_get_width, vdj_plugin_video_fx_get_height,
        vdj_plugin_video_fx_get_sample_rate, vdj_plugin_video_fx_get_song_bpm,
        vdj_plugin_video_fx_get_song_pos_beats, vdj_plugin_video_transition_get_width,
        vdj_plugin_video_transition_get_height, vdj_plugin_video_transition_get_sample_rate,
        vdj_plugin_video_transition_get_song_bpm,
        vdj_plugin_video_transition_get_song_pos_beats, Run.ret]
       repeat' split
       all_goals first
         | (simp_all; done)
         | (intro h; cases h
            simp_all [World.asDsp_ne_nullDeref,
              World.asBufferDsp_ne_nullDeref, World.asPositionDsp_ne_nullDeref,
              World.asVideoFx_ne_nullDeref, World.asVideoTransition_ne_nullDeref]))
  · intro song_pos nb
    simp only [vdj_plugin_buffer_dsp_on_get_song_buffer, Run.ret, World.call]
    repeat' split
    all_goals first
      | (simp_all; done)
      | (intro h; cases h; simp_all [World.asBufferDsp_ne_nullDeref])
  · intro op
    cases op <;> rfl
  · intro g
    cases g <;> rfl
  · intro song_pos nb
    rfl
  · intro pos nb buffer o a T ho hk hcb ha hc hT hfn
    obtain ⟨r, w', t, e⟩ := get_song_buffer_returns w plugin pos nb buffer o a T ho hk hcb ha hc
      hT hfn
    rw [e]
    intro h
    cases h
  · intro pos nb buffer o hp ho hk hcb
    obtain ⟨impl, f⟩ := o
    cases impl <;> simp only [Impl.kind] at hk <;> try cases hk
    have hcb' : f.cb = nullptr := hcb
    simp [vdj_plugin_buffer_dsp_get_song_buffer, hp, World.asBufferDsp, ho,
      IVdjPluginBufferDsp8.GetSongBuffer, hcb']


/-- Witness for the amended C8: on the initialised buffer-DSP handle of the host world the
adapter is bound and `get_song_buffer` does not dereference null. -/
theorem no_null_dereference_but_in_get_song_buffer_witness :
    (initialised .bufferDsp).adapters ((initialised .bufferDsp).fieldsAt 1).cb
      = some { c_callbacks := 10, plugin := 1 } ∧
    vdj_plugin_buffer_dsp_get_song_buffer (initialised .bufferDsp) 1 0 4 500
      ≠ .error .nullDeref ∧
    vdj_plugin_buffer_dsp_on_start (initialised .bufferDsp) 1 ≠ .error .nullDeref :=
  ⟨rfl,
   (no_null_dereference_but_in_get_song_buffer (initialised .bufferDsp) 1).2.2.2.2.2.2.1
     0 4 500 _ _ hostTable rfl rfl (by decide) rfl (by decide) rfl (by simp [hostTable]),
   (no_null_dereference_but_in_get_song_buffer (initialised .bufferDsp) 1).1
     .buffer_dsp_on_start (fun _ _ _ h => by cases h)⟩


/-- C9 fails at `get_info`. With an implementation whose `OnGetPluginInfo` leaves the record
alone and returns `E_NOTIMPL`, and a caller's record at address 30 holding old values: the
flat `get_info` calls `OnGetPluginInfo` on a zeroed local record, not on the caller's record,
and the caller's record ends up with six null fields, whereas forwarding the call unchanged
would hand the wrapper the caller's record and leave it as the wrapper left it. The result
code `E_NOTIMPL` is returned unchanged in both. The argument differs with the default wrapper
too (last clause). -/
theorem get_info_does_not_forward_the_record :
    (Op.plugin_get_info 30).spec bareWorld 1
      = some (spec_forward_get_info bareWorld 1 .plugin 30) ∧
    (Op.plugin_get_info 30).run bareWorld 1 ≠ spec_forward_get_info bareWorld 1 .plugin 30 ∧
    ((Op.plugin_get_info 30).run bareWorld 1).value = some E_NOTIMPL ∧
    (spec_forward_get_info bareWorld 1 .plugin 30).value = some E_NOTIMPL ∧
    ((Op.plugin_get_info 30).run bareWorld 1).trace
      = [Event.virt 1 (.OnGetPluginInfo (some TVdjPluginInfo8.zero))] ∧
    (spec_forward_get_info bareWorld 1 .plugin 30).trace
      = [Event.virt 1 (.OnGetPluginInfo (some
          { PluginName := some "old name", Author := some "old author",
            Description := some "old description", Version := some "0.9",
            Bitmap := 77, Flags := 3 }))] ∧
    (((Op.plugin_get_info 30).run bareWorld 1).worldOr bareWorld).infos 30
      = some { plugin_name := none, author := none, description := none, version := none,
               bitmap := 0, flags := 0 } ∧
    ((spec_forward_get_info bareWorld 1 .plugin 30).worldOr bareWorld).infos 30
      = some { plugin_name := some "old name", author := some "old author",
               description := some "old description", version := some "0.9",
               bitmap := 77, flags := 3 } ∧
    ((Op.plugin_get_info 30).run (created .plugin) 1).trace
      ≠ (spec_forward_get_info (created .plugin) 1 .plugin 30).trace := by
  have t1 : ((Op.plugin_get_info 30).run bareWorld 1).trace
      = [Event.virt 1 (.OnGetPluginInfo (some TVdjPluginInfo8.zero))] := rfl
  have t2 : (spec_forward_get_info bareWorld 1 .plugin 30).trace
      = [Event.virt 1 (.OnGetPluginInfo (some
          { PluginName := some "old name", Author := some "old author",
            Description := some "old description", Version := some "0.9",
            Bitmap := 77, Flags := 3 }))] := rfl
  have t3 : ((Op.plugin_get_info 30).run (created .plugin) 1).trace
      = [Event.virt 1 (.OnGetPluginInfo (some TVdjPluginInfo8.zero))] := rfl
  have t4 : (spec_forward_get_info (created .plugin) 1 .plugin 30).trace
      = [Event.virt 1 (.OnGetPluginInfo (some
          { PluginName := some "old name", Author := some "old author",
            Description := some "old description", Version := some "0.9",
            Bitmap := 77, Flags := 3 }))] := rfl
  refine ⟨rfl, ?_, rfl, rfl, t1, t2, rfl, rfl, ?_⟩
  · intro h
    have h' := congrArg Run.trace h
    rw [t1, t2] at h'
    revert h'
    decide
  · rw [t3, t4]
    decide


/-- C9 as amended. In every world, whatever class of wrapper is behind the handle: every flat
function that forwards to a virtual operation of the wrapper, `get_info` apart, does what the
spec's forwarding does: after the null check it calls the operation of the same name exactly
once with the same arguments in the same order and returns the wrapper's result unchanged;
so does `on_get_song_buffer`. The two flat `get_info`, once their null checks pass on a live
wrapper and a live record, call `OnGetPluginInfo` exactly once, on a zeroed local record
instead of the caller's record, store the six fields of that local record in the caller's
record, and return the wrapper's result unchanged. -/
theorem flat_functions_forward (w : World) (plugin : Ptr) :
    (∀ (op : Op) (r : Run HRESULT), op.spec w plugin = some r → op.isGetInfo = false →
      op.run w plugin = r) ∧
    (∀ song_pos nb,
      vdj_plugin_buffer_dsp_on_get_song_buffer w plugin song_pos nb
        = spec_forward_on_get_song_buffer w plugin song_pos nb) ∧
    (∀ (op : Op) (info : Ptr) (o : Object) (r : VdjPluginInfo),
      (op = Op.plugin_get_info info ∨
          (op = Op.dsp_get_info info ∧ o.impl.kind = .dsp)) →
      plugin ≠ nullptr → info ≠ nullptr → w.objs plugin = some o → w.infos info = some r →
      op.run w plugin
        = .ok ((o.impl.base.OnGetPluginInfo (some TVdjPluginInfo8.zero) o.fields w.mem).1.1,
               { w with
                 objs := upd w.objs plugin (some { o with
                   fields :=
                     (o.impl.base.OnGetPluginInfo (some TVdjPluginInfo8.zero) o.fields w.mem).2.1 }),
                 mem :=
                   (o.impl.base.OnGetPluginInfo (some TVdjPluginInfo8.zero) o.fields w.mem).2.2,
                 infos := upd w.infos info (some (VdjPluginInfo.ofCpp
                   ((o.impl.base.OnGetPluginInfo (some TVdjPluginInfo8.zero) o.fields
                     w.mem).1.2.getD TVdjPluginInfo8.zero))) },
               [Event.virt plugin (.OnGetPluginInfo (some TVdjPluginInfo8.zero))])) := by
  refine ⟨?_, ?_, ?_⟩
  · intro op r hs hg
    cases op <;> simp only [Op.spec, Op.isGetInfo, Option.some.injEq] at hs hg <;>
      first
      | (cases hg; done)
      | (cases hs; done)
      | (cases hs
         simp only [Op.run, vdj_plugin_on_load, vdj_plugin_on_parameter,
           vdj_plugin_on_get_parameter_string, vdj_plugin_dsp_on_start, vdj_plugin_dsp_on_stop,
           vdj_plugin_dsp_on_process_samples, vdj_plugin_buffer_dsp_on_start,
           vdj_plugin_buffer_dsp_on_stop, vdj_plugin_position_dsp_on_start,
           vdj_plugin_position_dsp_on_stop, vdj_plugin_position_dsp_on_transform_position,
           vdj_plugin_position_dsp_on_process_samples, vdj_plugin_video_fx_on_start,
           vdj_plugin_video_fx_on_stop, vdj_plugin_video_fx_on_draw,
           vdj_plugin_video_fx_on_device_init, vdj_plugin_video_fx_on_device_close,
           vdj_plugin_video_fx_on_audio_samples, vdj_plugin_video_transition_on_draw,
           vdj_plugin_video_transition_on_device_init,
           vdj_plugin_video_transition_on_device_close, vdj_plugin_online_source_is_logged,
           vdj_plugin_online_source_on_login, vdj_plugin_online_source_on_logout,
           vdj_plugin_online_source_on_search, vdj_plugin_online_source_on_search_cancel,
           spec_forward, Run.ret, World.castTo, World.asPlugin, World.asDsp, World.asBufferDsp,
           World.asPositionDsp, World.asVideoFx, World.asVideoTransition,
           World.asOnlineSource]
         by_cases hp : plugin = nullptr
         · simp only [hp, if_true]
         · simp only [hp, if_false]
           cases ho : w.objs plugin with
           | none => rfl
           | some o =>
             obtain ⟨impl, f⟩ := o
             cases impl <;> simp [Impl.dispatch, Impl.kind, Impl.base])
  · intro song_pos nb
    simp only [vdj_plugin_buffer_dsp_on_get_song_buffer, spec_forward_on_get_song_buffer,
      Run.ret, World.castTo, World.asBufferDsp]
    by_cases hp : plugin = nullptr
    · simp only [hp, if_true]
    · simp only [hp, if_false]
      cases ho : w.objs plugin with
      | none => rfl
      | some o =>
        obtain ⟨impl, f⟩ := o
        cases impl <;> simp [Impl.kind]
  · intro op info o r hop hp hi ho hr
    obtain ⟨impl, f⟩ := o
    rcases hop with hop | ⟨hop, hk⟩
    · subst hop
      simp [Op.run, vdj_plugin_get_info, hp, hi, World.asPlugin, ho, World.call, hr,
        VdjPluginInfo.ofCpp]
    · subst hop
      cases impl <;> simp only [Impl.kind] at hk <;> try cases hk
      simp [Op.run, vdj_plugin_dsp_get_info, hp, hi, World.asDsp, ho, World.call, hr,
        VdjPluginInfo.ofCpp, Impl.base]


/-- Witness for the amended C9, on the world with the class `bareImpl` at handle 1:
`on_parameter` is forwarded as the spec words it, and `get_info` returns the wrapper's
`E_NOTIMPL` unchanged. -/
theorem flat_functions_forward_witness :
    (Op.plugin_on_parameter 5).run bareWorld 1
      = spec_forward bareWorld 1 .plugin (.OnParameter 5) ∧
    ((Op.plugin_on_parameter 5).run bareWorld 1).trace = [Event.virt 1 (.OnParameter 5)] ∧
    ((Op.plugin_get_info 30).run bareWorld 1).value = some E_NOTIMPL := by
  refine ⟨(flat_functions_forward bareWorld 1).1 _ _ rfl rfl, rfl, ?_⟩
  rw [(flat_functions_forward bareWorld 1).2.2 (.plugin_get_info 30) 30 _ _ (Or.inl rfl)
    (by decide) (by decide) rfl rfl]
  rfl


/-- C10. For each of the twenty-one numeric getters (sample rate, song bpm, song position,
beat position, width, height, of every kind that has one): with a null handle it returns the
zero of its type (`0` for the `int` getters, the all-zero pattern `0.0` for beat position);
with a non-null handle to a live wrapper of its kind it returns the current value of the
member it is named after; in both cases the world is left as it was and nothing is called. -/
theorem getter_reads_member (g : Getter) (w : World) (plugin : Ptr) :
    g.run w nullptr = .ok (g.zero, w, []) ∧
    (g.zero = Num.int 0 ∨ g.zero = Num.double 0) ∧
    (∀ o, plugin ≠ nullptr → w.objs plugin = some o → o.impl.kind = g.kind →
      g.run w plugin = .ok (g.property o.fields, w, [])) := by
  refine ⟨by cases g <;> rfl, by cases g <;> simp [Getter.zero], ?_⟩
  intro o hp ho hk
  obtain ⟨impl, f⟩ := o
  cases g <;> simp only [Getter.kind] at hk <;> cases impl <;> simp only [Impl.kind] at hk <;>
    first
    | (cases hk; done)
    | simp [Getter.run, Run.mapValue, Getter.property, Run.ret, hp, ho,
        vdj_plugin_dsp_get_sample_rate,
        vdj_plugin_dsp_get_song_bpm, vdj_plugin_dsp_get_song_pos_beats,
        vdj_plugin_buffer_dsp_get_sample_rate, vdj_plugin_buffer_dsp_get_song_bpm,
        vdj_plugin_buffer_dsp_get_song_pos, vdj_plugin_buffer_dsp_get_song_pos_beats,
        vdj_plugin_position_dsp_get_sample_rate, vdj_plugin_position_dsp_get_song_bpm,
        vdj_plugin_position_dsp_get_song_pos, vdj_plugin_position_dsp_get_song_pos_beats,
        vdj_plugin_video_fx_get_width, vdj_plugin_video_fx_get_height,
        vdj_plugin_video_fx_get_sample_rate, vdj_plugin_video_fx_get_song_bpm,
        vdj_plugin_video_fx_get_song_pos_beats, vdj_plugin_video_transition_get_width,
        vdj_plugin_video_transition_get_height, vdj_plugin_video_transition_get_sample_rate,
        vdj_plugin_video_transition_get_song_bpm,
        vdj_plugin_video_transition_get_song_pos_beats, World.asDsp,
        World.asBufferDsp, World.asPositionDsp, World.asVideoFx, World.asVideoTransition]


/-- Witness for C10: the Video-FX wrapper of `playingWorld`; width and beat position are
read, the null handle gives zero. -/
theorem getter_reads_member_witness :
    Getter.video_fx_get_width.run playingWorld 1 = .ok (Num.int 1920, playingWorld, []) ∧
    Getter.video_fx_get_song_pos_beats.run playingWorld 1
      = .ok (Num.double 0x4010000000000000, playingWorld, []) ∧
    Getter.video_fx_get_song_pos_beats.run playingWorld nullptr
      = .ok (Num.double 0, playingWorld, []) :=
  ⟨(getter_reads_member .video_fx_get_width playingWorld 1).2.2 _ (by decide) rfl rfl,
   (getter_reads_member .video_fx_get_song_pos_beats playingWorld 1).2.2 _ (by decide) rfl rfl,
   (getter_reads_member .video_fx_get_song_pos_beats playingWorld 1).1⟩


/-- C11. The operation `OnGetPluginInfo` of the default wrapper of each of the seven kinds,
given a non-null record with any content, returns `S_OK`, changes nothing else and leaves the
record with a non-empty name, the author "Rust Developer", a non-empty description, the
version "1.0", a null bitmap and flags zero. The flat `get_info` of the generic and of the DSP
kind, on a non-null handle to the default wrapper (whatever its members, so in particular
before `init`) and a non-null record with any content, returns `S_OK`, calls
`OnGetPluginInfo` once and leaves exactly those values in the caller's record. -/
theorem get_info_fills_default_identity (w : World) (plugin info : Ptr) :
    (∀ (k : Kind) (i : TVdjPluginInfo8) (f : Fields) (m : HostMem),
      ∃ n d, (defaultImpl k).base.OnGetPluginInfo (some i) f m
          = ((S_OK, some { PluginName := some n, Author := some "Rust Developer",
                           Description := some d, Version := some "1.0",
                           Bitmap := nullptr, Flags := 0 }), f, m) ∧
        n ≠ "" ∧ d ≠ "" ∧ "Rust Developer" ≠ "" ∧ "1.0" ≠ "") ∧
    (∀ r, plugin ≠ nullptr → info ≠ nullptr → w.liveDefault .plugin plugin →
      w.infos info = some r →
      vdj_plugin_get_info w plugin info
        = .ok (S_OK,
               { w with infos := upd w.infos info (some
                   { plugin_name := some "RustPlugin", author := some "Rust Developer",
                     description := some "A plugin written in Rust", version := some "1.0",
                     bitmap := nullptr, flags := 0 }) },
               [Event.virt plugin (.OnGetPluginInfo (some TVdjPluginInfo8.zero))])) ∧
    (∀ r, plugin ≠ nullptr → info ≠ nullptr → w.liveDefault .dsp plugin →
      w.infos info = some r →
      vdj_plugin_dsp_get_info w plugin info
        = .ok (S_OK,
               { w with infos := upd w.infos info (some
                   { plugin_name := some "RustDspPlugin", author := some "Rust Developer",
                     description := some "A DSP plugin written in Rust", version := some "1.0",
                     bitmap := nullptr, flags := 0 }) },
               [Event.virt plugin (.OnGetPluginInfo (some TVdjPluginInfo8.zero))])) := by
  refine ⟨?_, ?_, ?_⟩
  · intro k i f m
    cases k
    · exact ⟨"RustPlugin", "A plugin written in Rust", rfl, by decide, by decide, by decide,
        by decide⟩
    · exact ⟨"RustDspPlugin", "A DSP plugin written in Rust", rfl, by decide, by decide,
        by decide, by decide⟩
    · exact ⟨"RustBufferDspPlugin", "A buffer DSP plugin written in Rust", rfl, by decide,
        by decide, by decide, by decide⟩
    · exact ⟨"RustPositionDspPlugin", "A position DSP plugin written in Rust", rfl, by decide,
        by decide, by decide, by decide⟩
    · exact ⟨"RustVideoFxPlugin", "A video FX plugin written in Rust", rfl, by decide,
        by decide, by decide, by decide⟩
    · exact ⟨"RustVideoTransitionPlugin", "A video transition plugin written in Rust", rfl,
        by decide, by decide, by decide, by decide⟩
    · exact ⟨"RustOnlineSourcePlugin", "An online source plugin written in Rust", rfl,
        by decide, by decide, by decide, by decide⟩
  · intro r hp hi hl hr
    obtain ⟨f, hf⟩ := hl
    have hc := World.call_ret w plugin { impl := defaultImpl .plugin, fields := f }
      (.OnGetPluginInfo (some TVdjPluginInfo8.zero))
      (S_OK, some ({ PluginName := some "RustPlugin", Author := some "Rust Developer",
                     Description := some "A plugin written in Rust", Version := some "1.0",
                     Bitmap := nullptr, Flags := 0 } : TVdjPluginInfo8)) hf
    have hc' : w.call plugin { impl := defaultImpl .plugin, fields := f }
        (.OnGetPluginInfo (some TVdjPluginInfo8.zero))
        (VdjPluginWrapper.vtable.OnGetPluginInfo (some TVdjPluginInfo8.zero)) = _ := hc
    simp only [vdj_plugin_get_info, hp, hi, or_self, if_false, World.asPlugin, hf, defaultImpl,
      Impl.base] at hc' ⊢
    rw [hc']
    simp [hr]
  · intro r hp hi hl hr
    obtain ⟨f, hf⟩ := hl
    have hc := World.call_ret w plugin { impl := defaultImpl .dsp, fields := f }
      (.OnGetPluginInfo (some TVdjPluginInfo8.zero))
      (S_OK, some ({ PluginName := some "RustDspPlugin", Author := some "Rust Developer",
                     Description := some "A DSP plugin written in Rust", Version := some "1.0",
                     Bitmap := nullptr, Flags := 0 } : TVdjPluginInfo8)) hf
    have hc' : w.call plugin { impl := defaultImpl .dsp, fields := f }
        (.OnGetPluginInfo (some TVdjPluginInfo8.zero))
        (VdjPluginDspWrapper.vtable.OnGetPluginInfo (some TVdjPluginInfo8.zero)) = _ := hc
    simp only [vdj_plugin_dsp_get_info, hp, hi, or_self, if_false, World.asDsp, hf, defaultImpl]
      at hc' ⊢
    rw [hc']
    simp [hr]


/-- Witness for C11: a generic and a DSP handle fresh from `create` (no `init`), the caller's
record at address 30 holding old values. -/
theorem get_info_fills_default_identity_witness :
    (created .plugin).liveDefault .plugin 1 ∧ (created .dsp).liveDefault .dsp 1 ∧
    ((created .plugin).fieldsAt 1).cb = nullptr ∧
    (created .plugin).infos 30
      = some { plugin_name := some "old name", author := some "old author",
               description := some "old description", version := some "0.9",
               bitmap := 77, flags := 3 } ∧
    vdj_plugin_get_info (created .plugin) 1 30
      = .ok (S_OK,
             { created .plugin with infos := upd (created .plugin).infos 30 (some
                 { plugin_name := some "RustPlugin", author := some "Rust Developer",
                   description := some "A plugin written in Rust", version := some "1.0",
                   bitmap := nullptr, flags := 0 }) },
             [Event.virt 1 (.OnGetPluginInfo (some TVdjPluginInfo8.zero))]) ∧
    (vdj_plugin_dsp_get_info (created .dsp) 1 30).value = some S_OK :=
  ⟨⟨_, rfl⟩, ⟨_, rfl⟩, rfl, rfl,
   (get_info_fills_default_identity (created .plugin) 1 30).2.1 _ (by decide) (by decide)
     ⟨_, rfl⟩ rfl,
   by rw [(get_info_fills_default_identity (created .dsp) 1 30).2.2 _ (by decide) (by decide)
     ⟨_, rfl⟩ rfl]; rfl⟩


/-- C12. For the default wrapper of every kind `k` (a freshly created DSP wrapper is the case
`k = dsp` with zero members): `OnGetParameterString` returns `E_NOTIMPL` for every parameter
id, output buffer and capacity, and leaves the members and host memory, so the output buffer,
as they were. The generic flat `on_get_parameter_string`, on a non-null handle to such a
wrapper, returns that `E_NOTIMPL`, calls `OnGetParameterString` once and leaves the world as
it was. -/
theorem on_get_parameter_string_not_implemented (k : Kind) :
    (∀ (id : Int) (out_param : Ptr) (out_param_size : Int) (f : Fields) (m : HostMem),
      (defaultImpl k).base.OnGetParameterString id out_param out_param_size f m
        = (E_NOTIMPL, f, m)) ∧
    (∀ (w : World) (plugin : Ptr) (id : Int) (out_param : Ptr) (out_param_size : Int),
      plugin ≠ nullptr → w.liveDefault k plugin →
      vdj_plugin_on_get_parameter_string w plugin id out_param out_param_size
        = .ok (E_NOTIMPL, w,
               [Event.virt plugin (.OnGetParameterString id out_param out_param_size)])) := by
  refine ⟨?_, ?_⟩
  · intro id out_param out_param_size f m
    cases k <;> rfl
  · intro w plugin id out_param out_param_size hp hl
    obtain ⟨f, hf⟩ := hl
    simp only [vdj_plugin_on_get_parameter_string, hp, if_false, World.asPlugin, hf]
    cases k <;> exact World.call_ret w plugin _ _ E_NOTIMPL hf

/-- Witness for C12: a DSP handle fresh from `create`, parameter 3, buffer at address 600 of
capacity 16. -/
theorem on_get_parameter_string_not_implemented_witness :
    (1 : Ptr) ≠ nullptr ∧ (created .dsp).liveDefault .dsp 1 ∧
    (created .dsp).fieldsAt 1 = Fields.zero ∧
    vdj_plugin_on_get_parameter_string (created .dsp) 1 3 600 16
      = .ok (E_NOTIMPL, created .dsp, [Event.virt 1 (.OnGetParameterString 3 600 16)]) :=
  ⟨by decide, ⟨_, rfl⟩, rfl,
   (on_get_parameter_string_not_implemented .dsp).2 (created .dsp) 1 3 600 16 (by decide)
     ⟨_, rfl⟩⟩


/-- C13. For a non-null Video-Transition handle to the default wrapper, whatever its members
(so in particular when `init` was never called and `cb` is null), `on_draw(handle, c)`
returns `S_OK` for every crossfader value `c` (any bit pattern, so also values outside 0.0 to
1.0), calls `OnDraw` once, calls no table entry and leaves the world as it was. -/
theorem video_transition_on_draw_succeeds (w : World) (plugin : Ptr) (crossfader : CFloat)
    (hp : plugin ≠ nullptr) (hl : w.liveDefault .videoTransition plugin) :
    vdj_plugin_video_transition_on_draw w plugin crossfader
      = .ok (S_OK, w, [Event.virt plugin (.OnDrawCrossfader crossfader)]) := by
  obtain ⟨f, hf⟩ := hl
  simp only [vdj_plugin_video_transition_on_draw, hp, if_false, World.asVideoTransition, hf,
    defaultImpl]
  exact World.call_ret w plugin _ _ S_OK hf

/-- Witness for C13: a Video-Transition handle fresh from `create`, no `init`, crossfader 0.5
(bit pattern `0x3F000000`). -/
theorem video_transition_on_draw_succeeds_witness :
    (1 : Ptr) ≠ nullptr ∧ (created .videoTransition).liveDefault .videoTransition 1 ∧
    ((created .videoTransition).fieldsAt 1).cb = nullptr ∧
    (∀ p, (created .videoTransition).adapters p = none) ∧
    vdj_plugin_video_transition_on_draw (created .videoTransition) 1 0x3F000000
      = .ok (S_OK, created .videoTransition, [Event.virt 1 (.OnDrawCrossfader 0x3F000000)]) :=
  ⟨by decide, ⟨_, rfl⟩, rfl, fun _ => rfl,
   video_transition_on_draw_succeeds (created .videoTransition) 1 0x3F000000 (by decide)
     ⟨_, rfl⟩⟩


/-- C14. For a non-null Online-Source handle to the default wrapper, whatever its members (so
before as well as after `init`): `is_logged`, `on_login`, `on_logout`, `on_search` (for every
query and result sink, null included) and `on_search_cancel` each return `E_NOTIMPL`, call
the operation of the same name once and leave the world as it was. The operations `OnOAuth`,
`GetStreamUrl`, `GetFolderList`, `GetFolder`, `GetContextMenu`, `OnContextMenu`,
`GetFolderContextMenu` and `OnFolderContextMenu` of the default wrapper return `E_NOTIMPL`
for every argument and change nothing. -/
theorem online_source_not_implemented (w : World) (plugin : Ptr) :
    (plugin ≠ nullptr → w.liveDefault .onlineSource plugin →
      vdj_plugin_online_source_is_logged w plugin
        = .ok (E_NOTIMPL, w, [Event.virt plugin .IsLogged]) ∧
      vdj_plugin_online_source_on_login w plugin
        = .ok (E_NOTIMPL, w, [Event.virt plugin .OnLogin]) ∧
      vdj_plugin_online_source_on_logout w plugin
        = .ok (E_NOTIMPL, w, [Event.virt plugin .OnLogout]) ∧
      (∀ search tracks_list, vdj_plugin_online_source_on_search w plugin search tracks_list
        = .ok (E_NOTIMPL, w, [Event.virt plugin (.OnSearch search tracks_list)])) ∧
      vdj_plugin_online_source_on_search_cancel w plugin
        = .ok (E_NOTIMPL, w, [Event.virt plugin .OnSearchCancel])) ∧
    (∀ (f : Fields) (m : HostMem),
      (∀ access_token access_token_expire refresh_token code errorMessage,
        VdjPluginOnlineSourceWrapper.vtable.OnOAuth access_token access_token_expire
          refresh_token code errorMessage f m = (E_NOTIMPL, f, m)) ∧
      (∀ uniqueId url errorMessage,
        VdjPluginOnlineSourceWrapper.vtable.GetStreamUrl uniqueId url errorMessage f m
          = (E_NOTIMPL, f, m)) ∧
      (∀ subfoldersList,
        VdjPluginOnlineSourceWrapper.vtable.GetFolderList subfoldersList f m
          = (E_NOTIMPL, f, m)) ∧
      (∀ folderUniqueId tracksList,
        VdjPluginOnlineSourceWrapper.vtable.GetFolder folderUniqueId tracksList f m
          = (E_NOTIMPL, f, m)) ∧
      (∀ uniqueId contextMenu,
        VdjPluginOnlineSourceWrapper.vtable.GetContextMenu uniqueId contextMenu f m
          = (E_NOTIMPL, f, m)) ∧
      (∀ uniqueId menuIndex,
        VdjPluginOnlineSourceWrapper.vtable.OnContextMenu uniqueId menuIndex f m
          = (E_NOTIMPL, f, m)) ∧
      (∀ folderUniqueId contextMenu,
        VdjPluginOnlineSourceWrapper.vtable.GetFolderContextMenu folderUniqueId contextMenu f m
          = (E_NOTIMPL, f, m)) ∧
      (∀ folderUniqueId menuIndex,
        VdjPluginOnlineSourceWrapper.vtable.OnFolderContextMenu folderUniqueId menuIndex f m
          = (E_NOTIMPL, f, m))) := by
  refine ⟨?_, ?_⟩
  · intro hp hl
    obtain ⟨f, hf⟩ := hl
    refine ⟨?_, ?_, ?_, ?_, ?_⟩
    · simp only [vdj_plugin_online_source_is_logged, hp, if_false, World.asOnlineSource, hf,
        defaultImpl]
      exact World.call_ret w plugin _ _ E_NOTIMPL hf
    · simp only [vdj_plugin_online_source_on_login, hp, if_false, World.asOnlineSource, hf,
        defaultImpl]
      exact World.call_ret w plugin _ _ E_NOTIMPL hf
    · simp only [vdj_plugin_online_source_on_logout, hp, if_false, World.asOnlineSource, hf,
        defaultImpl]
      exact World.call_ret w plugin _ _ E_NOTIMPL hf
    · intro search tracks_list
      simp only [vdj_plugin_online_source_on_search, hp, if_false, World.asOnlineSource, hf,
        defaultImpl]
      exact World.call_ret w plugin _ _ E_NOTIMPL hf
    · simp only [vdj_plugin_online_source_on_search_cancel, hp, if_false,
        World.asOnlineSource, hf, defaultImpl]
      exact World.call_ret w plugin _ _ E_NOTIMPL hf
  · intro f m
    exact ⟨fun _ _ _ _ _ => rfl, fun _ _ _ => rfl, fun _ => rfl, fun _ _ => rfl,
      fun _ _ => rfl, fun _ _ => rfl, fun _ _ => rfl, fun _ _ => rfl⟩

/-- Witness for C14: the Online-Source handle of the host world before `init` (`is_logged`)
and after `init` (`on_search` with a null query and a null sink). -/
theorem online_source_not_implemented_witness :
    (1 : Ptr) ≠ nullptr ∧ (created .onlineSource).liveDefault .onlineSource 1 ∧
    (initialised .onlineSource).liveDefault .onlineSource 1 ∧
    vdj_plugin_online_source_is_logged (created .onlineSource) 1
      = .ok (E_NOTIMPL, created .onlineSource, [Event.virt 1 .IsLogged]) ∧
    vdj_plugin_online_source_on_search (initialised .onlineSource) 1 0 0
      = .ok (E_NOTIMPL, initialised .onlineSource, [Event.virt 1 (.OnSearch 0 0)]) :=
  ⟨by decide, ⟨_, rfl⟩, ⟨_, rfl⟩,
   ((online_source_not_implemented (created .onlineSource) 1).1 (by decide) ⟨_, rfl⟩).1,
   ((online_source_not_implemented (initialised .onlineSource) 1).1 (by decide)
     ⟨_, rfl⟩).2.2.2.1 0 0⟩


/-- C15. For the default wrapper of every kind `k`: `OnLoad` returns `S_OK`, and
`OnParameter` returns `S_OK` for every parameter id; both leave the members of the wrapper
and host memory as they were. Through the flat functions, `on_load` and `on_parameter` on a
non-null handle to such a wrapper return `S_OK`, call the operation once and leave the world
as it was. -/
theorem on_load_and_on_parameter_succeed (k : Kind) :
    (∀ (f : Fields) (m : HostMem), (defaultImpl k).base.OnLoad f m = (S_OK, f, m)) ∧
    (∀ (id : Int) (f : Fields) (m : HostMem),
      (defaultImpl k).base.OnParameter id f m = (S_OK, f, m)) ∧
    (∀ (w : World) (plugin : Ptr), plugin ≠ nullptr → w.liveDefault k plugin →
      vdj_plugin_on_load w plugin = .ok (S_OK, w, [Event.virt plugin .OnLoad])) ∧
    (∀ (w : World) (plugin : Ptr) (id : Int), plugin ≠ nullptr → w.liveDefault k plugin →
      vdj_plugin_on_parameter w plugin id
        = .ok (S_OK, w, [Event.virt plugin (.OnParameter id)])) := by
  refine ⟨?_, ?_, ?_, ?_⟩
  · intro f m
    cases k <;> rfl
  · intro id f m
    cases k <;> rfl
  · intro w plugin hp hl
    obtain ⟨f, hf⟩ := hl
    simp only [vdj_plugin_on_load, hp, if_false, World.asPlugin, hf]
    cases k <;> exact World.call_ret w plugin _ _ S_OK hf
  · intro w plugin id hp hl
    obtain ⟨f, hf⟩ := hl
    simp only [vdj_plugin_on_parameter, hp, if_false, World.asPlugin, hf]
    cases k <;> exact World.call_ret w plugin _ _ S_OK hf

/-- Witness for C15: the generic handle of the host world, fresh from `create`. -/
theorem on_load_and_on_parameter_succeed_witness :
    (1 : Ptr) ≠ nullptr ∧ (created .plugin).liveDefault .plugin 1 ∧
    vdj_plugin_on_load (created .plugin) 1
      = .ok (S_OK, created .plugin, [Event.virt 1 .OnLoad]) ∧
    vdj_plugin_on_parameter (created .plugin) 1 (-7)
      = .ok (S_OK, created .plugin, [Event.virt 1 (.OnParameter (-7))]) :=
  ⟨by decide, ⟨_, rfl⟩,
   (on_load_and_on_parameter_succeed .plugin).2.2.1 (created .plugin) 1 (by decide) ⟨_, rfl⟩,
   (on_load_and_on_parameter_succeed .plugin).2.2.2 (created .plugin) 1 (-7) (by decide)
     ⟨_, rfl⟩⟩


/-- C16. For a non-null handle to the default DSP wrapper, and likewise to the default
Position-DSP wrapper: `on_start` and `on_stop` return `S_OK`, and
`on_process_samples(buffer, count)` returns `S_OK` for every buffer pointer and every count
(zero and negative counts included); each calls the operation of the same name once and
leaves the world as it was, host memory and so every sample of the buffer included. -/
theorem dsp_defaults_pass_through (w : World) (plugin : Ptr) (hp : plugin ≠ nullptr) :
    (w.liveDefault .dsp plugin →
      vdj_plugin_dsp_on_start w plugin = .ok (S_OK, w, [Event.virt plugin .OnStart]) ∧
      vdj_plugin_dsp_on_stop w plugin = .ok (S_OK, w, [Event.virt plugin .OnStop]) ∧
      (∀ buffer nb, vdj_plugin_dsp_on_process_samples w plugin buffer nb
        = .ok (S_OK, w, [Event.virt plugin (.OnProcessSamples buffer nb)])) ∧
      (∀ buffer nb i, ((vdj_plugin_dsp_on_process_samples w plugin buffer nb).worldOr w).mem
        (buffer + i) = w.mem (buffer + i))) ∧
    (w.liveDefault .positionDsp plugin →
      vdj_plugin_position_dsp_on_start w plugin
        = .ok (S_OK, w, [Event.virt plugin .OnStart]) ∧
      vdj_plugin_position_dsp_on_stop w plugin = .ok (S_OK, w, [Event.virt plugin .OnStop]) ∧
      (∀ buffer nb, vdj_plugin_position_dsp_on_process_samples w plugin buffer nb
        = .ok (S_OK, w, [Event.virt plugin (.OnProcessSamples buffer nb)])) ∧
      (∀ buffer nb i,
        ((vdj_plugin_position_dsp_on_process_samples w plugin buffer nb).worldOr w).mem
          (buffer + i) = w.mem (buffer + i))) := by
  refine ⟨?_, ?_⟩
  · intro hl
    obtain ⟨f, hf⟩ := hl
    have h3 : ∀ buffer nb, vdj_plugin_dsp_on_process_samples w plugin buffer nb
        = .ok (S_OK, w, [Event.virt plugin (.OnProcessSamples buffer nb)]) := by
      intro buffer nb
      simp only [vdj_plugin_dsp_on_process_samples, hp, if_false, World.asDsp, hf, defaultImpl]
      exact World.call_ret w plugin _ _ S_OK hf
    refine ⟨?_, ?_, h3, ?_⟩
    · simp only [vdj_plugin_dsp_on_start, hp, if_false, World.asDsp, hf, defaultImpl]
      exact World.call_ret w plugin _ _ S_OK hf
    · simp only [vdj_plugin_dsp_on_stop, hp, if_false, World.asDsp, hf, defaultImpl]
      exact World.call_ret w plugin _ _ S_OK hf
    · intro buffer nb i
      rw [h3]
      rfl
  · intro hl
    obtain ⟨f, hf⟩ := hl
    have h3 : ∀ buffer nb, vdj_plugin_position_dsp_on_process_samples w plugin buffer nb
        = .ok (S_OK, w, [Event.virt plugin (.OnProcessSamples buffer nb)]) := by
      intro buffer nb
      simp only [vdj_plugin_position_dsp_on_process_samples, hp, if_false,
        World.asPositionDsp, hf, defaultImpl]
      exact World.call_ret w plugin _ _ S_OK hf
    refine ⟨?_, ?_, h3, ?_⟩
    · simp only [vdj_plugin_position_dsp_on_start, hp, if_false, World.asPositionDsp, hf,
        defaultImpl]
      exact World.call_ret w plugin _ _ S_OK hf
    · simp only [vdj_plugin_position_dsp_on_stop, hp, if_false, World.asPositionDsp, hf,
        defaultImpl]
      exact World.call_ret w plugin _ _ S_OK hf
    · intro buffer nb i
      rw [h3]
      rfl

/-- Witness for C16: the DSP handle of the host world processes the four samples at address
4096 (they stay 11, 22, 33, 44), and the Position-DSP handle is given a negative count. -/
theorem dsp_defaults_pass_through_witness :
    (1 : Ptr) ≠ nullptr ∧ (created .dsp).liveDefault .dsp 1 ∧
    (created .positionDsp).liveDefault .positionDsp 1 ∧
    vdj_plugin_dsp_on_process_samples (created .dsp) 1 4096 4
      = .ok (S_OK, created .dsp, [Event.virt 1 (.OnProcessSamples 4096 4)]) ∧
    ((created .dsp).mem 4096, (created .dsp).mem 4097, (created .dsp).mem 4098,
      (created .dsp).mem 4099) = (11, 22, 33, 44) ∧
    vdj_plugin_position_dsp_on_process_samples (created .positionDsp) 1 4096 (-1)
      = .ok (S_OK, created .positionDsp, [Event.virt 1 (.OnProcessSamples 4096 (-1))]) :=
  ⟨by decide, ⟨_, rfl⟩, ⟨_, rfl⟩,
   ((dsp_defaults_pass_through (created .dsp) 1 (by decide)).1 ⟨_, rfl⟩).2.2.1 4096 4,
   rfl,
   ((dsp_defaults_pass_through (created .positionDsp) 1 (by decide)).2 ⟨_, rfl⟩).2.2.1
     4096 (-1)⟩


/-- C17. For a non-null Video-FX handle to the default wrapper, whatever its members (so
before as well as after `init`): `on_audio_samples` returns `E_NOTIMPL` for every buffer
pointer and count and leaves host memory, so the buffer, as it was; `on_draw`,
`on_device_init` and `on_device_close` each return `S_OK`; each calls the operation of the
same name once and leaves the world as it was. -/
theorem video_fx_defaults (w : World) (plugin : Ptr) (hp : plugin ≠ nullptr)
    (hl : w.liveDefault .videoFx plugin) :
    (∀ buffer nb, vdj_plugin_video_fx_on_audio_samples w plugin buffer nb
      = .ok (E_NOTIMPL, w, [Event.virt plugin (.OnAudioSamples buffer nb)])) ∧
    vdj_plugin_video_fx_on_draw w plugin = .ok (S_OK, w, [Event.virt plugin .OnDraw]) ∧
    vdj_plugin_video_fx_on_device_init w plugin
      = .ok (S_OK, w, [Event.virt plugin .OnDeviceInit]) ∧
    vdj_plugin_video_fx_on_device_close w plugin
      = .ok (S_OK, w, [Event.virt plugin .OnDeviceClose]) := by
  obtain ⟨f, hf⟩ := hl
  refine ⟨?_, ?_, ?_, ?_⟩
  · intro buffer nb
    simp only [vdj_plugin_video_fx_on_audio_samples, hp, if_false, World.asVideoFx, hf,
      defaultImpl]
    exact World.call_ret w plugin _ _ E_NOTIMPL hf
  · simp only [vdj_plugin_video_fx_on_draw, hp, if_false, World.asVideoFx, hf, defaultImpl]
    exact World.call_ret w plugin _ _ S_OK hf
  · simp only [vdj_plugin_video_fx_on_device_init, hp, if_false, World.asVideoFx, hf,
      defaultImpl]
    exact World.call_ret w plugin _ _ S_OK hf
  · simp only [vdj_plugin_video_fx_on_device_close, hp, if_false, World.asVideoFx, hf,
      defaultImpl]
    exact World.call_ret w plugin _ _ S_OK hf

/-- Witness for C17: the Video-FX handle of the host world, before `init` (`on_draw`) and
after `init` (`on_audio_samples` on the four samples at address 4096). -/
theorem video_fx_defaults_witness :
    (1 : Ptr) ≠ nullptr ∧ (created .videoFx).liveDefault .videoFx 1 ∧
    (initialised .videoFx).liveDefault .videoFx 1 ∧
    vdj_plugin_video_fx_on_draw (created .videoFx) 1
      = .ok (S_OK, created .videoFx, [Event.virt 1 .OnDraw]) ∧
    vdj_plugin_video_fx_on_audio_samples (initialised .videoFx) 1 4096 4
      = .ok (E_NOTIMPL, initialised .videoFx, [Event.virt 1 (.OnAudioSamples 4096 4)]) :=
  ⟨by decide, ⟨_, rfl⟩, ⟨_, rfl⟩,
   (video_fx_defaults (created .videoFx) 1 (by decide) ⟨_, rfl⟩).2.1,
   (video_fx_defaults (initialised .videoFx) 1 (by decide) ⟨_, rfl⟩).1 4096 4⟩


/-- C18. The four result codes, read as values of the signed 32-bit type `HRESULT`: `S_OK` is
0, `S_FALSE` is 1, `E_NOTIMPL` is -2147467263 and `E_FAIL` is -2147467259, which are the
literals `0x80004001` and `0x80004005` taken modulo 2^32; the four are pairwise distinct, all
lie in the signed 32-bit range, the two error codes are negative (bit 31 of their 32-bit
pattern is set) and the two others are non-negative. -/
theorem result_codes :
    S_OK = 0 ∧ S_FALSE = 1 ∧ E_NOTIMPL = -2147467263 ∧ E_FAIL = -2147467259 ∧
    E_NOTIMPL % 2 ^ 32 = 0x80004001 ∧ E_FAIL % 2 ^ 32 = 0x80004005 ∧
    E_NOTIMPL = E_NOTIMPL_literal - 2 ^ 32 ∧ E_FAIL = E_FAIL_literal - 2 ^ 32 ∧
    S_OK ≠ S_FALSE ∧ S_OK ≠ E_NOTIMPL ∧ S_OK ≠ E_FAIL ∧ S_FALSE ≠ E_NOTIMPL ∧
    S_FALSE ≠ E_FAIL ∧ E_NOTIMPL ≠ E_FAIL ∧
    (∀ c ∈ [S_OK, S_FALSE, E_NOTIMPL, E_FAIL], -2 ^ 31 ≤ c ∧ c < 2 ^ 31) ∧
    E_NOTIMPL < 0 ∧ E_FAIL < 0 ∧ 0 ≤ S_OK ∧ 0 ≤ S_FALSE ∧
    E_NOTIMPL % 2 ^ 32 / 2 ^ 31 = 1 ∧ E_FAIL % 2 ^ 32 / 2 ^ 31 = 1 ∧
    S_OK % 2 ^ 32 / 2 ^ 31 = 0 ∧ S_FALSE % 2 ^ 32 / 2 ^ 31 = 0 := by
  decide


/-- C19, evaluated at the failing input. For every kind, on the host world: after `create`
and one successful `init` exactly one live adapter holds the handle (the one at address 2,
which `cb` points at). A second `init` on the same handle, with the same tables or with other
ones, succeeds as well, allocates a further adapter and points `cb` at it, and the adapter of
the first `init`, which no member points at any more, is still live: two live adapters hold
the handle, one per `init` call. -/
theorem second_init_leaves_two_live_adapters (k : Kind) :
    (init k (created k) 1 10 20).value = some S_OK ∧
    (initialised k).adaptersOf 1 = [2] ∧
    ((initialised k).fieldsAt 1).cb = 2 ∧
    (init k (initialised k) 1 10 20).value = some S_OK ∧
    (init k (initialised k) 1 11 21).value = some S_OK ∧
    ((reinitialised k).adaptersOf 1).length = 2 ∧
    ((reinitialisedOther k).adaptersOf 1).length = 2 ∧
    (reinitialised k).adapters 2 = some { c_callbacks := 10, plugin := 1 } ∧
    (reinitialisedOther k).adapters 2 = some { c_callbacks := 10, plugin := 1 } ∧
    ((reinitialised k).fieldsAt 1).cb ≠ 2 ∧
    (reinitialised k).adapters ((reinitialised k).fieldsAt 1).cb
      = some { c_callbacks := 10, plugin := 1 } ∧
    (reinitialisedOther k).adapters ((reinitialisedOther k).fieldsAt 1).cb
      = some { c_callbacks := 11, plugin := 1 } := by
  cases k <;> exact ⟨rfl, rfl, rfl, rfl, rfl, rfl, rfl, rfl, rfl, by decide, rfl, rfl⟩


/-- In every world, a successful `init` (default wrapper for the generic kind) on a handle
whose `cb` already points at a live adapter at or below the allocation counter keeps that
adapter live and points `cb` at another one: `init` never destroys an adapter. -/
theorem init_keeps_previous_adapter (k : Kind) (w w' : World)
    (plugin callbacks video_callbacks : Ptr) (t : List Event) (a0 : CallbacksAdapter)
    (hl : w.live k plugin) (hd : k = Kind.plugin → w.liveDefault k plugin)
    (hinit : init k w plugin callbacks video_callbacks = .ok (S_OK, w', t))
    (h0 : w.adapters (w.fieldsAt plugin).cb = some a0)
    (hle : (w.fieldsAt plugin).cb ≤ w.next) :
    w'.adapters (w.fieldsAt plugin).cb = some a0 ∧
    (w'.fieldsAt plugin).cb ≠ (w.fieldsAt plugin).cb ∧
    w'.adapters (w'.fieldsAt plugin).cb
      = some { c_callbacks := callbacks, plugin := plugin } := by
  obtain ⟨hp, hc, o', ho', -, -, ha', hvfx, -⟩ :=
    init_binds k w w' plugin callbacks video_callbacks t hl hd hinit
  have hne : S_OK ≠ E_FAIL := by decide
  have hv : k.isVideo = true → video_callbacks ≠ nullptr := by
    intro hk e
    rw [init_of_null k w plugin callbacks video_callbacks (Or.inr (Or.inr ⟨hk, e⟩))] at hinit
    simp only [Except.ok.injEq, Prod.mk.injEq] at hinit
    exact hne hinit.1.symm
  have hcb' : (w'.fieldsAt plugin).cb = o'.fields.cb := by simp [World.fieldsAt, ho']
  obtain ⟨o, ho, hk⟩ := hl
  have hcb : (w.fieldsAt plugin).cb = o.fields.cb := by simp [World.fieldsAt, ho]
  rw [hcb] at h0 hle ⊢
  rw [hcb']
  have hfresh : w.fresh ≠ o.fields.cb := by
    intro h
    have h1 : w.next + 1 ≤ w.next := by
      have h2 : o.fields.cb ≤ w.next := hle
      rw [← h] at h2
      exact h2
    exact Nat.not_succ_le_self _ h1
  have hold : w'.adapters o.fields.cb = some a0 ∧ o'.fields.cb = w.fresh := by
    rw [init_of_nonnull k w plugin callbacks video_callbacks o ho hk hp hc hv] at hinit
    obtain ⟨impl, f⟩ := o
    cases k
    · obtain ⟨f', hf⟩ := hd rfl
      rw [ho] at hf
      cases hf
      simp only [World.call, Except.ok.injEq, Prod.mk.injEq] at hinit
      obtain ⟨-, rfl, -⟩ := hinit
      simp only [upd, if_true, Option.some.injEq] at ho'
      subst ho'
      refine ⟨?_, ?_⟩
      · simpa [World.bindAdapter, upd, Ne.symm hfresh] using h0
      · simp [World.bindAdapter, defaultImpl, Impl.base, VdjPluginWrapper.vtable,
          VdjPluginWrapper.OnLoad, Eff.ret]
    all_goals
      simp only [Except.ok.injEq, Prod.mk.injEq] at hinit
      obtain ⟨-, rfl, -⟩ := hinit
      simp only [World.bindAdapter, World.bindVideoAdapter, upd, if_true,
        Option.some.injEq] at ho'
      subst ho'
      refine ⟨?_, ?_⟩
      · simpa [World.bindAdapter, World.bindVideoAdapter, upd, Ne.symm hfresh] using h0
      · simp
  refine ⟨hold.1, ?_, ha'⟩
  rw [hold.2]
  exact hfresh


/-- What `release` does on a non-null handle to a live wrapper of its kind: it runs the
destructor on the object and calls nothing. -/
theorem release_of_live (k : Kind) (w : World) (plugin : Ptr) (o : Object)
    (hp : plugin ≠ nullptr) (ho : w.objs plugin = some o) (hk : o.impl.kind = k) :
    release k w plugin = .ok ((), w.destroy plugin o, []) := by
  obtain ⟨impl, f⟩ := o
  cases impl <;> simp only [Impl.kind] at hk <;> subst hk
  · simp [release, vdj_plugin_release, hp, World.asPlugin, ho, Run.ret]
  · simp [release, vdj_plugin_dsp_release, hp, World.asDsp, ho, Run.ret]
  · simp [release, vdj_plugin_buffer_dsp_release, hp, World.asBufferDsp, ho, Run.ret]
  · simp [release, vdj_plugin_position_dsp_release, hp, World.asPositionDsp, ho, Run.ret]
  · simp [release, vdj_plugin_video_fx_release, hp, World.asVideoFx, ho, Run.ret]
  · simp [release, vdj_plugin_video_transition_release, hp, World.asVideoTransition, ho,
      Run.ret]
  · simp [release, vdj_plugin_online_source_release, hp, World.asOnlineSource, ho, Run.ret]

/-- C20, evaluated. For every kind: `release` of the null handle changes nothing, in any
world. On the host world, `release` after `create` and one `init` destroys the wrapper and
leaves no live adapter and no live video adapter holding the handle; with two initialised
handles, `release` of the first leaves the wrapper of the second and the adapters holding the
second as they were. At the failing input, `create`, two `init` on the handle, then
`release`: the wrapper is destroyed, but the adapter at address 2 that the first `init`
attached is still live and still holds the released handle, and for Video-FX so is the video
adapter at address 3. -/
theorem release_leaves_adapter_of_earlier_init (k : Kind) :
    (∀ w : World, release k w nullptr = .ok ((), w, [])) ∧
    release k (initialised k) 1 = .ok ((), released k, []) ∧
    (released k).objs 1 = none ∧
    (released k).adaptersOf 1 = [] ∧
    (released k).videoAdaptersOf 1 = [] ∧
    release k (twoInitialised k) 1 = .ok ((), twoReleasedFirst k, []) ∧
    (twoReleasedFirst k).objs 1 = none ∧
    (twoReleasedFirst k).adaptersOf 1 = [] ∧
    (twoReleasedFirst k).objs 2 = (twoInitialised k).objs 2 ∧
    (twoReleasedFirst k).adaptersOf 2 = (twoInitialised k).adaptersOf 2 ∧
    ((twoInitialised k).adaptersOf 2).length = 1 ∧
    (twoReleasedFirst k).videoAdaptersOf 2 = (twoInitialised k).videoAdaptersOf 2 ∧
    release k (reinitialised k) 1 = .ok ((), releasedAfterReinit k, []) ∧
    (releasedAfterReinit k).objs 1 = none ∧
    (releasedAfterReinit k).adaptersOf 1 = [2] ∧
    (releasedAfterReinit k).adapters 2 = some { c_callbacks := 10, plugin := 1 } ∧
    (releasedAfterReinit .videoFx).videoAdaptersOf 1 = [3] := by
  refine ⟨?_, ?_⟩
  · intro w
    cases k <;> rfl
  · cases k <;>
      exact ⟨rfl, rfl, rfl, rfl, rfl, rfl, rfl, rfl, rfl, rfl, rfl, rfl, rfl, rfl, rfl, rfl⟩


/-- C21. For every kind and every world: `create` returns a non-null handle, the address
`new` hands out; at that handle there is the default wrapper of the kind with all members
zero, so `cb` and `vcb` are null; no adapter and no video adapter is created or changed, and
the wrapper at every other address is as it was; when the address was unused, as `new`
guarantees, every wrapper that existed still exists unchanged and the handle is different
from every existing handle. `release` right after `create` returns having called nothing (no
wrapper operation, so no `OnLoad`, `OnStart` or `OnStop`, and no table entry), and the handle
is no longer live. -/
theorem create_returns_fresh_default_wrapper (k : Kind) (w : World) :
    (create k w).1 ≠ nullptr ∧
    (create k w).1 = w.fresh ∧
    (create k w).2.objs (create k w).1
      = some { impl := defaultImpl k, fields := Fields.zero } ∧
    Fields.zero.cb = nullptr ∧ Fields.zero.vcb = nullptr ∧
    (create k w).2.adapters = w.adapters ∧
    (create k w).2.vadapters = w.vadapters ∧
    (∀ q, q ≠ (create k w).1 → (create k w).2.objs q = w.objs q) ∧
    (w.objs w.fresh = none →
      ∀ q o, w.objs q = some o → q ≠ (create k w).1 ∧ (create k w).2.objs q = some o) ∧
    (release k (create k w).2 (create k w).1).trace = [] ∧
    (∃ w', release k (create k w).2 (create k w).1 = .ok ((), w', []) ∧
      w'.objs (create k w).1 = none ∧ w'.adapters = w.adapters ∧
      w'.vadapters = w.vadapters) := by
  have h1 : (create k w).1 = w.fresh := by cases k <;> rfl
  have h2 : (create k w).2
      = { w with objs := upd w.objs w.fresh (some { impl := defaultImpl k,
                                                     fields := Fields.zero }),
                 next := w.fresh } := by cases k <;> rfl
  have hne : w.fresh ≠ nullptr := by simp [World.fresh, nullptr]
  have hobj : (create k w).2.objs (create k w).1
      = some { impl := defaultImpl k, fields := Fields.zero } := by
    rw [h1, h2]
    simp [upd]
  have hkind : (defaultImpl k).kind = k := by cases k <;> rfl
  have hrel := release_of_live k (create k w).2 (create k w).1 _ (h1 ▸ hne) hobj hkind
  refine ⟨h1 ▸ hne, h1, hobj, rfl, rfl, by rw [h2], by rw [h2], ?_, ?_, ?_, ?_⟩
  · intro q hq
    rw [h1] at hq
    rw [h2]
    simp [upd, hq]
  · intro hfree q o hq
    have hqne : q ≠ w.fresh := by
      intro e
      rw [e, hfree] at hq
      cases hq
    refine ⟨h1 ▸ hqne, ?_⟩
    rw [h2]
    simp [upd, hqne, hq]
  · rw [hrel]
    rfl
  · refine ⟨_, hrel, ?_, ?_, ?_⟩
    · simp [World.destroy, upd]
    · simp only [World.destroy, Fields.zero, if_true]
      rw [h2]
    · simp only [World.destroy, Fields.zero, if_true]
      rw [h2]

/-- Witness for C21: `create` of a second DSP handle on the host world that already has the
initialised DSP handle 1; the new handle is 3, handle 1 and its adapter are untouched. -/
theorem create_returns_fresh_default_wrapper_witness :
    (initialised .dsp).objs (initialised .dsp).fresh = none ∧
    (create .dsp (initialised .dsp)).1 = 3 ∧
    (create .dsp (initialised .dsp)).2.objs 1 = (initialised .dsp).objs 1 ∧
    (create .dsp (initialised .dsp)).2.adapters 2 = some { c_callbacks := 10, plugin := 1 } ∧
    (release .dsp (create .dsp (initialised .dsp)).2 3).trace = [] :=
  ⟨rfl, rfl,
   (create_returns_fresh_default_wrapper .dsp (initialised .dsp)).2.2.2.2.2.2.2.1 1
     (by decide),
   by rw [(create_returns_fresh_default_wrapper .dsp (initialised .dsp)).2.2.2.2.2.1]; rfl,
   (create_returns_fresh_default_wrapper .dsp (initialised .dsp)).2.2.2.2.2.2.2.2.2.1⟩


/-- A world keeps itself. -/
theorem World.keeps_refl (w : World) : w.keeps w :=
  ⟨fun _ => rfl, Nat.le_refl _, fun _ => rfl⟩

/-- Keeping composes. -/
theorem World.keeps_trans {w w1 w2 : World} (h1 : w.keeps w1) (h2 : w1.keeps w2) :
    w.keeps w2 :=
  ⟨fun p => (h2.1 p).trans (h1.1 p), Nat.le_trans h1.2.1 h2.2.1,
   fun p => (h2.2.2 p).trans (h1.2.2 p)⟩

/-- A virtual call on a live object keeps the world. -/
theorem World.keeps_call {α : Type} (w w1 : World) (this : Ptr) (o : Object) (c : Call)
    (m : Eff α) (r : α) (t : List Event) (ho : w.objs this = some o)
    (h : w.call this o c m = .ok (r, w1, t)) : w.keeps w1 := by
  simp only [World.call, Except.ok.injEq, Prod.mk.injEq] at h
  obtain ⟨-, rfl, -⟩ := h
  refine ⟨?_, Nat.le_refl _, fun _ => rfl⟩
  intro p
  by_cases hp : p = this
  · subst hp
    simp [upd, ho]
  · simp [upd, hp]

/-- A call of a table entry keeps the world. -/
theorem World.keeps_callEntry (w w1 : World) (table : Ptr) (e : Entry)
    (fn : Option (Host HRESULT)) (r : HRESULT) (t : List Event)
    (h : w.callEntry table e fn = .ok (r, w1, t)) : w.keeps w1 := by
  unfold World.callEntry at h
  split at h
  · cases h
  · simp only [Except.ok.injEq, Prod.mk.injEq] at h
    obtain ⟨-, rfl, -⟩ := h
    exact ⟨fun _ => rfl, Nat.le_refl _, fun _ => rfl⟩

/-- Binding a primary adapter to a live object keeps the world, and the object is then the
second component. -/
theorem World.keeps_bindAdapter (w : World) (plugin : Ptr) (o : Object) (callbacks : Ptr)
    (ho : w.objs plugin = some o) :
    w.keeps (w.bindAdapter plugin o callbacks).1 ∧
    (w.bindAdapter plugin o callbacks).1.objs plugin
      = some (w.bindAdapter plugin o callbacks).2 := by
  refine ⟨⟨?_, Nat.le_succ _, fun _ => rfl⟩, by simp [World.bindAdapter, upd]⟩
  intro p
  by_cases hp : p = plugin
  · subst hp
    simp [World.bindAdapter, upd, ho]
  · simp [World.bindAdapter, upd, hp]

/-- Binding a video adapter to a live object keeps the world. -/
theorem World.keeps_bindVideoAdapter (w : World) (plugin : Ptr) (o o0 : Object)
    (video_callbacks : Ptr) (ho : w.objs plugin = some o0) (hi : o.impl = o0.impl) :
    w.keeps (w.bindVideoAdapter plugin o video_callbacks).1 := by
  refine ⟨?_, Nat.le_succ _, fun _ => rfl⟩
  intro p
  by_cases hp : p = plugin
  · subst hp
    simp [World.bindVideoAdapter, upd, ho, hi]
  · simp [World.bindVideoAdapter, upd, hp]

/-- A successful cast `asPlugin` yields the object at the handle. -/
theorem World.objs_of_asPlugin (w : World) (plugin : Ptr) (vt : IVdjPlugin8) (o : Object)
    (h : w.asPlugin plugin = .ok (vt, o)) : w.objs plugin = some o := by
  unfold World.asPlugin at h
  split at h
  · next o1 ho1 =>
    cases h
    exact ho1
  · cases h

/-- A successful cast `asDsp` yields the object at the handle. -/
theorem World.objs_of_asDsp (w : World) (plugin : Ptr) (vt : IVdjPluginDsp8) (o : Object)
    (h : w.asDsp plugin = .ok (vt, o)) : w.objs plugin = some o := by
  unfold World.asDsp at h
  split at h
  · next o1 ho1 =>
    split at h
    · cases h
      exact ho1
    · cases h
  · cases h

/-- A successful cast `asBufferDsp` yields the object at the handle. -/
theorem World.objs_of_asBufferDsp (w : World) (plugin : Ptr) (vt : IVdjPluginBufferDsp8) (o : Object)
    (h : w.asBufferDsp plugin = .ok (vt, o)) : w.objs plugin = some o := by
  unfold World.asBufferDsp at h
  split at h
  · next o1 ho1 =>
    split at h
    · cases h
      exact ho1
    · cases h
  · cases h

/-- A successful cast `asPositionDsp` yields the object at the handle. -/
theorem World.objs_of_asPositionDsp (w : World) (plugin : Ptr) (vt : IVdjPluginPositionDsp8) (o : Object)
    (h : w.asPositionDsp plugin = .ok (vt, o)) : w.objs plugin = some o := by
  unfold World.asPositionDsp at h
  split at h
  · next o1 ho1 =>
    split at h
    · cases h
      exact ho1
    · cases h
  · cases h

/-- A successful cast `asVideoFx` yields the object at the handle. -/
theorem World.objs_of_asVideoFx (w : World) (plugin : Ptr) (vt : IVdjPluginVideoFx8) (o : Object)
    (h : w.asVideoFx plugin = .ok (vt, o)) : w.objs plugin = some o := by
  unfold World.asVideoFx at h
  split at h
  · next o1 ho1 =>
    split at h
    · cases h
      exact ho1
    · cases h
  · cases h

/-- A successful cast `asVideoTransition` yields the object at the handle. -/
theorem World.objs_of_asVideoTransition (w : World) (plugin : Ptr) (vt : IVdjPluginVideoTransition8) (o : Object)
    (h : w.asVideoTransition plugin = .ok (vt, o)) : w.objs plugin = some o := by
  unfold World.asVideoTransition at h
  split at h
  · next o1 ho1 =>
    split at h
    · cases h
      exact ho1
    · cases h
  · cases h

/-- A successful cast `asOnlineSource` yields the object at the handle. -/
theorem World.objs_of_asOnlineSource (w : World) (plugin : Ptr) (vt : IVdjPluginOnlineSource) (o : Object)
    (h : w.asOnlineSource plugin = .ok (vt, o)) : w.objs plugin = some o := by
  unfold World.asOnlineSource at h
  split at h
  · next o1 ho1 =>
    split at h
    · cases h
      exact ho1
    · cases h
  · cases h


/-- The generic `init` keeps the world. -/
theorem vdj_plugin_init_keeps (w w1 : World) (plugin callbacks : Ptr) (r : HRESULT)
    (t : List Event) (h : vdj_plugin_init w plugin callbacks = .ok (r, w1, t)) :
    w.keeps w1 := by
  simp only [vdj_plugin_init, Run.ret] at h
  split at h
  · simp only [Except.ok.injEq, Prod.mk.injEq] at h
    obtain ⟨-, rfl, -⟩ := h
    exact World.keeps_refl _
  · split at h
    · cases h
    · next p o heq =>
      have hb := World.keeps_bindAdapter w plugin o callbacks
        (World.objs_of_asPlugin _ _ _ _ heq)
      exact World.keeps_trans hb.1 (World.keeps_call _ _ _ _ _ _ _ _ hb.2 h)

/-- The Video-FX `init` keeps the world. -/
theorem vdj_plugin_video_fx_init_keeps (w w1 : World) (plugin callbacks video_callbacks : Ptr)
    (r : HRESULT) (t : List Event)
    (h : vdj_plugin_video_fx_init w plugin callbacks video_callbacks = .ok (r, w1, t)) :
    w.keeps w1 := by
  simp only [vdj_plugin_video_fx_init, Run.ret] at h
  split at h
  · simp only [Except.ok.injEq, Prod.mk.injEq] at h
    obtain ⟨-, rfl, -⟩ := h
    exact World.keeps_refl _
  · split at h
    · cases h
    · next p o heq =>
      simp only [Except.ok.injEq, Prod.mk.injEq] at h
      obtain ⟨-, rfl, -⟩ := h
      have hb := World.keeps_bindAdapter w plugin o callbacks
        (World.objs_of_asVideoFx _ _ _ _ heq)
      exact World.keeps_trans hb.1
        (World.keeps_bindVideoAdapter _ plugin _ _ video_callbacks hb.2 rfl)

/-- Storing an info record where one is live keeps the world. -/
theorem World.keeps_store_info (w : World) (info : Ptr) (r0 r1 : VdjPluginInfo)
    (h : w.infos info = some r0) :
    w.keeps { w with infos := upd w.infos info (some r1) } := by
  refine ⟨fun _ => rfl, Nat.le_refl _, ?_⟩
  intro p
  by_cases hp : p = info
  · subst hp
    simp [upd, h]
  · simp [upd, hp]

/-- The generic `get_info` keeps the world. -/
theorem vdj_plugin_get_info_keeps (w w1 : World) (plugin info : Ptr) (r : HRESULT)
    (t : List Event) (h : vdj_plugin_get_info w plugin info = .ok (r, w1, t)) :
    w.keeps w1 := by
  simp only [vdj_plugin_get_info, Run.ret] at h
  split at h
  · simp only [Except.ok.injEq, Prod.mk.injEq] at h
    obtain ⟨-, rfl, -⟩ := h
    exact World.keeps_refl _
  · split at h
    · cases h
    · next p o heq =>
      split at h
      · cases h
      · next hr out w2 t2 hcall =>
        have hk := World.keeps_call _ _ _ _ _ _ _ _ (World.objs_of_asPlugin _ _ _ _ heq) hcall
        split at h
        · cases h
        · next r0 hr0 =>
          simp only [Except.ok.injEq, Prod.mk.injEq] at h
          obtain ⟨-, rfl, -⟩ := h
          exact World.keeps_trans hk (World.keeps_store_info w2 info r0 _ hr0)

/-- The DSP `get_info` keeps the world. -/
theorem vdj_plugin_dsp_get_info_keeps (w w1 : World) (plugin info : Ptr) (r : HRESULT)
    (t : List Event) (h : vdj_plugin_dsp_get_info w plugin info = .ok (r, w1, t)) :
    w.keeps w1 := by
  simp only [vdj_plugin_dsp_get_info, Run.ret] at h
  split at h
  · simp only [Except.ok.injEq, Prod.mk.injEq] at h
    obtain ⟨-, rfl, -⟩ := h
    exact World.keeps_refl _
  · split at h
    · cases h
    · next p o heq =>
      split at h
      · cases h
      · next hr out w2 t2 hcall =>
        have hk := World.keeps_call _ _ _ _ _ _ _ _ (World.objs_of_asDsp _ _ _ _ heq) hcall
        split at h
        · cases h
        · next r0 hr0 =>
          simp only [Except.ok.injEq, Prod.mk.injEq] at h
          obtain ⟨-, rfl, -⟩ := h
          exact World.keeps_trans hk (World.keeps_store_info w2 info r0 _ hr0)

/-- The buffer-DSP `get_song_buffer` keeps the world. -/
theorem vdj_plugin_buffer_dsp_get_song_buffer_keeps (w w1 : World) (plugin : Ptr)
    (pos nb : Int) (buffer : Ptr) (r : HRESULT) (t : List Event)
    (h : vdj_plugin_buffer_dsp_get_song_buffer w plugin pos nb buffer = .ok (r, w1, t)) :
    w.keeps w1 := by
  simp only [vdj_plugin_buffer_dsp_get_song_buffer, Run.ret,
    IVdjPluginBufferDsp8.GetSongBuffer, CallbacksAdapter.GetSongBuffer] at h
  split at h
  · simp only [Except.ok.injEq, Prod.mk.injEq] at h
    obtain ⟨-, rfl, -⟩ := h
    exact World.keeps_refl _
  · split at h
    · cases h
    · split at h
      · cases h
      · split at h
        · cases h
        · split at h
          · cases h
          · exact World.keeps_callEntry _ _ _ _ _ _ _ h


/-- Every flat function that returns a result code keeps the world. -/
theorem Op.run_keeps (op : Op) (w w1 : World) (plugin : Ptr) (r : HRESULT) (t : List Event)
    (h : op.run w plugin = .ok (r, w1, t)) : w.keeps w1 := by
  cases op <;> simp only [Op.run] at h <;>
  first
  | exact vdj_plugin_init_keeps _ _ _ _ _ _ h
  | exact vdj_plugin_video_fx_init_keeps _ _ _ _ _ _ _ h
  | exact vdj_plugin_get_info_keeps _ _ _ _ _ _ h
  | exact vdj_plugin_dsp_get_info_keeps _ _ _ _ _ _ h
  | exact vdj_plugin_buffer_dsp_get_song_buffer_keeps _ _ _ _ _ _ _ _ h
  | (simp only [vdj_plugin_on_load, vdj_plugin_on_parameter,
       vdj_plugin_on_get_parameter_string, vdj_plugin_dsp_init, vdj_plugin_dsp_on_start,
       vdj_plugin_dsp_on_stop, vdj_plugin_dsp_on_process_samples, vdj_plugin_buffer_dsp_init,
       vdj_plugin_buffer_dsp_on_start, vdj_plugin_buffer_dsp_on_stop,
       vdj_plugin_position_dsp_init, vdj_plugin_position_dsp_on_start,
       vdj_plugin_position_dsp_on_stop, vdj_plugin_position_dsp_on_transform_position,
       vdj_plugin_position_dsp_on_process_samples, vdj_plugin_video_fx_on_start,
       vdj_plugin_video_fx_on_stop, vdj_plugin_video_fx_on_draw,
       vdj_plugin_video_fx_on_device_init, vdj_plugin_video_fx_on_device_close,
       vdj_plugin_video_fx_on_audio_samples, vdj_plugin_video_transition_init,
       vdj_plugin_video_transition_on_draw, vdj_plugin_video_transition_on_device_init,
       vdj_plugin_video_transition_on_device_close, vdj_plugin_online_source_init,
       vdj_plugin_online_source_is_logged, vdj_plugin_online_source_on_login,
       vdj_plugin_online_source_on_logout, vdj_plugin_online_source_on_search,
       vdj_plugin_online_source_on_search_cancel, Run.ret] at h
     split at h
     · simp only [Except.ok.injEq, Prod.mk.injEq] at h
       obtain ⟨-, rfl, -⟩ := h
       exact World.keeps_refl _
     · split at h
       · cases h
       · next p o heq =>
         have ho : w.objs plugin = some o := by
           first
           | exact World.objs_of_asPlugin _ _ _ _ heq
           | exact World.objs_of_asDsp _ _ _ _ heq
           | exact World.objs_of_asBufferDsp _ _ _ _ heq
           | exact World.objs_of_asPositionDsp _ _ _ _ heq
           | exact World.objs_of_asVideoFx _ _ _ _ heq
           | exact World.objs_of_asVideoTransition _ _ _ _ heq
           | exact World.objs_of_asOnlineSource _ _ _ _ heq
         first
         | exact World.keeps_call _ _ _ _ _ _ _ _ ho h
         | (simp only [Except.ok.injEq, Prod.mk.injEq] at h
            obtain ⟨-, rfl, -⟩ := h
            exact (World.keeps_bindAdapter _ _ _ _ ho).1))

/-- The flat `on_get_song_buffer` keeps the world. -/
theorem vdj_plugin_buffer_dsp_on_get_song_buffer_keeps (w w1 : World) (plugin : Ptr)
    (song_pos nb : Int) (r : Ptr) (t : List Event)
    (h : vdj_plugin_buffer_dsp_on_get_song_buffer w plugin song_pos nb = .ok (r, w1, t)) :
    w.keeps w1 := by
  simp only [vdj_plugin_buffer_dsp_on_get_song_buffer, Run.ret] at h
  split at h
  · simp only [Except.ok.injEq, Prod.mk.injEq] at h
    obtain ⟨-, rfl, -⟩ := h
    exact World.keeps_refl _
  · split at h
    · cases h
    · next p o heq =>
      exact World.keeps_call _ _ _ _ _ _ _ _ (World.objs_of_asBufferDsp _ _ _ _ heq) h

/-- A getter leaves the world as it was. -/
theorem Getter.run_world (g : Getter) (w w1 : World) (plugin : Ptr) (r : Num)
    (t : List Event) (h : g.run w plugin = .ok (r, w1, t)) : w1 = w := by
  cases g <;>
    (simp only [Getter.run, Run.mapValue, vdj_plugin_dsp_get_sample_rate,
       vdj_plugin_dsp_get_song_bpm, vdj_plugin_dsp_get_song_pos_beats,
       vdj_plugin_buffer_dsp_get_sample_rate, vdj_plugin_buffer_dsp_get_song_bpm,
       vdj_plugin_buffer_dsp_get_song_pos, vdj_plugin_buffer_dsp_get_song_pos_beats,
       vdj_plugin_position_dsp_get_sample_rate, vdj_plugin_position_dsp_get_song_bpm,
       vdj_plugin_position_dsp_get_song_pos, vdj_plugin_position_dsp_get_song_pos_beats,
       vdj_plugin_video_fx_get_width, vdj_plugin_video_fx_get_height,
       vdj_plugin_video_fx_get_sample_rate, vdj_plugin_video_fx_get_song_bpm,
       vdj_plugin_video_fx_get_song_pos_beats, vdj_plugin_video_transition_get_width,
       vdj_plugin_video_transition_get_height, vdj_plugin_video_transition_get_sample_rate,
       vdj_plugin_video_transition_get_song_bpm,
       vdj_plugin_video_transition_get_song_pos_beats, Run.ret] at h
     split at h
     · next a w2 t2 heq =>
       simp only [Except.ok.injEq, Prod.mk.injEq] at h
       obtain ⟨-, rfl, -⟩ := h
       split at heq
       · simp only [Except.ok.injEq, Prod.mk.injEq] at heq
         exact heq.2.1.symm
       · split at heq
         · cases heq
         · simp only [Except.ok.injEq, Prod.mk.injEq] at heq
           exact heq.2.1.symm
     · cases h)


/-- What keeping gives for one handle: the allocation invariant goes on, the handle still
points at a wrapper of the same class, the same info records are live. -/
theorem World.keeps_handle (w w1 : World) (plugin : Ptr) (impl : Impl) (f : Fields)
    (hk : w.keeps w1) (ha : w.allocated) (ho : w.objs plugin = some { impl := impl, fields := f }) :
    w1.allocated ∧ (∃ f1, w1.objs plugin = some { impl := impl, fields := f1 }) ∧
    (∀ p, (w1.infos p).isSome = (w.infos p).isSome) := by
  refine ⟨?_, ?_, hk.2.2⟩
  · intro p hp
    have h1 := hk.1 p
    rw [ha p (Nat.lt_of_le_of_lt hk.2.1 hp)] at h1
    cases h2 : w1.objs p with
    | none => rfl
    | some o => rw [h2] at h1; cases h1
  · have h1 := hk.1 plugin
    rw [ho] at h1
    cases h2 : w1.objs plugin with
    | none => rw [h2] at h1; cases h1
    | some o =>
      rw [h2] at h1
      obtain ⟨i1, f1⟩ := o
      simp only [Option.map_some', Option.some.injEq] at h1
      subst h1
      exact ⟨f1, rfl⟩

/-- The world `create` leaves: one new default wrapper with zero members at the next
address. -/
theorem create_world (k : Kind) (w : World) :
    (create k w).2
      = { w with objs := upd w.objs w.fresh (some { impl := defaultImpl k,
                                                     fields := Fields.zero }),
                 next := w.fresh } := by
  cases k <;> rfl

/-- One call, made in a world that satisfies the allocation invariant, keeps it, leaves every
live handle pointing at a wrapper of the same class, and leaves the same info records
live. -/
theorem Step.apply_keeps_handle (s : Step) (w w1 : World) (plugin : Ptr) (impl : Impl)
    (f : Fields) (ha : w.allocated) (ho : w.objs plugin = some { impl := impl, fields := f })
    (h : s.apply w = .ok w1) :
    w1.allocated ∧ (∃ f1, w1.objs plugin = some { impl := impl, fields := f1 }) ∧
    (∀ p, (w1.infos p).isSome = (w.infos p).isSome) := by
  cases s with
  | create k =>
    simp only [Step.apply, Except.ok.injEq] at h
    subst h
    rw [create_world k w]
    have hne : plugin ≠ w.fresh := by
      intro e
      rw [e, ha w.fresh (Nat.lt_succ_self _)] at ho
      cases ho
    refine ⟨?_, ⟨f, by simp [upd, hne, ho]⟩, fun _ => rfl⟩
    intro p hp
    have hp' : w.next + 1 < p := hp
    have hpne : p ≠ w.fresh := by
      intro e
      rw [e] at hp'
      exact Nat.lt_irrefl _ hp'
    simp only [upd, hpne, if_false]
    exact ha p (Nat.lt_trans (Nat.lt_succ_self _) hp')
  | op o q =>
    simp only [Step.apply] at h
    split at h
    · next r w2 t heq =>
      cases h
      exact World.keeps_handle w w1 plugin impl f (Op.run_keeps o w w1 q r t heq) ha ho
    · cases h
  | on_get_song_buffer q song_pos nb =>
    simp only [Step.apply] at h
    split at h
    · next r w2 t heq =>
      cases h
      exact World.keeps_handle w w1 plugin impl f
        (vdj_plugin_buffer_dsp_on_get_song_buffer_keeps w w1 q song_pos nb r t heq) ha ho
    · cases h
  | getter g q =>
    simp only [Step.apply] at h
    split at h
    · next r w2 t heq =>
      cases h
      rw [Getter.run_world g w w1 q r t heq]
      exact ⟨ha, ⟨f, ho⟩, fun _ => rfl⟩
    · cases h

/-- The same for a sequence of calls that runs to its end. -/
theorem runSteps_keeps_handle (steps : List Step) (w w1 : World) (plugin : Ptr) (impl : Impl)
    (f : Fields) (ha : w.allocated) (ho : w.objs plugin = some { impl := impl, fields := f })
    (h : runSteps w steps = .ok w1) :
    w1.allocated ∧ (∃ f1, w1.objs plugin = some { impl := impl, fields := f1 }) ∧
    (∀ p, (w1.infos p).isSome = (w.infos p).isSome) := by
  induction steps generalizing w f with
  | nil =>
    simp only [runSteps, Except.ok.injEq] at h
    subst h
    exact ⟨ha, ⟨f, ho⟩, fun _ => rfl⟩
  | cons s rest ih =>
    simp only [runSteps] at h
    split at h
    · next w2 heq =>
      obtain ⟨ha2, ⟨f2, ho2⟩, hi2⟩ := Step.apply_keeps_handle s w w2 plugin impl f ha ho heq
      obtain ⟨ha1, ho1, hi1⟩ := ih w2 f2 ha2 ho2 h
      exact ⟨ha1, ho1, fun p => (hi1 p).trans (hi2 p)⟩
    · cases h


/-- The value of the generic `get_info` on a default wrapper: `E_FAIL` for a null handle or a
null record, `S_OK` for a live record, a fault otherwise. -/
theorem vdj_plugin_get_info_value (k : Kind) (w : World) (plugin info : Ptr) (f : Fields)
    (ho : w.objs plugin = some { impl := defaultImpl k, fields := f }) :
    (vdj_plugin_get_info w plugin info).value
      = if plugin = nullptr ∨ info = nullptr then some E_FAIL
        else if (w.infos info).isSome then some S_OK else none := by
  by_cases hn : plugin = nullptr ∨ info = nullptr
  · simp [vdj_plugin_get_info, hn, Run.ret, Run.value]
  · simp only [vdj_plugin_get_info, hn, if_false, World.asPlugin, ho, World.call]
    cases hi : w.infos info <;> cases k <;> rfl

/-- The value of the DSP `get_info` on a default wrapper. -/
theorem vdj_plugin_dsp_get_info_value (k : Kind) (w : World) (plugin info : Ptr) (f : Fields)
    (ho : w.objs plugin = some { impl := defaultImpl k, fields := f }) :
    (vdj_plugin_dsp_get_info w plugin info).value
      = if plugin = nullptr ∨ info = nullptr then some E_FAIL
        else if k = Kind.dsp ∧ (w.infos info).isSome then some S_OK else none := by
  by_cases hn : plugin = nullptr ∨ info = nullptr
  · simp [vdj_plugin_dsp_get_info, hn, Run.ret, Run.value]
  · simp only [vdj_plugin_dsp_get_info, hn, if_false, World.asDsp, ho, World.call]
    cases hi : w.infos info <;> cases k <;> rfl


/-- On two worlds in which a handle points at the default wrapper of the same kind, with any
members, and in which the same info records are live, every flat function other than `init`
and `get_song_buffer` returns the same value (or faults in both), and so does
`on_get_song_buffer`. -/
theorem default_value_independent (k : Kind) (w w0 : World) (plugin : Ptr) (f f0 : Fields)
    (ho : w.objs plugin = some { impl := defaultImpl k, fields := f })
    (ho0 : w0.objs plugin = some { impl := defaultImpl k, fields := f0 })
    (hi : ∀ p, (w.infos p).isSome = (w0.infos p).isSome) :
    (∀ op : Op, op.isInit = false → op.routesThroughAdapter = false →
      (op.run w plugin).value = (op.run w0 plugin).value) ∧
    (∀ song_pos nb,
      (vdj_plugin_buffer_dsp_on_get_song_buffer w plugin song_pos nb).value
        = (vdj_plugin_buffer_dsp_on_get_song_buffer w0 plugin song_pos nb).value) := by
  by_cases hp : plugin = nullptr
  · subst hp
    refine ⟨?_, fun _ _ => rfl⟩
    intro op _ _
    cases op <;> rfl
  · refine ⟨?_, ?_⟩
    · intro op hinit hroute
      cases op <;> simp only [Op.isInit, Op.routesThroughAdapter] at hinit hroute <;>
      first
      | (cases hinit; done)
      | (cases hroute; done)
      | (simp only [Op.run]
         rw [vdj_plugin_get_info_value k w plugin _ f ho,
           vdj_plugin_get_info_value k w0 plugin _ f0 ho0, hi])
      | (simp only [Op.run]
         rw [vdj_plugin_dsp_get_info_value k w plugin _ f ho,
           vdj_plugin_dsp_get_info_value k w0 plugin _ f0 ho0, hi])
      | (cases k <;>
          simp [Op.run, hp, ho, ho0, Run.value, World.call, defaultImpl, Impl.base,
            vdj_plugin_on_load, vdj_plugin_on_parameter, vdj_plugin_on_get_parameter_string,
            vdj_plugin_dsp_on_start, vdj_plugin_dsp_on_stop, vdj_plugin_dsp_on_process_samples,
            vdj_plugin_buffer_dsp_on_start, vdj_plugin_buffer_dsp_on_stop,
            vdj_plugin_position_dsp_on_start, vdj_plugin_position_dsp_on_stop,
            vdj_plugin_position_dsp_on_transform_position,
            vdj_plugin_position_dsp_on_process_samples, vdj_plugin_video_fx_on_start,
            vdj_plugin_video_fx_on_stop, vdj_plugin_video_fx_on_draw,
            vdj_plugin_video_fx_on_device_init, vdj_plugin_video_fx_on_device_close,
            vdj_plugin_video_fx_on_audio_samples, vdj_plugin_video_transition_on_draw,
            vdj_plugin_video_transition_on_device_init,
            vdj_plugin_video_transition_on_device_close, vdj_plugin_online_source_is_logged,
            vdj_plugin_online_source_on_login, vdj_plugin_online_source_on_logout,
            vdj_plugin_online_source_on_search, vdj_plugin_online_source_on_search_cancel,
            World.asPlugin, World.asDsp, World.asBufferDsp, World.asPositionDsp,
            World.asVideoFx, World.asVideoTransition, World.asOnlineSource,
            VdjPluginWrapper.vtable, VdjPluginDspWrapper.vtable,
            VdjPluginBufferDspWrapper.vtable, VdjPluginPositionDspWrapper.vtable,
            VdjPluginVideoFxWrapper.vtable, VdjPluginVideoTransitionWrapper.vtable,
            VdjPluginOnlineSourceWrapper.vtable, Eff.ret,
            VdjPluginWrapper.OnLoad, VdjPluginWrapper.OnParameter,
            VdjPluginWrapper.OnGetParameterString,
            VdjPluginDspWrapper.OnLoad, VdjPluginDspWrapper.OnParameter,
            VdjPluginDspWrapper.OnGetParameterString, VdjPluginDspWrapper.OnStart,
            VdjPluginDspWrapper.OnStop, VdjPluginDspWrapper.OnProcessSamples,
            VdjPluginBufferDspWrapper.OnLoad, VdjPluginBufferDspWrapper.OnParameter,
            VdjPluginBufferDspWrapper.OnGetParameterString, VdjPluginBufferDspWrapper.OnStart,
            VdjPluginBufferDspWrapper.OnStop,
            VdjPluginPositionDspWrapper.OnLoad, VdjPluginPositionDspWrapper.OnParameter,
            VdjPluginPositionDspWrapper.OnGetParameterString,
            VdjPluginPositionDspWrapper.OnStart, VdjPluginPositionDspWrapper.OnStop,
            VdjPluginPositionDspWrapper.OnTransformPosition,
            VdjPluginPositionDspWrapper.OnProcessSamples,
            VdjPluginVideoFxWrapper.OnLoad, VdjPluginVideoFxWrapper.OnParameter,
            VdjPluginVideoFxWrapper.OnGetParameterString, VdjPluginVideoFxWrapper.OnStart,
            VdjPluginVideoFxWrapper.OnStop, VdjPluginVideoFxWrapper.OnDraw,
            VdjPluginVideoFxWrapper.OnDeviceInit, VdjPluginVideoFxWrapper.OnDeviceClose,
            VdjPluginVideoFxWrapper.OnAudioSamples,
            VdjPluginVideoTransitionWrapper.OnLoad, VdjPluginVideoTransitionWrapper.OnParameter,
            VdjPluginVideoTransitionWrapper.OnGetParameterString,
            VdjPluginVideoTransitionWrapper.OnDraw,
            VdjPluginVideoTransitionWrapper.OnDeviceInit,
            VdjPluginVideoTransitionWrapper.OnDeviceClose,
            VdjPluginOnlineSourceWrapper.OnLoad, VdjPluginOnlineSourceWrapper.OnParameter,
            VdjPluginOnlineSourceWrapper.OnGetParameterString,
            VdjPluginOnlineSourceWrapper.IsLogged, VdjPluginOnlineSourceWrapper.OnLogin,
            VdjPluginOnlineSourceWrapper.OnLogout, VdjPluginOnlineSourceWrapper.OnSearch,
            VdjPluginOnlineSourceWrapper.OnSearchCancel])
    · intro song_pos nb
      cases k <;>
        simp [vdj_plugin_buffer_dsp_on_get_song_buffer, hp, ho, ho0, Run.value, World.call,
          defaultImpl, World.asBufferDsp, VdjPluginBufferDspWrapper.vtable, Eff.ret,
          VdjPluginBufferDspWrapper.OnGetSongBuffer]


/-- On a handle to a default wrapper, every flat function of the wrapper's kind
or of the generic kind, other than `init`, `get_song_buffer` and `get_info`, returns a
value. -/
theorem default_returns (k : Kind) (w : World) (plugin : Ptr) (f : Fields)
    (ho : w.objs plugin = some { impl := defaultImpl k, fields := f }) (op : Op)
    (hinit : op.isInit = false) (hroute : op.routesThroughAdapter = false)
    (hinfo : op.isGetInfo = false) (hk : op.kind = k ∨ op.kind = Kind.plugin) :
    (op.run w plugin).value ≠ none := by
  by_cases hp : plugin = nullptr
  · subst hp
    cases op <;> simp only [Op.isInit, Op.routesThroughAdapter] at hinit hroute <;>
      first
      | (cases hinit; done)
      | (cases hroute; done)
      | (intro h; cases h)
  · cases op <;>
      simp only [Op.isInit, Op.routesThroughAdapter, Op.isGetInfo, Op.kind] at hinit hroute hinfo hk <;>
      first
      | (cases hinit; done)
      | (cases hroute; done)
      | (cases hinfo; done)
      | (cases k <;> simp at hk <;>
          simp [Op.run, hp, ho, Run.value, World.call, defaultImpl,
            vdj_plugin_on_load, vdj_plugin_on_parameter, vdj_plugin_on_get_parameter_string,
            vdj_plugin_dsp_on_start, vdj_plugin_dsp_on_stop, vdj_plugin_dsp_on_process_samples,
            vdj_plugin_buffer_dsp_on_start, vdj_plugin_buffer_dsp_on_stop,
            vdj_plugin_position_dsp_on_start, vdj_plugin_position_dsp_on_stop,
            vdj_plugin_position_dsp_on_transform_position,
            vdj_plugin_position_dsp_on_process_samples, vdj_plugin_video_fx_on_start,
            vdj_plugin_video_fx_on_stop, vdj_plugin_video_fx_on_draw,
            vdj_plugin_video_fx_on_device_init, vdj_plugin_video_fx_on_device_close,
            vdj_plugin_video_fx_on_audio_samples, vdj_plugin_video_transition_on_draw,
            vdj_plugin_video_transition_on_device_init,
            vdj_plugin_video_transition_on_device_close, vdj_plugin_online_source_is_logged,
            vdj_plugin_online_source_on_login, vdj_plugin_online_source_on_logout,
            vdj_plugin_online_source_on_search, vdj_plugin_online_source_on_search_cancel,
            World.asPlugin, World.asDsp, World.asBufferDsp, World.asPositionDsp,
            World.asVideoFx, World.asVideoTransition, World.asOnlineSource])

/-- C22. Let a handle point at the default wrapper of a kind, in any state of its members
(a Created handle is the case right after `create`, with `cb` null), in a world where the
addresses `new` will hand out are unused. After any sequence of `create`, `init`, flat
operations, `get_song_buffer`, `on_get_song_buffer` and getters, on this or on other handles,
in any order, that runs without a fault, the handle still points at the default wrapper of
that kind, and every flat function other than `init` and `get_song_buffer` (which goes
through the adapter) returns on it the value it returns before the sequence, and so does
`on_get_song_buffer`; every such function of the wrapper's kind or of the generic kind,
`get_info` apart, does return a value before the sequence, so also before `init`. -/
theorem results_do_not_depend_on_history (k : Kind) (w0 w : World) (plugin : Ptr)
    (steps : List Step) (ha : w0.allocated) (hl : w0.liveDefault k plugin)
    (hrun : runSteps w0 steps = .ok w) :
    w.liveDefault k plugin ∧
    (∀ op : Op, op.isInit = false → op.routesThroughAdapter = false →
      (op.run w plugin).value = (op.run w0 plugin).value) ∧
    (∀ song_pos nb,
      (vdj_plugin_buffer_dsp_on_get_song_buffer w plugin song_pos nb).value
        = (vdj_plugin_buffer_dsp_on_get_song_buffer w0 plugin song_pos nb).value) ∧
    (∀ op : Op, op.isInit = false → op.routesThroughAdapter = false →
      op.isGetInfo = false → (op.kind = k ∨ op.kind = Kind.plugin) →
      (op.run w0 plugin).value ≠ none) := by
  obtain ⟨f0, ho0⟩ := hl
  obtain ⟨-, ⟨f, ho⟩, hi⟩ := runSteps_keeps_handle steps w0 w plugin _ f0 ha ho0 hrun
  have hv := default_value_independent k w w0 plugin f f0 ho ho0 hi
  exact ⟨⟨f, ho⟩, hv.1, hv.2,
    fun op h1 h2 h3 h4 => default_returns k w0 plugin f0 ho0 op h1 h2 h3 h4⟩

/-- Witness for C22: the DSP handle of the host world, Created, and the same handle after
`exampleSteps` (stopped, initialised, started, queried, stopped): `on_start` and
`on_process_samples` return the same `S_OK` on both. -/
theorem results_do_not_depend_on_history_witness :
    (created .dsp).allocated ∧ (created .dsp).liveDefault .dsp 1 ∧
    runSteps (created .dsp) exampleSteps = .ok afterExampleSteps ∧
    ((created .dsp).fieldsAt 1).cb = nullptr ∧ (afterExampleSteps.fieldsAt 1).cb = 2 ∧
    (Op.dsp_on_start.run afterExampleSteps 1).value
      = (Op.dsp_on_start.run (created .dsp) 1).value ∧
    (Op.dsp_on_start.run (created .dsp) 1).value = some S_OK ∧
    ((Op.dsp_on_process_samples 4096 4).run afterExampleSteps 1).value
      = ((Op.dsp_on_process_samples 4096 4).run (created .dsp) 1).value := by
  have ha : (created .dsp).allocated := by
    intro p hp
    have hp' : 1 < p := hp
    have hne : p ≠ 1 := Nat.ne_of_gt hp'
    simp [created, create, vdj_plugin_dsp_create, World.alloc, hostWorld, World.empty, upd,
      World.fresh, hne]
  have h := results_do_not_depend_on_history .dsp (created .dsp) afterExampleSteps 1
    exampleSteps ha ⟨_, rfl⟩ rfl
  exact ⟨ha, ⟨_, rfl⟩, rfl, rfl, rfl, h.2.1 .dsp_on_start rfl rfl, rfl,
    h.2.1 (.dsp_on_process_samples 4096 4) rfl rfl⟩


/-- C23. The flat `get_info` of the generic and of the DSP kind, called with a non-null handle
and a null record, returns `E_FAIL`, calls nothing (so not `OnGetPluginInfo`) and leaves the
world as it was, although `OnGetPluginInfo` of every default wrapper, given a null record,
returns `S_OK`. Called with a non-null handle to a live wrapper of any class and a non-null
live record, it calls `OnGetPluginInfo` once, returns the result code of that call whatever
it is, and overwrites the six fields of the caller's record with the six fields the wrapper
left in the local record. -/
theorem get_info_null_record_and_overwrite (w : World) (plugin : Ptr)
    (hp : plugin ≠ nullptr) :
    vdj_plugin_get_info w plugin nullptr = .ok (E_FAIL, w, []) ∧
    vdj_plugin_dsp_get_info w plugin nullptr = .ok (E_FAIL, w, []) ∧
    (∀ (k : Kind) (f : Fields) (m : HostMem),
      (defaultImpl k).base.OnGetPluginInfo none f m = ((S_OK, none), f, m)) ∧
    (∀ (info : Ptr) (o : Object) (r : VdjPluginInfo), info ≠ nullptr →
      w.objs plugin = some o → w.infos info = some r →
      (vdj_plugin_get_info w plugin info).value
        = some (o.impl.base.OnGetPluginInfo (some TVdjPluginInfo8.zero) o.fields w.mem).1.1 ∧
      (vdj_plugin_get_info w plugin info).trace
        = [Event.virt plugin (.OnGetPluginInfo (some TVdjPluginInfo8.zero))] ∧
      ((vdj_plugin_get_info w plugin info).worldOr w).infos info
        = some
          { plugin_name := ((o.impl.base.OnGetPluginInfo (some TVdjPluginInfo8.zero) o.fields
              w.mem).1.2.getD TVdjPluginInfo8.zero).PluginName,
            author := ((o.impl.base.OnGetPluginInfo (some TVdjPluginInfo8.zero) o.fields
              w.mem).1.2.getD TVdjPluginInfo8.zero).Author,
            description := ((o.impl.base.OnGetPluginInfo (some TVdjPluginInfo8.zero) o.fields
              w.mem).1.2.getD TVdjPluginInfo8.zero).Description,
            version := ((o.impl.base.OnGetPluginInfo (some TVdjPluginInfo8.zero) o.fields
              w.mem).1.2.getD TVdjPluginInfo8.zero).Version,
            bitmap := ((o.impl.base.OnGetPluginInfo (some TVdjPluginInfo8.zero) o.fields
              w.mem).1.2.getD TVdjPluginInfo8.zero).Bitmap,
            flags := ((o.impl.base.OnGetPluginInfo (some TVdjPluginInfo8.zero) o.fields
              w.mem).1.2.getD TVdjPluginInfo8.zero).Flags } ∧
      (o.impl.kind = .dsp →
        (vdj_plugin_dsp_get_info w plugin info).value
          = (vdj_plugin_get_info w plugin info).value ∧
        (vdj_plugin_dsp_get_info w plugin info).trace
          = (vdj_plugin_get_info w plugin info).trace ∧
        ((vdj_plugin_dsp_get_info w plugin info).worldOr w).infos info
          = ((vdj_plugin_get_info w plugin info).worldOr w).infos info)) := by
  refine ⟨?_, ?_, ?_, ?_⟩
  · simp [vdj_plugin_get_info, Run.ret]
  · simp [vdj_plugin_dsp_get_info, Run.ret]
  · intro k f m
    cases k <;> rfl
  · intro info o r hi ho hr
    obtain ⟨impl, f⟩ := o
    have e1 : vdj_plugin_get_info w plugin info
        = .ok ((impl.base.OnGetPluginInfo (some TVdjPluginInfo8.zero) f w.mem).1.1,
               { w with
                 objs := upd w.objs plugin (some (Object.mk impl
                   (impl.base.OnGetPluginInfo (some TVdjPluginInfo8.zero) f w.mem).2.1)),
                 mem := (impl.base.OnGetPluginInfo (some TVdjPluginInfo8.zero) f w.mem).2.2,
                 infos := upd w.infos info (some (VdjPluginInfo.ofCpp
                   ((impl.base.OnGetPluginInfo (some TVdjPluginInfo8.zero) f w.mem).1.2.getD
                     TVdjPluginInfo8.zero))) },
               [Event.virt plugin (.OnGetPluginInfo (some TVdjPluginInfo8.zero))]) := by
      simp [vdj_plugin_get_info, hp, hi, World.asPlugin, ho, World.call, hr,
        VdjPluginInfo.ofCpp]
    refine ⟨by rw [e1]; rfl, by rw [e1]; rfl, ?_, ?_⟩
    · rw [e1]
      simp [Run.worldOr, upd, VdjPluginInfo.ofCpp]
    · intro hk
      cases impl <;> simp only [Impl.kind] at hk <;> try cases hk
      have e2 : vdj_plugin_dsp_get_info w plugin info = vdj_plugin_get_info w plugin info := by
        rw [e1]
        simp [vdj_plugin_dsp_get_info, hp, hi, World.asDsp, ho, World.call, hr,
          VdjPluginInfo.ofCpp, Impl.base]
      rw [e2]
      exact ⟨rfl, rfl, rfl⟩

/-- Witness for C23: on the world with the class `bareImpl` at handle 1, whose
`OnGetPluginInfo` returns `E_NOTIMPL` and leaves the record alone, `get_info` with the record
at address 30 returns `E_NOTIMPL` and the record has six zero fields afterwards; with a null
record it returns `E_FAIL`. -/
theorem get_info_null_record_and_overwrite_witness :
    (1 : Ptr) ≠ nullptr ∧
    vdj_plugin_get_info bareWorld 1 nullptr = .ok (E_FAIL, bareWorld, []) ∧
    (vdj_plugin_get_info bareWorld 1 30).value = some E_NOTIMPL ∧
    ((vdj_plugin_get_info bareWorld 1 30).worldOr bareWorld).infos 30
      = some { plugin_name := none, author := none, description := none, version := none,
               bitmap := 0, flags := 0 } := by
  have h := get_info_null_record_and_overwrite bareWorld 1 (by decide)
  refine ⟨by decide, h.1, ?_, ?_⟩
  · rw [(h.2.2.2 30 _ _ (by decide) rfl rfl).1]
    rfl
  · rw [(h.2.2.2 30 _ _ (by decide) rfl rfl).2.2.1]
    rfl


/-- C24. With a non-null handle to a live wrapper of any class and a non-null table: the
generic `init` first builds the adapter and stores it in `cb`, then calls the wrapper's
`OnLoad` exactly once, on the members with the adapter already bound, and returns the result
of that call whatever it is; the adapter is live afterwards and the members are the ones
`OnLoad` left, so when `OnLoad` leaves `cb` alone the adapter is still bound, also when
`OnLoad` reported a failure. The `init` of each of the six other kinds, when its null checks
pass on a live wrapper of its kind, calls no wrapper operation and returns `S_OK`. -/
theorem generic_init_returns_on_load (w : World) (plugin callbacks video_callbacks : Ptr)
    (hp : plugin ≠ nullptr) (hc : callbacks ≠ nullptr) :
    (∀ o, w.objs plugin = some o →
      (vdj_plugin_init w plugin callbacks).value
        = some (o.impl.base.OnLoad { o.fields with cb := w.fresh } w.mem).1 ∧
      (vdj_plugin_init w plugin callbacks).trace = [Event.virt plugin .OnLoad] ∧
      ((vdj_plugin_init w plugin callbacks).worldOr w).adapters w.fresh
        = some { c_callbacks := callbacks, plugin := plugin } ∧
      ((vdj_plugin_init w plugin callbacks).worldOr w).objs plugin
        = some { o with
            fields := (o.impl.base.OnLoad { o.fields with cb := w.fresh } w.mem).2.1 } ∧
      ((o.impl.base.OnLoad { o.fields with cb := w.fresh } w.mem).2.1.cb = w.fresh →
        (((vdj_plugin_init w plugin callbacks).worldOr w).fieldsAt plugin).cb = w.fresh ∧
        w.fresh ≠ nullptr)) ∧
    (∀ k, k ≠ Kind.plugin → w.live k plugin →
      (k.isVideo = true → video_callbacks ≠ nullptr) →
      (init k w plugin callbacks video_callbacks).value = some S_OK ∧
      (init k w plugin callbacks video_callbacks).trace = []) := by
  refine ⟨?_, ?_⟩
  · intro o ho
    have e : vdj_plugin_init w plugin callbacks
        = (w.bindAdapter plugin o callbacks).1.call plugin (w.bindAdapter plugin o callbacks).2
            .OnLoad o.impl.base.OnLoad := by
      simp [vdj_plugin_init, hp, hc, World.asPlugin, ho]
    rw [e]
    refine ⟨rfl, rfl, ?_, ?_, ?_⟩
    · simp [World.call, Run.worldOr, World.bindAdapter, upd]
    · simp [World.call, Run.worldOr, World.bindAdapter, upd]
    · intro hcb
      refine ⟨?_, by simp [World.fresh, nullptr]⟩
      simp only [World.fieldsAt, World.call, Run.worldOr, World.bindAdapter, upd, if_true]
      exact hcb
  · intro k hk hl hv
    obtain ⟨o, ho, hko⟩ := hl
    rw [init_of_nonnull k w plugin callbacks video_callbacks o ho hko hp hc hv]
    cases k
    · exact absurd rfl hk
    all_goals exact ⟨rfl, rfl⟩

/-- Witness for C24: on the world with the class `failingLoadImpl` at handle 1, whose
`OnLoad` returns `E_FAIL`, the generic `init` with the table at address 10 returns `E_FAIL`
after one call of `OnLoad`, and the adapter at address 2 is live and bound. -/
theorem generic_init_returns_on_load_witness :
    (1 : Ptr) ≠ nullptr ∧ (10 : Ptr) ≠ nullptr ∧
    (vdj_plugin_init failingLoadWorld 1 10).value = some E_FAIL ∧
    (vdj_plugin_init failingLoadWorld 1 10).trace = [Event.virt 1 .OnLoad] ∧
    ((vdj_plugin_init failingLoadWorld 1 10).worldOr failingLoadWorld).adapters 2
      = some { c_callbacks := 10, plugin := 1 } ∧
    (((vdj_plugin_init failingLoadWorld 1 10).worldOr failingLoadWorld).fieldsAt 1).cb = 2 := by
  have h := (generic_init_returns_on_load failingLoadWorld 1 10 0 (by decide) (by decide)).1
    _ rfl
  exact ⟨by decide, by decide, h.1, h.2.1, h.2.2.1, (h.2.2.2.2 rfl).1⟩


/-- C25. For a non-null Position-DSP handle to the default wrapper, `on_transform_position`
returns `S_OK` for every four pointers, null pointers included, calls `OnTransformPosition`
once and leaves the world as it was; in particular the values behind the four pointers (song
position, video position, volume, source volume) are what they were. -/
theorem on_transform_position_changes_nothing (w : World) (plugin : Ptr)
    (song_pos video_pos volume src_volume : Ptr)
    (hp : plugin ≠ nullptr) (hl : w.liveDefault .positionDsp plugin) :
    vdj_plugin_position_dsp_on_transform_position w plugin song_pos video_pos volume
        src_volume
      = .ok (S_OK, w,
             [Event.virt plugin (.OnTransformPosition song_pos video_pos volume src_volume)]) ∧
    (∀ p ∈ [song_pos, video_pos, volume, src_volume],
      ((vdj_plugin_position_dsp_on_transform_position w plugin song_pos video_pos volume
        src_volume).worldOr w).mem p = w.mem p) := by
  obtain ⟨f, hf⟩ := hl
  have h : vdj_plugin_position_dsp_on_transform_position w plugin song_pos video_pos volume
        src_volume
      = .ok (S_OK, w,
             [Event.virt plugin (.OnTransformPosition song_pos video_pos volume src_volume)]) := by
    simp only [vdj_plugin_position_dsp_on_transform_position, hp, if_false,
      World.asPositionDsp, hf, defaultImpl]
    exact World.call_ret w plugin _ _ S_OK hf
  refine ⟨h, ?_⟩
  intro p _
  rw [h]
  rfl

/-- Witness for C25: the Position-DSP handle of the host world, with pointers to the four
words at addresses 4096 to 4099, and with four null pointers. -/
theorem on_transform_position_changes_nothing_witness :
    (1 : Ptr) ≠ nullptr ∧ (created .positionDsp).liveDefault .positionDsp 1 ∧
    vdj_plugin_position_dsp_on_transform_position (created .positionDsp) 1 4096 4097 4098 4099
      = .ok (S_OK, created .positionDsp,
             [Event.virt 1 (.OnTransformPosition 4096 4097 4098 4099)]) ∧
    vdj_plugin_position_dsp_on_transform_position (created .positionDsp) 1 0 0 0 0
      = .ok (S_OK, created .positionDsp, [Event.virt 1 (.OnTransformPosition 0 0 0 0)]) :=
  ⟨by decide, ⟨_, rfl⟩,
   (on_transform_position_changes_nothing (created .positionDsp) 1 4096 4097 4098 4099
     (by decide) ⟨_, rfl⟩).1,
   (on_transform_position_changes_nothing (created .positionDsp) 1 0 0 0 0
     (by decide) ⟨_, rfl⟩).1⟩


end VdjShim
